import Mathlib

/-!
# Constraint modules of the MPC planner

A shallow embedding of the constraint-generation modules of `mpc_planner`
(`LinearizedConstraints`, `EllipsoidConstraints`, `GaussianConstraints`) and of the
data types they read (`data_types.cpp`).

Conventions of the embedding.

* `double` is a type parameter `F`. The functions of `LinearizedConstraints::update` use
  only `+`, `-`, `*`, `/` and numerals of `F`, so they run in an exact field and in
  `Binary64`, the model of IEEE 754 `double` given below. Theorems about geometry are stated
  over an ordered field with an exact square root (exact arithmetic); what rounding does to
  them is shown by evaluation in `Binary64`. The data-movement theorems hold over any field.
* `std::vector` is `List`; an access out of range (undefined behaviour in the source) makes
  the embedded function return `none`.
* Container sizes and the integer configuration entries are natural numbers: sizes are
  assumed to fit the `int` they are cast to in the source.
* The solver parameter sink `_solver->_params` is the chronological list of the writes made
  by the generated `setSolverParameter...` functions.
-/

namespace MPCPlanner

/-! ## Data model (`data_types.h` / `data_types.cpp`) -/

/-- Modelled from the spec: the declaration of `PredictionType` (in `data_types.h`) is not
among the sources; the spec lists the type tags NONE, DETERMINISTIC, GAUSSIAN. -/
inductive PredictionType where
  | NONE
  | DETERMINISTIC
  | GAUSSIAN
  deriving DecidableEq, Repr

/-- Modelled from the spec: the declaration of `ObstacleType` (in `data_types.h`) is not
among the sources; the spec lists the classifications STATIC, DYNAMIC. -/
inductive ObstacleType where
  | STATIC
  | DYNAMIC
  deriving DecidableEq, Repr

/-- An `Eigen::Vector2d`. -/
structure Vector2d (F : Type) where
  x : F
  y : F
  deriving DecidableEq, Repr

/-- The footprint disc `Disc(offset_, radius_)`. -/
structure Disc (F : Type) where
  offset : F
  radius : F
  deriving DecidableEq, Repr

/-- The linear inequality `Halfspace(A, b)`. -/
structure Halfspace (F : Type) where
  A : Vector2d F
  b : F
  deriving DecidableEq, Repr

/-- One step of a predicted trajectory,
`PredictionStep(position, angle, major_radius, minor_radius)`. -/
structure PredictionStep (F : Type) where
  position : Vector2d F
  angle : F
  major_radius : F
  minor_radius : F
  deriving DecidableEq, Repr

/-- A `Prediction`: a type tag, the modes (each a sequence of steps) and their
probabilities. -/
structure Prediction (F : Type) where
  type : PredictionType
  modes : List (List (PredictionStep F))
  probabilities : List F
  deriving DecidableEq, Repr

/-- The default constructor `Prediction::Prediction()`. -/
def Prediction.default (F : Type) : Prediction F :=
  { type := PredictionType.NONE, modes := [], probabilities := [] }

/-- The constructor `Prediction::Prediction(PredictionType type)`: a deterministic or
Gaussian prediction starts with one mode that has no steps yet. -/
def Prediction.ofType {F : Type} [One F] (type : PredictionType) : Prediction F :=
  if type = PredictionType.DETERMINISTIC ∨ type = PredictionType.GAUSSIAN then
    { type := type, modes := [[]], probabilities := [1] }
  else
    { type := type, modes := [], probabilities := [] }

/-- The source's `Prediction::empty()`:
`modes.empty() || (modes.size() > 0 && modes[0].empty())`. -/
def Prediction.empty {F : Type} (p : Prediction F) : Bool :=
  p.modes.isEmpty ||
    (decide (p.modes.length > 0) &&
      (match p.modes with
        | [] => true
        | mode0 :: _ => mode0.isEmpty))

/-- A `DynamicObstacle(_index, _position, _angle, _radius, _type)` with its prediction. -/
structure DynamicObstacle (F : Type) where
  index : Int
  position : Vector2d F
  angle : F
  radius : F
  type : ObstacleType
  prediction : Prediction F
  deriving DecidableEq, Repr

/-- The part of `RealTimeData` the constraint modules read. -/
structure RealTimeData (F : Type) where
  robot_area : List (Disc F)
  dynamic_obstacles : List (DynamicObstacle F)
  deriving DecidableEq, Repr

/-- The part of `ModuleData` the constraint modules read: per stage, the static
half-spaces published by other modules. -/
structure ModuleData (F : Type) where
  static_obstacles : List (List (Halfspace F))
  deriving DecidableEq, Repr

/-- The entries of the configuration (`CONFIG[...]`) read by the constraint modules. -/
structure Config (F : Type) where
  n_discs : Nat
  N : Nat
  max_obstacles : Nat
  add_halfspaces : Nat
  robot_radius : F
  obstacle_radius : F
  risk : F

/-! ## `isDataReady` of the three modules -/

/-- The obstacle loop of `LinearizedConstraints::isDataReady` (lines 199-213): the first
obstacle with an empty prediction or an unsupported type ends the loop with `false` and one
appended reason. -/
def LinearizedConstraints.isDataReadyLoop {F : Type} :
    List (DynamicObstacle F) → String → Bool × String
  | [], missing_data => (true, missing_data)
  | obstacle :: rest, missing_data =>
    if obstacle.prediction.empty then
      (false, missing_data ++ "Obstacle Prediction ")
    else if obstacle.prediction.type ≠ PredictionType.DETERMINISTIC ∧
        obstacle.prediction.type ≠ PredictionType.GAUSSIAN then
      (false, missing_data ++ "Obstacle Prediction (type must be deterministic, or gaussian) ")
    else
      LinearizedConstraints.isDataReadyLoop rest missing_data

/-- The obstacle loop of `EllipsoidConstraints::isDataReady` (lines 106-119). -/
def EllipsoidConstraints.isDataReadyLoop {F : Type} :
    List (DynamicObstacle F) → String → Bool × String
  | [], missing_data => (true, missing_data)
  | obstacle :: rest, missing_data =>
    if obstacle.prediction.empty then
      (false, missing_data ++ "Obstacle Prediction ")
    else if obstacle.prediction.type ≠ PredictionType.GAUSSIAN ∧
        obstacle.prediction.type ≠ PredictionType.DETERMINISTIC then
      (false, missing_data ++ "Obstacle Prediction (Type is incorrect) ")
    else
      EllipsoidConstraints.isDataReadyLoop rest missing_data

/-- The source's `EllipsoidConstraints::isDataReady(data, missing_data)`. -/
def EllipsoidConstraints.isDataReady {F : Type} (config : Config F)
    (data : RealTimeData F) (missing_data : String) : Bool × String :=
  if data.robot_area.length = 0 then
    (false, missing_data ++ "Robot area ")
  else if data.dynamic_obstacles.length ≠ config.max_obstacles then
    (false, missing_data ++ "Obstacles ")
  else
    EllipsoidConstraints.isDataReadyLoop data.dynamic_obstacles missing_data

/-- The obstacle loop of `GaussianConstraints::isDataReady` (lines 89-102); it tests
`prediction.modes.empty()`, not `prediction.empty()`. -/
def GaussianConstraints.isDataReadyLoop {F : Type} :
    List (DynamicObstacle F) → String → Bool × String
  | [], missing_data => (true, missing_data)
  | obstacle :: rest, missing_data =>
    if obstacle.prediction.modes.isEmpty then
      (false, missing_data ++ "Obstacle Prediction ")
    else if obstacle.prediction.type ≠ PredictionType.GAUSSIAN then
      (false, missing_data ++ "Obstacle Prediction (Type is not Gaussian) ")
    else
      GaussianConstraints.isDataReadyLoop rest missing_data

/-- The source's `GaussianConstraints::isDataReady(data, missing_data)`. -/
def GaussianConstraints.isDataReady {F : Type} (config : Config F)
    (data : RealTimeData F) (missing_data : String) : Bool × String :=
  if data.dynamic_obstacles.length ≠ config.max_obstacles then
    (false, missing_data ++ "Obstacles ")
  else
    GaussianConstraints.isDataReadyLoop data.dynamic_obstacles missing_data

/-! ## Numerics, state, solver -/

/-- The functions of `<cmath>` the modules call (`std::cos`, `std::sin`, and the `std::sqrt`
inside `Eigen`'s `norm()`). -/
structure Numerics (F : Type) where
  sqrt : F → F
  cos : F → F
  sin : F → F

/-- Difference of two `Eigen::Vector2d`. -/
def Vector2d.sub {F : Type} [Sub F] (a b : Vector2d F) : Vector2d F :=
  ⟨a.x - b.x, a.y - b.y⟩

/-- Sum of two `Eigen::Vector2d`. -/
def Vector2d.add {F : Type} [Add F] (a b : Vector2d F) : Vector2d F :=
  ⟨a.x + b.x, a.y + b.y⟩

/-- The Euclidean norm `v.norm()`, the square root of the squared norm. -/
def Vector2d.norm {F : Type} [Add F] [Mul F] (num : Numerics F) (v : Vector2d F) : F :=
  num.sqrt (v.x * v.x + v.y * v.y)

/-- The source's `Disc::getPosition(robot_position, angle)`. -/
def Disc.getPosition {F : Type} [Add F] [Mul F] (num : Numerics F) (disc : Disc F)
    (robot_position : Vector2d F) (angle : F) : Vector2d F :=
  robot_position.add ⟨disc.offset * num.cos angle, disc.offset * num.sin angle⟩

/-- The source's `Disc::toRobotCenter(disc_position, angle)`. -/
def Disc.toRobotCenter {F : Type} [Sub F] [Mul F] (num : Numerics F) (disc : Disc F)
    (disc_position : Vector2d F) (angle : F) : Vector2d F :=
  disc_position.sub ⟨disc.offset * num.cos angle, disc.offset * num.sin angle⟩

/-- Modelled from the spec: the class `State` is not among the sources; the spec describes
it as named scalar fields, read with `state.get(name)`. -/
structure State (F : Type) where
  get : String → F

/-- The named fields of the solver's parameter sink written by the three modules. -/
inductive ParameterField where
  | LinConstraintA1
  | LinConstraintA2
  | LinConstraintB
  | EgoDiscOffset
  | EgoDiscRadius
  | EllipsoidObstX
  | EllipsoidObstY
  | EllipsoidObstPsi
  | EllipsoidObstR
  | EllipsoidObstMajor
  | EllipsoidObstMinor
  | EllipsoidObstChi
  | GaussianObstX
  | GaussianObstY
  | GaussianObstMajor
  | GaussianObstMinor
  | GaussianObstRisk
  | GaussianObstR
  deriving DecidableEq, Repr

/-- One write into the parameter sink: the field, the stage `k`, the value and the slot
index. -/
structure ParameterWrite (F : Type) where
  field : ParameterField
  k : Nat
  value : F
  index : Nat
  deriving DecidableEq, Repr

/-- Modelled from the spec: the generated functions `setSolverParameter<Field>(k, params,
value, index)` of `mpc_planner_parameters.h` are not among the sources; the spec describes
the sink as addressed by (stage, named field, slot index). A call is recorded at the end of
the list of writes. -/
def setSolverParameter {F : Type} (field : ParameterField) (k : Nat)
    (params : List (ParameterWrite F)) (value : F) (index : Nat) : List (ParameterWrite F) :=
  params ++ [⟨field, k, value, index⟩]

/-- The values written to slot `index` of `field` at stage `k`, oldest first. -/
def valuesAt {F : Type} (params : List (ParameterWrite F)) (field : ParameterField)
    (k index : Nat) : List F :=
  (params.filter fun w => decide (w.field = field ∧ w.k = k ∧ w.index = index)).map
    fun w => w.value

/-- Modelled from the spec: the class `Solver` is not among the sources; the modules use its
horizon `N`, the ego-trajectory query `getEgoPrediction(k, name)` and the parameter sink
`_params`. -/
structure Solver (F : Type) where
  N : Nat
  getEgoPrediction : Nat → String → F
  _params : List (ParameterWrite F)

/-- The signature of `DouglasRachford::douglasRachfordProjection(p, delta, anchor, r,
start_pose)` of `ros_tools`, an external library: the new value of `p`. -/
abbrev DouglasRachford (F : Type) :=
  Vector2d F → Vector2d F → Vector2d F → F → Vector2d F → Vector2d F

/-- A counted loop `for (i = start; i < start + count; i++)` whose body may fail. -/
def forLoop {σ : Type} (body : Nat → σ → Option σ) : Nat → Nat → σ → Option σ
  | _, 0, s => some s
  | start, count + 1, s => (body start s).bind (forLoop body (start + 1) count)

/-! ## `LinearizedConstraints` -/

/-- A constraint buffer `std::vector<std::vector<Eigen::ArrayXd>>`, indexed
`[disc][stage](slot)`. -/
abbrev Buffer (F : Type) := List (List (List F))

/-- Read `buffer[d][k](i)`; `none` when an index is out of range. -/
def Buffer.read {F : Type} (buffer : Buffer F) (d k i : Nat) : Option F :=
  match buffer[d]? with
  | none => none
  | some row =>
    match row[k]? with
    | none => none
    | some arr => arr[i]?

/-- Assign `buffer[d][k](i) = value`; `none` when an index is out of range. -/
def Buffer.write {F : Type} (buffer : Buffer F) (d k i : Nat) (value : F) :
    Option (Buffer F) :=
  match buffer[d]? with
  | none => none
  | some row =>
    match row[k]? with
    | none => none
    | some arr =>
      if i < arr.length then some (buffer.set d (row.set k (arr.set i value))) else none

/-- One `LOG_WARN` line of `update`: the number of half-spaces expected and the number
present. -/
structure HalfspaceWarning where
  expected : Nat
  present : Nat
  deriving DecidableEq, Repr

/-- The members of the class `LinearizedConstraints` (`linearized_constraints.h`), and the
warnings the module has logged. -/
structure LinearizedConstraints (F : Type) where
  _a1 : Buffer F
  _a2 : Buffer F
  _b : Buffer F
  _dummy_a1 : F
  _dummy_a2 : F
  _dummy_b : F
  _use_guidance : Bool
  _n_discs : Nat
  _n_other_halfspaces : Nat
  _num_obstacles : Nat
  _max_obstacles : Nat
  warnings : List HalfspaceWarning

/-- The values found in memory that the constructor does not initialise: the entries of the
three buffers and `_dummy_b`. -/
structure Uninitialized (F : Type) where
  a1 : Nat → Nat → Nat → F
  a2 : Nat → Nat → Nat → F
  b : Nat → Nat → Nat → F
  dummy_b : F

/-- A buffer of `n_discs` rows of `N` arrays of `n_constraints` entries. -/
def Buffer.allocate {F : Type} (n_discs N n_constraints : Nat) (content : Nat → Nat → Nat → F) :
    Buffer F :=
  (List.range n_discs).map fun d =>
    (List.range N).map fun k => (List.range n_constraints).map fun i => content d k i

/-- The constructor `LinearizedConstraints::LinearizedConstraints(solver)`. -/
def LinearizedConstraints.new {F : Type} [Zero F] [One F] (config : Config F)
    (memory : Uninitialized F) : LinearizedConstraints F :=
  { _a1 := Buffer.allocate config.n_discs config.N
      (config.max_obstacles + config.add_halfspaces) memory.a1
    _a2 := Buffer.allocate config.n_discs config.N
      (config.max_obstacles + config.add_halfspaces) memory.a2
    _b := Buffer.allocate config.n_discs config.N
      (config.max_obstacles + config.add_halfspaces) memory.b
    _dummy_a1 := 1
    _dummy_a2 := 0
    _dummy_b := memory.dummy_b
    _use_guidance := false
    _n_discs := config.n_discs
    _n_other_halfspaces := config.add_halfspaces
    _num_obstacles := 0
    _max_obstacles := config.max_obstacles
    warnings := [] }

/-- The source's `LinearizedConstraints::setTopologyConstraints()`. -/
def LinearizedConstraints.setTopologyConstraints {F : Type} (m : LinearizedConstraints F) :
    LinearizedConstraints F :=
  { m with _n_discs := 1, _use_guidance := true }

/-- The expression `obstacle.prediction.modes[0][k - 1].position`. -/
def DynamicObstacle.predictedPosition {F : Type} (obstacle : DynamicObstacle F) (k : Nat) :
    Option (Vector2d F) :=
  if k = 0 then none
  else
    match obstacle.prediction.modes[0]? with
    | none => none
    | some mode =>
      match mode[k - 1]? with
      | none => none
      | some step => some step.position

/-- The radius `_use_guidance ? 1e-3 : obstacle.radius` plus `CONFIG["robot_radius"]`. -/
def LinearizedConstraints.inflatedRadius {F : Type}
    [Add F] [Sub F] [Mul F] [Div F] [One F] [NatCast F] (config : Config F)
    (m : LinearizedConstraints F) (obstacle : DynamicObstacle F) : F :=
  (if m._use_guidance then 1 / 1000 else obstacle.radius) + config.robot_radius

/-- One call of the projection in `projectToSafety` (lines 140-145), for one obstacle. -/
def LinearizedConstraints.projectionStep {F : Type}
    [Add F] [Sub F] [Mul F] [Div F] [One F] [NatCast F] (dr : DouglasRachford F)
    (config : Config F) (m : LinearizedConstraints F)
    (copied_obstacles : List (DynamicObstacle F)) (k : Nat) (pos : Vector2d F)
    (obstacle : DynamicObstacle F) : Option (Vector2d F) :=
  match obstacle.predictedPosition k with
  | none => none
  | some delta =>
    match copied_obstacles[0]? with
    | none => none
    | some first =>
      match first.predictedPosition k with
      | none => none
      | some anchor =>
        some (dr pos delta anchor (LinearizedConstraints.inflatedRadius config m obstacle) pos)

/-- The source's `LinearizedConstraints::projectToSafety(copied_obstacles, k, pos)`: the new
value of `pos`. -/
def LinearizedConstraints.projectToSafety {F : Type}
    [Add F] [Sub F] [Mul F] [Div F] [One F] [NatCast F] (dr : DouglasRachford F)
    (config : Config F) (m : LinearizedConstraints F)
    (copied_obstacles : List (DynamicObstacle F)) (k : Nat) (pos : Vector2d F) :
    Option (Vector2d F) :=
  if copied_obstacles.isEmpty then some pos
  else
    forLoop
      (fun _ pos =>
        copied_obstacles.foldlM
          (LinearizedConstraints.projectionStep dr config m copied_obstacles k) pos)
      0 3 pos

/-- Lines 65-82 of `update`: the point about which the constraints of stage `k` and disc `d`
are linearized, the projected disc position (or, with guidance, the projected robot
position). -/
def LinearizedConstraints.anchor {F : Type}
    [Add F] [Sub F] [Mul F] [Div F] [One F] [NatCast F] (num : Numerics F)
    (dr : DouglasRachford F) (config : Config F) (solver : Solver F)
    (m : LinearizedConstraints F) (data : RealTimeData F)
    (copied_obstacles : List (DynamicObstacle F)) (k d : Nat) : Option (Vector2d F) :=
  let pos : Vector2d F := ⟨solver.getEgoPrediction k "x", solver.getEgoPrediction k "y"⟩
  if !m._use_guidance then
    match data.robot_area[d]? with
    | none => none
    | some disc =>
      LinearizedConstraints.projectToSafety dr config m copied_obstacles k
        (disc.getPosition num pos (solver.getEgoPrediction k "psi"))
  else
    LinearizedConstraints.projectToSafety dr config m copied_obstacles k pos

/-- The body of the obstacle loop of `update` (lines 87-104) for obstacle `obs_id`. -/
def LinearizedConstraints.linearizeObstacle {F : Type}
    [Add F] [Sub F] [Mul F] [Div F] [One F] [NatCast F] (num : Numerics F)
    (config : Config F) (copied_obstacles : List (DynamicObstacle F)) (k d : Nat)
    (pos : Vector2d F) (obs_id : Nat) (m : LinearizedConstraints F) :
    Option (LinearizedConstraints F) :=
  match copied_obstacles[obs_id]? with
  | none => none
  | some copied_obstacle =>
    match copied_obstacle.predictedPosition k with
    | none => none
    | some obstacle_pos =>
      let diff_x := obstacle_pos.x - pos.x
      let diff_y := obstacle_pos.y - pos.y
      let dist := (obstacle_pos.sub pos).norm num
      match m._a1.write d k obs_id (diff_x / dist) with
      | none => none
      | some a1 =>
        match m._a2.write d k obs_id (diff_y / dist) with
        | none => none
        | some a2 =>
          match a1.read d k obs_id, a2.read d k obs_id with
          | some a1_value, some a2_value =>
            match m._b.write d k obs_id
                (a1_value * obstacle_pos.x + a2_value * obstacle_pos.y -
                  LinearizedConstraints.inflatedRadius config m copied_obstacle) with
            | none => none
            | some b => some { m with _a1 := a1, _a2 := a2, _b := b }
          | _, _ => none

/-- The body of the half-space loop of `update` (lines 119-122) for half-space `h` of the
stage. -/
def LinearizedConstraints.storeHalfspace {F : Type} (halfspaces : List (Halfspace F))
    (num_obstacles k d : Nat) (h : Nat) (m : LinearizedConstraints F) :
    Option (LinearizedConstraints F) :=
  let obs_id := num_obstacles + h
  match halfspaces[h]? with
  | none => none
  | some halfspace =>
    match m._a1.write d k obs_id halfspace.A.x with
    | none => none
    | some a1 =>
      match m._a2.write d k obs_id halfspace.A.y with
      | none => none
      | some a2 =>
        match m._b.write d k obs_id halfspace.b with
        | none => none
        | some b => some { m with _a1 := a1, _a2 := a2, _b := b }

/-- Lines 107-111 of `update`: the warning when fewer half-spaces are present than
configured. -/
def LinearizedConstraints.warnHalfspaces {F : Type} (module_data : ModuleData F) (k : Nat)
    (m : LinearizedConstraints F) : Option (LinearizedConstraints F) :=
  if module_data.static_obstacles.isEmpty then some m
  else
    match module_data.static_obstacles[k]? with
    | none => none
    | some halfspaces =>
      if halfspaces.length < m._n_other_halfspaces then
        some { m with
          warnings := m.warnings ++ [⟨m._n_other_halfspaces, halfspaces.length⟩] }
      else some m

/-- Lines 113-124 of `update`: copy the static half-spaces of stage `k` behind the obstacle
slots. -/
def LinearizedConstraints.storeHalfspaces {F : Type} (module_data : ModuleData F)
    (num_obstacles k d : Nat) (m : LinearizedConstraints F) :
    Option (LinearizedConstraints F) :=
  if module_data.static_obstacles.isEmpty then some m
  else
    match module_data.static_obstacles[k]? with
    | none => none
    | some halfspaces =>
      forLoop (LinearizedConstraints.storeHalfspace halfspaces num_obstacles k d) 0
        (min halfspaces.length m._n_other_halfspaces) m

/-- The body of the loops of `update` over the stages and the discs (lines 65-124). -/
def LinearizedConstraints.updateDisc {F : Type}
    [Add F] [Sub F] [Mul F] [Div F] [One F] [NatCast F] (num : Numerics F)
    (dr : DouglasRachford F) (config : Config F) (solver : Solver F) (data : RealTimeData F)
    (module_data : ModuleData F) (copied_obstacles : List (DynamicObstacle F)) (k d : Nat)
    (m : LinearizedConstraints F) : Option (LinearizedConstraints F) :=
  match LinearizedConstraints.anchor num dr config solver m data copied_obstacles k d with
  | none => none
  | some pos =>
    match forLoop (LinearizedConstraints.linearizeObstacle num config copied_obstacles k d pos)
        0 copied_obstacles.length m with
    | none => none
    | some m1 =>
      match LinearizedConstraints.warnHalfspaces module_data k m1 with
      | none => none
      | some m2 =>
        LinearizedConstraints.storeHalfspaces module_data copied_obstacles.length k d m2

/-- The source's `LinearizedConstraints::update(state, data, module_data)`; `none` when an
index is out of range. -/
def LinearizedConstraints.update {F : Type}
    [Add F] [Sub F] [Mul F] [Div F] [One F] [NatCast F] (num : Numerics F)
    (dr : DouglasRachford F) (config : Config F) (solver : Solver F)
    (m : LinearizedConstraints F) (state : State F) (data : RealTimeData F)
    (module_data : ModuleData F) : Option (LinearizedConstraints F) :=
  let copied_obstacles := data.dynamic_obstacles
  forLoop
    (fun k m =>
      forLoop
        (LinearizedConstraints.updateDisc num dr config solver data module_data
          copied_obstacles k)
        0 m._n_discs m)
    1 (solver.N - 1)
    { m with _dummy_b := state.get "x" + 100, _num_obstacles := copied_obstacles.length }

/-- The source's `LinearizedConstraints::isDataReady(data, missing_data)`; the result is the
returned flag and the new value of `missing_data`. -/
def LinearizedConstraints.isDataReady {F : Type} (m : LinearizedConstraints F)
    (data : RealTimeData F) (missing_data : String) : Bool × String :=
  if data.dynamic_obstacles.length ≠ m._max_obstacles then
    (false, missing_data ++ "Obstacles ")
  else
    LinearizedConstraints.isDataReadyLoop data.dynamic_obstacles missing_data

/-- The local state of `setParameters`: the parameter sink and `constraint_counter`. -/
structure SetParametersState (F : Type) where
  params : List (ParameterWrite F)
  constraint_counter : Nat

/-- The three calls `setSolverParameterLinConstraintA1/A2/B(k, params, ., constraint_counter)`
followed by `constraint_counter++`. -/
def LinearizedConstraints.setConstraint {F : Type} (k : Nat) (a1 a2 b : F)
    (s : SetParametersState F) : SetParametersState F :=
  { params :=
      setSolverParameter ParameterField.LinConstraintB k
        (setSolverParameter ParameterField.LinConstraintA2 k
          (setSolverParameter ParameterField.LinConstraintA1 k s.params a1
            s.constraint_counter)
          a2 s.constraint_counter)
        b s.constraint_counter
    constraint_counter := s.constraint_counter + 1 }

/-- The body of the loops that write the dummy constraint (lines 159-163 and 183-186). -/
def LinearizedConstraints.setDummy {F : Type} (m : LinearizedConstraints F) (k : Nat)
    (_i : Nat) (s : SetParametersState F) : Option (SetParametersState F) :=
  some (LinearizedConstraints.setConstraint k m._dummy_a1 m._dummy_a2 m._dummy_b s)

/-- The body of the loop that writes the buffered constraints (lines 175-178). -/
def LinearizedConstraints.setBuffered {F : Type} (m : LinearizedConstraints F) (k d : Nat)
    (i : Nat) (s : SetParametersState F) : Option (SetParametersState F) :=
  match m._a1.read d k i, m._a2.read d k i, m._b.read d k i with
  | some a1, some a2, some b => some (LinearizedConstraints.setConstraint k a1 a2 b s)
  | _, _, _ => none

/-- Lines 170-171 of `setParameters`: without guidance, write the offset of disc `d`. -/
def LinearizedConstraints.setDiscOffset {F : Type} (m : LinearizedConstraints F)
    (data : RealTimeData F) (k d : Nat) (s : SetParametersState F) :
    Option (SetParametersState F) :=
  if !m._use_guidance then
    match data.robot_area[d]? with
    | none => none
    | some disc =>
      some { s with
        params := setSolverParameter ParameterField.EgoDiscOffset k s.params disc.offset d }
  else some s

/-- The body of the loop over the discs of `setParameters` (lines 170-187). -/
def LinearizedConstraints.setParametersDisc {F : Type} (m : LinearizedConstraints F)
    (data : RealTimeData F) (k : Nat) (d : Nat) (s : SetParametersState F) :
    Option (SetParametersState F) :=
  match LinearizedConstraints.setDiscOffset m data k d s with
  | none => none
  | some s1 =>
    match forLoop (LinearizedConstraints.setBuffered m k d) 0
        (data.dynamic_obstacles.length + m._n_other_halfspaces) s1 with
    | none => none
    | some s2 =>
      forLoop (LinearizedConstraints.setDummy m k)
        (data.dynamic_obstacles.length + m._n_other_halfspaces)
        (m._max_obstacles + m._n_other_halfspaces -
          (data.dynamic_obstacles.length + m._n_other_halfspaces))
        s2

/-- The source's `LinearizedConstraints::setParameters(data, module_data, k)`: the solver
with the new content of the parameter sink; `none` when an index is out of range. -/
def LinearizedConstraints.setParameters {F : Type} (m : LinearizedConstraints F)
    (solver : Solver F) (data : RealTimeData F) (_module_data : ModuleData F) (k : Nat) :
    Option (Solver F) :=
  let s0 : SetParametersState F := { params := solver._params, constraint_counter := 0 }
  if k = 0 then
    match forLoop (LinearizedConstraints.setDummy m 0) 0
        (m._max_obstacles + m._n_other_halfspaces) s0 with
    | none => none
    | some s => some { solver with _params := s.params }
  else
    match forLoop (LinearizedConstraints.setParametersDisc m data k) 0 m._n_discs s0 with
    | none => none
    | some s => some { solver with _params := s.params }

/-! ## `EllipsoidConstraints` and `GaussianConstraints` -/

/-- The members of the class `EllipsoidConstraints` that `ellipsoid_constraints.cpp` uses
(its header is not among the sources). -/
structure EllipsoidConstraints (F : Type) where
  _n_discs : Nat
  _robot_radius : F
  _risk : F
  _dummy_x : F
  _dummy_y : F

/-- The constructor `EllipsoidConstraints::EllipsoidConstraints(solver)`; `_dummy_x` and
`_dummy_y` are not initialised. -/
def EllipsoidConstraints.new {F : Type} (config : Config F) (dummy_x dummy_y : F) :
    EllipsoidConstraints F :=
  { _n_discs := config.n_discs, _robot_radius := config.robot_radius, _risk := config.risk,
    _dummy_x := dummy_x, _dummy_y := dummy_y }

/-- The source's `EllipsoidConstraints::update(state, data, module_data)`. -/
def EllipsoidConstraints.update {F : Type} [Field F] (m : EllipsoidConstraints F)
    (state : State F) (_data : RealTimeData F) (_module_data : ModuleData F) :
    EllipsoidConstraints F :=
  { m with _dummy_x := state.get "x" + 50, _dummy_y := state.get "y" + 50 }

/-- The loop body `setSolverParameterEgoDiscOffset(k, params, data.robot_area[d].offset, d)`
of the Ellipsoid and Gaussian modules. -/
def setDiscOffsets {F : Type} (data : RealTimeData F) (k : Nat) (d : Nat)
    (params : List (ParameterWrite F)) : Option (List (ParameterWrite F)) :=
  match data.robot_area[d]? with
  | none => none
  | some disc => some (setSolverParameter ParameterField.EgoDiscOffset k params disc.offset d)

/-- The body of the dummy loop of `EllipsoidConstraints::setParameters` at stage 0
(lines 47-53). -/
def EllipsoidConstraints.setDummyObstacle {F : Type} [Field F] (m : EllipsoidConstraints F)
    (i : Nat) (params : List (ParameterWrite F)) : Option (List (ParameterWrite F)) :=
  some
    (setSolverParameter ParameterField.EllipsoidObstChi 0
      (setSolverParameter ParameterField.EllipsoidObstMinor 0
        (setSolverParameter ParameterField.EllipsoidObstMajor 0
          (setSolverParameter ParameterField.EllipsoidObstR 0
            (setSolverParameter ParameterField.EllipsoidObstPsi 0
              (setSolverParameter ParameterField.EllipsoidObstY 0
                (setSolverParameter ParameterField.EllipsoidObstX 0 params m._dummy_x i)
                m._dummy_y i)
              0 i)
            (1 / 10) i)
          0 i)
        0 i)
      1 i)

/-- The body of the obstacle loop of `EllipsoidConstraints::setParameters` at a stage
`k > 0` (lines 63-85); `ExponentialQuantile` is `RosTools::ExponentialQuantile`. -/
def EllipsoidConstraints.setObstacle {F : Type} [Field F] (ExponentialQuantile : F → F → F)
    (m : EllipsoidConstraints F) (data : RealTimeData F) (k : Nat) (i : Nat)
    (params : List (ParameterWrite F)) : Option (List (ParameterWrite F)) :=
  match data.dynamic_obstacles[i]? with
  | none => none
  | some obstacle =>
    match obstacle.prediction.modes[0]? with
    | none => none
    | some mode =>
      if k = 0 then none
      else
        match mode[k - 1]? with
        | none => none
        | some step =>
          let params4 :=
            setSolverParameter ParameterField.EllipsoidObstR k
              (setSolverParameter ParameterField.EllipsoidObstPsi k
                (setSolverParameter ParameterField.EllipsoidObstY k
                  (setSolverParameter ParameterField.EllipsoidObstX k params step.position.x i)
                  step.position.y i)
                step.angle i)
              obstacle.radius i
          if obstacle.prediction.type = PredictionType.DETERMINISTIC then
            some
              (setSolverParameter ParameterField.EllipsoidObstChi k
                (setSolverParameter ParameterField.EllipsoidObstMinor k
                  (setSolverParameter ParameterField.EllipsoidObstMajor k params4 0 i)
                  0 i)
                1 i)
          else if obstacle.prediction.type = PredictionType.GAUSSIAN then
            some
              (setSolverParameter ParameterField.EllipsoidObstChi k
                (setSolverParameter ParameterField.EllipsoidObstMinor k
                  (setSolverParameter ParameterField.EllipsoidObstMajor k params4
                    step.major_radius i)
                  step.minor_radius i)
                (ExponentialQuantile (1 / 2) (1 - m._risk)) i)
          else some params4

/-- The source's `EllipsoidConstraints::setParameters(data, module_data, k)`: the solver
with the new content of the parameter sink; `none` when an index is out of range. -/
def EllipsoidConstraints.setParameters {F : Type} [Field F]
    (ExponentialQuantile : F → F → F) (m : EllipsoidConstraints F) (solver : Solver F)
    (data : RealTimeData F) (_module_data : ModuleData F) (k : Nat) : Option (Solver F) :=
  let params0 := setSolverParameter ParameterField.EgoDiscRadius k solver._params
    m._robot_radius 0
  match forLoop (setDiscOffsets data k) 0 m._n_discs params0 with
  | none => none
  | some params1 =>
    if k = 0 then
      match forLoop (EllipsoidConstraints.setDummyObstacle m) 0 data.dynamic_obstacles.length
          params1 with
      | none => none
      | some params2 => some { solver with _params := params2 }
    else
      match forLoop (EllipsoidConstraints.setObstacle ExponentialQuantile m data k) 0
          data.dynamic_obstacles.length params1 with
      | none => none
      | some params2 => some { solver with _params := params2 }

/-- The members of the class `GaussianConstraints` that `gaussian_constraints.cpp` uses (its
header is not among the sources). -/
structure GaussianConstraints (F : Type) where
  _dummy_x : F
  _dummy_y : F

/-- The source's `GaussianConstraints::update(state, data, module_data)`. -/
def GaussianConstraints.update {F : Type} [Field F] (m : GaussianConstraints F)
    (state : State F) (_data : RealTimeData F) (_module_data : ModuleData F) :
    GaussianConstraints F :=
  { m with _dummy_x := state.get "x" + 100, _dummy_y := state.get "y" + 100 }

/-- The body of the dummy loop of `GaussianConstraints::setParameters` at stage 0
(lines 44-49). -/
def GaussianConstraints.setDummyObstacle {F : Type} [Field F] (m : GaussianConstraints F)
    (i : Nat) (params : List (ParameterWrite F)) : Option (List (ParameterWrite F)) :=
  some
    (setSolverParameter ParameterField.GaussianObstR 0
      (setSolverParameter ParameterField.GaussianObstRisk 0
        (setSolverParameter ParameterField.GaussianObstMinor 0
          (setSolverParameter ParameterField.GaussianObstMajor 0
            (setSolverParameter ParameterField.GaussianObstY 0
              (setSolverParameter ParameterField.GaussianObstX 0 params m._dummy_x i)
              m._dummy_y i)
            (1 / 10) i)
          (1 / 10) i)
        (1 / 20) i)
      (1 / 10) i)

/-- The body of the obstacle loop of `GaussianConstraints::setParameters` at a stage `k > 0`
(lines 58-77): only an obstacle with a GAUSSIAN prediction is written. -/
def GaussianConstraints.setObstacle {F : Type} [Field F] (config : Config F)
    (copied_obstacles : List (DynamicObstacle F)) (k : Nat) (i : Nat)
    (params : List (ParameterWrite F)) : Option (List (ParameterWrite F)) :=
  match copied_obstacles[i]? with
  | none => none
  | some obstacle =>
    if obstacle.prediction.type = PredictionType.GAUSSIAN then
      match obstacle.prediction.modes[0]? with
      | none => none
      | some mode =>
        if k = 0 then none
        else
          match mode[k - 1]? with
          | none => none
          | some step =>
            let params2 :=
              setSolverParameter ParameterField.GaussianObstY k
                (setSolverParameter ParameterField.GaussianObstX k params step.position.x i)
                step.position.y i
            let params4 :=
              if obstacle.type = ObstacleType.DYNAMIC then
                setSolverParameter ParameterField.GaussianObstMinor k
                  (setSolverParameter ParameterField.GaussianObstMajor k params2
                    step.major_radius i)
                  step.minor_radius i
              else
                setSolverParameter ParameterField.GaussianObstMinor k
                  (setSolverParameter ParameterField.GaussianObstMajor k params2 (1 / 1000) i)
                  (1 / 1000) i
            some
              (setSolverParameter ParameterField.GaussianObstR k
                (setSolverParameter ParameterField.GaussianObstRisk k params4 config.risk i)
                config.obstacle_radius i)
    else some params

/-- The source's `GaussianConstraints::setParameters(data, module_data, k)`: the solver with
the new content of the parameter sink; `none` when an index is out of range. -/
def GaussianConstraints.setParameters {F : Type} [Field F] (config : Config F)
    (m : GaussianConstraints F) (solver : Solver F) (data : RealTimeData F)
    (_module_data : ModuleData F) (k : Nat) : Option (Solver F) :=
  let params0 := setSolverParameter ParameterField.EgoDiscRadius k solver._params
    config.robot_radius 0
  match forLoop (setDiscOffsets data k) 0 config.n_discs params0 with
  | none => none
  | some params1 =>
    if k = 0 then
      match forLoop (GaussianConstraints.setDummyObstacle m) 0 data.dynamic_obstacles.length
          params1 with
      | none => none
      | some params2 => some { solver with _params := params2 }
    else
      match forLoop (GaussianConstraints.setObstacle config data.dynamic_obstacles k) 0
          data.dynamic_obstacles.length params1 with
      | none => none
      | some params2 => some { solver with _params := params2 }

/-! ## `FixedSizeTrajectory` (`data_types.cpp`) -/

/-- The members of the class `FixedSizeTrajectory` that `data_types.cpp` uses: the capacity
`_size` (an `int`) and the vector `positions`. -/
structure FixedSizeTrajectory (F : Type) where
  _size : Int
  positions : List (Vector2d F)
  deriving DecidableEq, Repr

/-- The constructor `FixedSizeTrajectory::FixedSizeTrajectory(int size)`. -/
def FixedSizeTrajectory.new {F : Type} (size : Int) : FixedSizeTrajectory F :=
  { _size := size, positions := [] }

/-- The source's `FixedSizeTrajectory::add(p)`; `none` when `positions.back()` is called on an
empty vector. -/
def FixedSizeTrajectory.add {F : Type} [LinearOrderedField F] (num : Numerics F)
    (t : FixedSizeTrajectory F) (p : Vector2d F) : Option (FixedSizeTrajectory F) :=
  match t.positions.getLast? with
  | none => none
  | some back =>
    let diff := p.sub back
    if num.sqrt (diff.x * diff.x + diff.y * diff.y) > 5 then
      some { t with positions := [p] }
    else if (t.positions.length : Int) < t._size then
      some { t with positions := t.positions ++ [p] }
    else
      some { t with positions := t.positions.tail ++ [p] }

/-! ## Binary64: the arithmetic of `double` (IEEE 754, round to nearest, ties to even) -/

/-- A value of type `double`: `some q` for a finite number (the two zeros are one value),
`none` for an infinity or NaN. The operations below give, for finite operands, the value
IEEE 754 prescribes (the rational result rounded to nearest, ties to even, over the whole
range with subnormals and overflow); a non-finite operand gives a non-finite result (the
model does not follow IEEE through the infinities), and no operation is fused with
another. -/
structure Binary64 where
  value : Option ℚ
  deriving DecidableEq, Repr

/-- The number of binary digits of `n`, counted with at most `fuel` halvings. -/
def Binary64.bitLengthAux : Nat → Nat → Nat
  | 0, _ => 0
  | fuel + 1, n => if n = 0 then 0 else Binary64.bitLengthAux fuel (n / 2) + 1

/-- The number of binary digits of `n`. -/
def Binary64.bitLength (n : Nat) : Nat :=
  Binary64.bitLengthAux n n

/-- The power `2 ^ e` for an integer exponent. -/
def Binary64.pow2 (e : Int) : ℚ :=
  if 0 ≤ e then ((2 ^ e.toNat : Nat) : ℚ) else 1 / ((2 ^ (-e).toNat : Nat) : ℚ)

/-- The binary exponent of `q > 0`: the integer `e` with `2 ^ e ≤ q < 2 ^ (e + 1)`. -/
def Binary64.exponent (q : ℚ) : Int :=
  let e : Int := (Binary64.bitLength q.num.natAbs : Int) - (Binary64.bitLength q.den : Int)
  if Binary64.pow2 e ≤ q then e else e - 1

/-- The integer nearest `q ≥ 0`, the even one of the two when `q` lies halfway. -/
def Binary64.roundHalfEven (q : ℚ) : Int :=
  let f := Rat.floor q
  if q - f < 1 / 2 then f
  else if 1 / 2 < q - f then f + 1
  else if f % 2 = 0 then f else f + 1

/-- The `double` nearest the rational `q` (ties to even): 53 significant bits, exponents
from -1022 (below, the spacing stays `2 ^ -1074`), and an infinity from `2 ^ 1024` on. -/
def Binary64.round (q : ℚ) : Binary64 :=
  if q = 0 then ⟨some 0⟩
  else
    let a := if q < 0 then -q else q
    let e := max (Binary64.exponent a) (-1022)
    let ulp := Binary64.pow2 (e - 52)
    let r := (Binary64.roundHalfEven (a / ulp) : ℚ) * ulp
    if Binary64.pow2 1024 ≤ r then ⟨none⟩
    else ⟨some (if q < 0 then -r else r)⟩

/-- The sum `x + y` of two `double`. -/
def Binary64.add (x y : Binary64) : Binary64 :=
  match x.value, y.value with
  | some a, some b => Binary64.round (a + b)
  | _, _ => ⟨none⟩

/-- The difference `x - y` of two `double`. -/
def Binary64.sub (x y : Binary64) : Binary64 :=
  match x.value, y.value with
  | some a, some b => Binary64.round (a - b)
  | _, _ => ⟨none⟩

/-- The product `x * y` of two `double`. -/
def Binary64.mul (x y : Binary64) : Binary64 :=
  match x.value, y.value with
  | some a, some b => Binary64.round (a * b)
  | _, _ => ⟨none⟩

/-- The quotient `x / y` of two `double`; a division by zero gives an infinity or NaN. -/
def Binary64.div (x y : Binary64) : Binary64 :=
  match x.value, y.value with
  | some a, some b => if b = 0 then ⟨none⟩ else Binary64.round (a / b)
  | _, _ => ⟨none⟩

/-- The integer square root of `n`, its bits found from bit `i - 1` down to bit 0, `r` the
bits found so far. -/
def Binary64.isqrtAux : Nat → Nat → Nat → Nat
  | 0, _, r => r
  | i + 1, n, r =>
    Binary64.isqrtAux i n (if (r + 2 ^ i) * (r + 2 ^ i) ≤ n then r + 2 ^ i else r)

/-- The integer square root of `n`: the largest `r` with `r * r ≤ n`. -/
def Binary64.isqrt (n : Nat) : Nat :=
  Binary64.isqrtAux (Binary64.bitLength n) n 0

/-- The function `std::sqrt` on `double`: the square root rounded to nearest (IEEE 754
requires it correctly rounded); NaN for a negative argument. -/
def Binary64.sqrt (x : Binary64) : Binary64 :=
  match x.value with
  | none => ⟨none⟩
  | some a =>
    if a < 0 then ⟨none⟩
    else if a = 0 then ⟨some 0⟩
    else
      let ulp := Binary64.pow2 (Binary64.exponent a / 2 - 52)
      let n := a / (ulp * ulp)
      let f : Nat := Binary64.isqrt (Rat.floor n).toNat
      let m : Nat :=
        if 4 * n < ((2 * f + 1) * (2 * f + 1) : Nat) then f
        else if ((2 * f + 1) * (2 * f + 1) : Nat) < 4 * n then f + 1
        else if f % 2 = 0 then f else f + 1
      ⟨some ((m : ℚ) * ulp)⟩

instance : Add Binary64 := ⟨Binary64.add⟩

instance : Sub Binary64 := ⟨Binary64.sub⟩

instance : Mul Binary64 := ⟨Binary64.mul⟩

instance : Div Binary64 := ⟨Binary64.div⟩

instance : Zero Binary64 := ⟨⟨some 0⟩⟩

instance : One Binary64 := ⟨⟨some 1⟩⟩

instance : NatCast Binary64 := ⟨fun n => Binary64.round n⟩

/-! ## Notions used to state the theorems -/

/-- What the spec asks of an obstacle's prediction: it has a first mode with at least one step and
its type is DETERMINISTIC or GAUSSIAN. -/
def DynamicObstacle.Supported {F : Type} (o : DynamicObstacle F) : Prop :=
  (∃ mode0, o.prediction.modes[0]? = some mode0 ∧ 1 ≤ mode0.length) ∧
    (o.prediction.type = PredictionType.DETERMINISTIC ∨
      o.prediction.type = PredictionType.GAUSSIAN)

/-- A dynamic obstacle with a DETERMINISTIC prediction of one mode with `steps` steps, all at
the obstacle's position. -/
def deterministicObstacle {F : Type} (z : F) (steps : Nat) : DynamicObstacle F :=
  { index := 0, position := ⟨z, z⟩, angle := z, radius := z, type := ObstacleType.DYNAMIC,
    prediction :=
      { type := PredictionType.DETERMINISTIC,
        modes := [List.replicate steps ⟨⟨z, z⟩, z, z, z⟩],
        probabilities := [z] } }

/-- The check of one obstacle in `EllipsoidConstraints::isDataReady` fails: its prediction is
empty or its type is neither GAUSSIAN nor DETERMINISTIC. -/
def EllipsoidConstraints.obstacleFails {F : Type} (o : DynamicObstacle F) : Bool :=
  o.prediction.empty ||
    (decide (o.prediction.type ≠ PredictionType.GAUSSIAN) &&
      decide (o.prediction.type ≠ PredictionType.DETERMINISTIC))

/-- The reason named by the spec for `EllipsoidConstraints::isDataReady`: the checks are
taken in the order robot area, obstacle count, then obstacle by obstacle the prediction and
its type; the first one that fails gives the reason, and there is none when all pass. -/
def EllipsoidConstraints.firstFailingReason {F : Type} (config : Config F)
    (data : RealTimeData F) : Option String :=
  if data.robot_area.length = 0 then some "Robot area "
  else if data.dynamic_obstacles.length ≠ config.max_obstacles then some "Obstacles "
  else
    match data.dynamic_obstacles.find? EllipsoidConstraints.obstacleFails with
    | some o =>
      if o.prediction.empty then some "Obstacle Prediction "
      else some "Obstacle Prediction (Type is incorrect) "
    | none => none

/-- The triple stored for slot `i` of stage `k` and disc `d`. -/
def LinearizedConstraints.readConstraint {F : Type} (m : LinearizedConstraints F)
    (d k i : Nat) : Option (F × F × F) :=
  match m._a1.read d k i, m._a2.read d k i, m._b.read d k i with
  | some a1, some a2, some b => some (a1, a2, b)
  | _, _, _ => none

/-- The value, if any, that a constraint triple contributes to a field of the sink. -/
def constraintValue {F : Type} (field : ParameterField) (t : F × F × F) : List F :=
  match field with
  | ParameterField.LinConstraintA1 => [t.1]
  | ParameterField.LinConstraintA2 => [t.2.1]
  | ParameterField.LinConstraintB => [t.2.2]
  | _ => []

/-- The inert dummy triple `(_dummy_a1, _dummy_a2, _dummy_b)`. -/
def LinearizedConstraints.dummyConstraint {F : Type} (m : LinearizedConstraints F) :
    F × F × F :=
  (m._dummy_a1, m._dummy_a2, m._dummy_b)

/-- The triple that `setParameters(k)`, `k > 0`, writes for in-block slot `i` of disc `d`
when there are `n` obstacles: the buffered one below `n + _n_other_halfspaces`, the dummy
one from there on. -/
def LinearizedConstraints.slotConstraint {F : Type} (m : LinearizedConstraints F)
    (n k d i : Nat) : F × F × F :=
  if i < n + m._n_other_halfspaces then (m.readConstraint d k i).getD m.dummyConstraint
  else m.dummyConstraint

/-- The members of the module that are neither a buffer nor the log. -/
def LinearizedConstraints.settings {F : Type} (m : LinearizedConstraints F) :
    F × F × F × Bool × Nat × Nat × Nat × Nat :=
  (m._dummy_a1, m._dummy_a2, m._dummy_b, m._use_guidance, m._n_discs, m._n_other_halfspaces,
    m._num_obstacles, m._max_obstacles)

/-- The triple that `update` computes for an obstacle predicted at `obstacle_pos`, seen from
the anchor `pos`, with inflated radius `inflated` (lines 90-104). -/
def LinearizedConstraints.linearized {F : Type} [Field F] (num : Numerics F)
    (pos obstacle_pos : Vector2d F) (inflated : F) : F × F × F :=
  ((obstacle_pos.x - pos.x) / (obstacle_pos.sub pos).norm num,
    (obstacle_pos.y - pos.y) / (obstacle_pos.sub pos).norm num,
    (obstacle_pos.x - pos.x) / (obstacle_pos.sub pos).norm num * obstacle_pos.x +
      (obstacle_pos.y - pos.y) / (obstacle_pos.sub pos).norm num * obstacle_pos.y - inflated)

/-- The triple that `update` stores for obstacle `i` at stage `k` when the anchor is `pos`;
`none` when the obstacle or its prediction step does not exist. -/
def LinearizedConstraints.obstacleConstraint {F : Type} [Field F] (num : Numerics F)
    (config : Config F) (m : LinearizedConstraints F)
    (copied_obstacles : List (DynamicObstacle F)) (k : Nat) (pos : Vector2d F) (i : Nat) :
    Option (F × F × F) :=
  match copied_obstacles[i]? with
  | none => none
  | some obstacle =>
    match obstacle.predictedPosition k with
    | none => none
    | some o =>
      some (LinearizedConstraints.linearized num pos o
        (LinearizedConstraints.inflatedRadius config m obstacle))

/-- The content of slot `i` of the cell of stage `k` and one disc after `update`, when the
anchor of the cell is `pos` and the slot held `old` before: the obstacle slots come first,
then the static half-spaces of the stage (at most `_n_other_halfspaces`), and the slots
behind them keep what they held. -/
def LinearizedConstraints.cellConstraint {F : Type} [Field F] (num : Numerics F)
    (config : Config F) (m : LinearizedConstraints F)
    (copied_obstacles : List (DynamicObstacle F)) (module_data : ModuleData F) (k : Nat)
    (pos : Vector2d F) (i : Nat) (old : Option (F × F × F)) : Option (F × F × F) :=
  if i < copied_obstacles.length then
    LinearizedConstraints.obstacleConstraint num config m copied_obstacles k pos i
  else
    match module_data.static_obstacles[k]? with
    | none => old
    | some halfspaces =>
      if i - copied_obstacles.length < min halfspaces.length m._n_other_halfspaces then
        (halfspaces[i - copied_obstacles.length]?).map
          fun halfspace => (halfspace.A.x, halfspace.A.y, halfspace.b)
      else old

/-- The conditions under which every index used by `update` is in range: no more obstacles
than `_max_obstacles`, at least `N - 1` steps in the first mode of every prediction, a disc in
`robot_area` for every disc of the module (without guidance), static half-spaces either
absent or present for every stage, and buffers that hold every slot of every disc and
stage. -/
structure LinearizedConstraints.UpdateInRange {F : Type} (m : LinearizedConstraints F)
    (solver : Solver F) (data : RealTimeData F) (module_data : ModuleData F) : Prop where
  obstacles : data.dynamic_obstacles.length ≤ m._max_obstacles
  steps : ∀ o ∈ data.dynamic_obstacles,
    ∃ mode0, o.prediction.modes[0]? = some mode0 ∧ solver.N - 1 ≤ mode0.length
  discs : m._use_guidance = false → m._n_discs ≤ data.robot_area.length
  stages : module_data.static_obstacles = [] ∨ solver.N ≤ module_data.static_obstacles.length
  buffers : ∀ d k i, d < m._n_discs → k < solver.N →
    i < m._max_obstacles + m._n_other_halfspaces → (m.readConstraint d k i).isSome

/-- The content of slot `i` of stage `k` and disc `d` after `update`: the cells of the
stages `1 .. N - 1` and of the discs below `_n_discs` are rewritten about their anchor, the
other cells keep what they held. -/
def LinearizedConstraints.updatedConstraint {F : Type} [Field F] (num : Numerics F)
    (dr : DouglasRachford F) (config : Config F) (solver : Solver F)
    (m : LinearizedConstraints F) (data : RealTimeData F) (module_data : ModuleData F)
    (d k i : Nat) : Option (F × F × F) :=
  if 1 ≤ k ∧ k < solver.N ∧ d < m._n_discs then
    match LinearizedConstraints.anchor num dr config solver m data data.dynamic_obstacles k d
      with
    | none => none
    | some pos =>
      LinearizedConstraints.cellConstraint num config m data.dynamic_obstacles module_data k
        pos i (m.readConstraint d k i)
  else m.readConstraint d k i

/-- The writes of the stage-0 dummy loop of `EllipsoidConstraints::setParameters` for slot
`i`, in program order. -/
def EllipsoidConstraints.dummyWrites {F : Type} [Field F] (m : EllipsoidConstraints F)
    (i : Nat) : List (ParameterWrite F) :=
  [⟨ParameterField.EllipsoidObstX, 0, m._dummy_x, i⟩,
    ⟨ParameterField.EllipsoidObstY, 0, m._dummy_y, i⟩,
    ⟨ParameterField.EllipsoidObstPsi, 0, 0, i⟩,
    ⟨ParameterField.EllipsoidObstR, 0, 1 / 10, i⟩,
    ⟨ParameterField.EllipsoidObstMajor, 0, 0, i⟩,
    ⟨ParameterField.EllipsoidObstMinor, 0, 0, i⟩,
    ⟨ParameterField.EllipsoidObstChi, 0, 1, i⟩]

/-- The writes of the obstacle loop of `EllipsoidConstraints::setParameters(k)`, `k > 0`, for
an obstacle in slot `i` whose first mode has `step` at index `k - 1`, in program order. -/
def EllipsoidConstraints.obstacleWrites {F : Type} [Field F] (ExponentialQuantile : F → F → F)
    (m : EllipsoidConstraints F) (k i : Nat) (obstacle : DynamicObstacle F)
    (step : PredictionStep F) : List (ParameterWrite F) :=
  [⟨ParameterField.EllipsoidObstX, k, step.position.x, i⟩,
    ⟨ParameterField.EllipsoidObstY, k, step.position.y, i⟩,
    ⟨ParameterField.EllipsoidObstPsi, k, step.angle, i⟩,
    ⟨ParameterField.EllipsoidObstR, k, obstacle.radius, i⟩] ++
  (if obstacle.prediction.type = PredictionType.DETERMINISTIC then
    [⟨ParameterField.EllipsoidObstMajor, k, 0, i⟩,
      ⟨ParameterField.EllipsoidObstMinor, k, 0, i⟩,
      ⟨ParameterField.EllipsoidObstChi, k, 1, i⟩]
  else if obstacle.prediction.type = PredictionType.GAUSSIAN then
    [⟨ParameterField.EllipsoidObstMajor, k, step.major_radius, i⟩,
      ⟨ParameterField.EllipsoidObstMinor, k, step.minor_radius, i⟩,
      ⟨ParameterField.EllipsoidObstChi, k, ExponentialQuantile (1 / 2) (1 - m._risk), i⟩]
  else [])

/-- The step `modes[0][k - 1]` of an obstacle's prediction. -/
def DynamicObstacle.predictedStep {F : Type} (obstacle : DynamicObstacle F) (k : Nat) :
    Option (PredictionStep F) :=
  if k = 0 then none
  else
    match obstacle.prediction.modes[0]? with
    | none => none
    | some mode => mode[k - 1]?

/-- The writes of `EllipsoidConstraints::setParameters(k)` for obstacle slot `i`, in program
order: the dummy ones at stage 0, those of the obstacle at a later stage. -/
def EllipsoidConstraints.slotWrites {F : Type} [Field F] (ExponentialQuantile : F → F → F)
    (m : EllipsoidConstraints F) (data : RealTimeData F) (k i : Nat) :
    List (ParameterWrite F) :=
  if k = 0 then EllipsoidConstraints.dummyWrites m i
  else
    match data.dynamic_obstacles[i]? with
    | none => []
    | some obstacle =>
      match obstacle.predictedStep k with
      | none => []
      | some step => EllipsoidConstraints.obstacleWrites ExponentialQuantile m k i obstacle step

/-- The seven obstacle fields written by `EllipsoidConstraints`. -/
def EllipsoidConstraints.obstacleFields : List ParameterField :=
  [ParameterField.EllipsoidObstX, ParameterField.EllipsoidObstY,
    ParameterField.EllipsoidObstPsi, ParameterField.EllipsoidObstR,
    ParameterField.EllipsoidObstMajor, ParameterField.EllipsoidObstMinor,
    ParameterField.EllipsoidObstChi]

/-- The writes of the stage-0 dummy loop of `GaussianConstraints::setParameters` for slot
`i`, in program order. -/
def GaussianConstraints.dummyWrites {F : Type} [Field F] (m : GaussianConstraints F)
    (i : Nat) : List (ParameterWrite F) :=
  [⟨ParameterField.GaussianObstX, 0, m._dummy_x, i⟩,
    ⟨ParameterField.GaussianObstY, 0, m._dummy_y, i⟩,
    ⟨ParameterField.GaussianObstMajor, 0, 1 / 10, i⟩,
    ⟨ParameterField.GaussianObstMinor, 0, 1 / 10, i⟩,
    ⟨ParameterField.GaussianObstRisk, 0, 1 / 20, i⟩,
    ⟨ParameterField.GaussianObstR, 0, 1 / 10, i⟩]

/-- The writes of the obstacle loop of `GaussianConstraints::setParameters(k)`, `k > 0`, for
an obstacle with a GAUSSIAN prediction in slot `i` whose first mode has `step` at index
`k - 1`, in program order. -/
def GaussianConstraints.obstacleWrites {F : Type} [Field F] (config : Config F) (k i : Nat)
    (obstacle : DynamicObstacle F) (step : PredictionStep F) : List (ParameterWrite F) :=
  [⟨ParameterField.GaussianObstX, k, step.position.x, i⟩,
    ⟨ParameterField.GaussianObstY, k, step.position.y, i⟩,
    ⟨ParameterField.GaussianObstMajor, k,
      if obstacle.type = ObstacleType.DYNAMIC then step.major_radius else 1 / 1000, i⟩,
    ⟨ParameterField.GaussianObstMinor, k,
      if obstacle.type = ObstacleType.DYNAMIC then step.minor_radius else 1 / 1000, i⟩,
    ⟨ParameterField.GaussianObstRisk, k, config.risk, i⟩,
    ⟨ParameterField.GaussianObstR, k, config.obstacle_radius, i⟩]

/-- The writes of `GaussianConstraints::setParameters(k)` for obstacle slot `i`, in program
order: the dummy ones at stage 0; at a later stage those of the obstacle when its prediction
is GAUSSIAN, and none otherwise. -/
def GaussianConstraints.slotWrites {F : Type} [Field F] (config : Config F)
    (m : GaussianConstraints F) (data : RealTimeData F) (k i : Nat) :
    List (ParameterWrite F) :=
  if k = 0 then GaussianConstraints.dummyWrites m i
  else
    match data.dynamic_obstacles[i]? with
    | none => []
    | some obstacle =>
      if obstacle.prediction.type = PredictionType.GAUSSIAN then
        match obstacle.predictedStep k with
        | none => []
        | some step => GaussianConstraints.obstacleWrites config k i obstacle step
      else []

/-- The six obstacle fields written by `GaussianConstraints`. -/
def GaussianConstraints.obstacleFields : List ParameterField :=
  [ParameterField.GaussianObstX, ParameterField.GaussianObstY,
    ParameterField.GaussianObstMajor, ParameterField.GaussianObstMinor,
    ParameterField.GaussianObstRisk, ParameterField.GaussianObstR]

/-- The cell of stage `k` and disc `d` of the module `t` holds what `update` computes for it
from the given data: the anchor exists, every obstacle slot holds the triple linearized about
the anchor, and every supplied static half-space (below `_n_other_halfspaces`) is in its
slot. -/
def LinearizedConstraints.CellSettled {F : Type} [Field F] (num : Numerics F)
    (dr : DouglasRachford F) (config : Config F) (solver : Solver F)
    (t : LinearizedConstraints F) (data : RealTimeData F) (module_data : ModuleData F)
    (k d : Nat) : Prop :=
  ∃ p, LinearizedConstraints.anchor num dr config solver t data data.dynamic_obstacles k d
      = some p ∧
    (∀ (i : Nat) (obstacle : DynamicObstacle F), data.dynamic_obstacles[i]? = some obstacle →
      ∃ o, obstacle.predictedPosition k = some o ∧
        t.readConstraint d k i =
          some (LinearizedConstraints.linearized num p o
            (LinearizedConstraints.inflatedRadius config t obstacle))) ∧
    (module_data.static_obstacles = [] ∨
      ∃ halfspaces, module_data.static_obstacles[k]? = some halfspaces ∧
        ∀ (h : Nat) (halfspace : Halfspace F), h < t._n_other_halfspaces →
          halfspaces[h]? = some halfspace →
          t.readConstraint d k (data.dynamic_obstacles.length + h) =
            some (halfspace.A.x, halfspace.A.y, halfspace.b))

/-- The outcome of an `isDataReady` call as the claim on its frame describes it: on `true`
the string is unchanged, on `false` it is the old string followed by one reason of `reasons`,
none of which is empty. -/
def AppendsOneReason (reasons : List String) (missing_data : String) (result : Bool × String) :
    Prop :=
  (result.1 = true ∧ result.2 = missing_data) ∨
    (result.1 = false ∧ ∃ reason ∈ reasons, reason ≠ "" ∧ result.2 = missing_data ++ reason)

/-- The warning lines that one pass of the disc loop of `update` logs at stage `k` (lines
107-111): one line when `static_obstacles` is not empty and holds fewer half-spaces for the
stage than `_n_other_halfspaces`, none otherwise. -/
def LinearizedConstraints.stageWarnings {F : Type} (m : LinearizedConstraints F)
    (module_data : ModuleData F) (k : Nat) : List HalfspaceWarning :=
  if module_data.static_obstacles.isEmpty then []
  else
    match module_data.static_obstacles[k]? with
    | none => []
    | some halfspaces =>
      if halfspaces.length < m._n_other_halfspaces then
        [⟨m._n_other_halfspaces, halfspaces.length⟩]
      else []

/-- The warning lines of one call of `update`, in order: for the stages `1 .. N - 1`, the
lines of the stage once per disc. -/
def LinearizedConstraints.updateWarnings {F : Type} (m : LinearizedConstraints F)
    (solver : Solver F) (module_data : ModuleData F) : List HalfspaceWarning :=
  (List.range' 1 (solver.N - 1)).flatMap fun k =>
    (List.replicate m._n_discs (m.stageWarnings module_data k)).flatten

/-! ## Sample inputs -/

/-- A sample configuration: one disc, horizon 2, one obstacle slot, no extra half-space,
robot radius 1/4. -/
def sampleConfig (F : Type) [Field F] : Config F :=
  { n_discs := 1, N := 2, max_obstacles := 1, add_halfspaces := 0, robot_radius := 1 / 4,
    obstacle_radius := 1 / 4, risk := 1 / 20 }

/-- A sample obstacle of radius 1/4 predicted to stay at `(2, 0)` for one step. -/
def sampleObstacle (F : Type) [Field F] : DynamicObstacle F :=
  { index := 0, position := ⟨2, 0⟩, angle := 0, radius := 1 / 4,
    type := ObstacleType.DYNAMIC,
    prediction :=
      { type := PredictionType.GAUSSIAN, modes := [[⟨⟨2, 0⟩, 0, 0, 0⟩]],
        probabilities := [1] } }

/-- Sample data: one disc without offset and the sample obstacle. -/
def sampleData (F : Type) [Field F] : RealTimeData F :=
  { robot_area := [⟨0, 1 / 4⟩], dynamic_obstacles := [sampleObstacle F] }

/-- A sample solver with horizon 2 whose previous trajectory stays at the origin. -/
def sampleSolver (F : Type) [Field F] : Solver F :=
  { N := 2, getEgoPrediction := fun _ _ => 0, _params := [] }

/-- Sample content of the memory the constructor leaves uninitialised. -/
def sampleMemory (F : Type) [Field F] : Uninitialized F :=
  { a1 := fun _ _ _ => 7, a2 := fun _ _ _ => 8, b := fun _ _ _ => 9, dummy_b := 5 }

/-- A projection that leaves the point where it is (as for a point that is already
collision-free). -/
def sampleProjection (F : Type) : DouglasRachford F :=
  fun p _ _ _ _ => p

/-- Between the sinks `before` and `after`, slot `index` of stage `k` received exactly one
value in each of the fields A1, A2 and B: the triple `(a1, a2, b)`. -/
def WritesTriple {F : Type} (before after : List (ParameterWrite F)) (k index : Nat)
    (a1 a2 b : F) : Prop :=
  valuesAt after ParameterField.LinConstraintA1 k index =
      valuesAt before ParameterField.LinConstraintA1 k index ++ [a1] ∧
    valuesAt after ParameterField.LinConstraintA2 k index =
      valuesAt before ParameterField.LinConstraintA2 k index ++ [a2] ∧
    valuesAt after ParameterField.LinConstraintB k index =
      valuesAt before ParameterField.LinConstraintB k index ++ [b]

/-- A second sample configuration: two discs, horizon 3, two obstacle slots and one extra
half-space slot. -/
def sampleConfig2 (F : Type) [Field F] : Config F :=
  { n_discs := 2, N := 3, max_obstacles := 2, add_halfspaces := 1, robot_radius := 1 / 4,
    obstacle_radius := 1 / 4, risk := 1 / 20 }

/-- Sample data for the second configuration: two discs and a single obstacle. -/
def sampleData2 (F : Type) [Field F] : RealTimeData F :=
  { robot_area := [⟨0, 1 / 4⟩, ⟨1, 1 / 4⟩], dynamic_obstacles := [sampleObstacle F] }

/-- A sample solver with horizon 3. -/
def sampleSolver2 (F : Type) [Field F] : Solver F :=
  { N := 3, getEgoPrediction := fun _ _ => 0, _params := [] }

/-- A sample prediction step at `(x, 0)` with major radius 1/2 and minor radius 1/4. -/
def sampleStep (F : Type) [Field F] (x : F) : PredictionStep F :=
  ⟨⟨x, 0⟩, 0, 1 / 2, 1 / 4⟩

/-- A sample dynamic obstacle with a DETERMINISTIC prediction of two steps. -/
def sampleDeterministic (F : Type) [Field F] : DynamicObstacle F :=
  { index := 0, position := ⟨2, 0⟩, angle := 0, radius := 1 / 4,
    type := ObstacleType.DYNAMIC,
    prediction :=
      { type := PredictionType.DETERMINISTIC, modes := [[sampleStep F 2, sampleStep F 3]],
        probabilities := [1] } }

/-- A sample dynamic obstacle with a GAUSSIAN prediction of two steps. -/
def sampleGaussianDynamic (F : Type) [Field F] : DynamicObstacle F :=
  { index := 1, position := ⟨4, 0⟩, angle := 0, radius := 1 / 4,
    type := ObstacleType.DYNAMIC,
    prediction :=
      { type := PredictionType.GAUSSIAN, modes := [[sampleStep F 4, sampleStep F 5]],
        probabilities := [1] } }

/-- A sample static obstacle with a GAUSSIAN prediction of two steps. -/
def sampleGaussianStatic (F : Type) [Field F] : DynamicObstacle F :=
  { index := 2, position := ⟨6, 0⟩, angle := 0, radius := 1 / 4,
    type := ObstacleType.STATIC,
    prediction :=
      { type := PredictionType.GAUSSIAN, modes := [[sampleStep F 6, sampleStep F 7]],
        probabilities := [1] } }

/-- Sample data for the second configuration with a deterministic and a Gaussian
obstacle. -/
def sampleData3 (F : Type) [Field F] : RealTimeData F :=
  { robot_area := [⟨0, 1 / 4⟩, ⟨1, 1 / 4⟩],
    dynamic_obstacles := [sampleDeterministic F, sampleGaussianStatic F] }

/-- Sample data for the second configuration with two Gaussian obstacles, a dynamic and a
static one. -/
def sampleData4 (F : Type) [Field F] : RealTimeData F :=
  { robot_area := [⟨0, 1 / 4⟩, ⟨1, 1 / 4⟩],
    dynamic_obstacles := [sampleGaussianDynamic F, sampleGaussianStatic F] }

/-- A stand-in for `RosTools::ExponentialQuantile`. -/
def sampleQuantile (F : Type) [Field F] : F → F → F :=
  fun lambda p => lambda * p

/-- A sample configuration with a static half-space slot: one disc, horizon 2, one obstacle
slot and one extra half-space slot. -/
def sampleConfigHalfspace (F : Type) [Field F] : Config F :=
  { n_discs := 1, N := 2, max_obstacles := 1, add_halfspaces := 1, robot_radius := 1 / 4,
    obstacle_radius := 1 / 4, risk := 1 / 20 }

/-- Sample static half-spaces for horizon 2: none at stage 0 and two at stage 1, the
half-planes `y ≤ 5` and `x ≤ 6`. -/
def sampleStatic (F : Type) [Field F] : ModuleData F :=
  ⟨[[], [⟨⟨0, 1⟩, 5⟩, ⟨⟨1, 0⟩, 6⟩]]⟩

/-- The sample static half-spaces cut to one per stage. -/
def sampleStaticCut (F : Type) [Field F] : ModuleData F :=
  ⟨[[], [⟨⟨0, 1⟩, 5⟩]]⟩

/-- A module without any constraint slot: two discs, no obstacle slot and no half-space
slot. -/
def sampleConfigNoSlot (F : Type) [Field F] : Config F :=
  { n_discs := 2, N := 3, max_obstacles := 0, add_halfspaces := 0, robot_radius := 1 / 4,
    obstacle_radius := 1 / 4, risk := 1 / 20 }

/-- Sample data without obstacles, two discs. -/
def sampleDataNoObstacle (F : Type) [Field F] : RealTimeData F :=
  { robot_area := [⟨0, 1 / 4⟩, ⟨1, 1 / 4⟩], dynamic_obstacles := [] }

theorem Prediction.empty_eq_false_iff {F : Type} (p : Prediction F) :
    p.empty = false ↔ ∃ mode0, p.modes[0]? = some mode0 ∧ 1 ≤ mode0.length := by
  rcases p with ⟨t, modes, probs⟩
  cases modes with
  | nil => simp [Prediction.empty]
  | cons mode0 rest =>
    cases mode0 with
    | nil => simp [Prediction.empty]
    | cons s ss => simp [Prediction.empty]

theorem LinearizedConstraints.linearized_isDataReadyLoop_true_iff {F : Type}
    (obstacles : List (DynamicObstacle F)) (missing_data : String) :
    (LinearizedConstraints.isDataReadyLoop obstacles missing_data).1 = true ↔
      ∀ o ∈ obstacles, o.Supported := by
  induction obstacles with
  | nil => simp [LinearizedConstraints.isDataReadyLoop]
  | cons o rest ih =>
    unfold LinearizedConstraints.isDataReadyLoop
    by_cases he : o.prediction.empty = true
    · have hne : ¬ o.Supported := by
        intro h
        have := (Prediction.empty_eq_false_iff o.prediction).2 h.1
        simp [he] at this
      simp [he, hne]
    · have he' : o.prediction.empty = false := by simpa using he
      have hmode := (Prediction.empty_eq_false_iff o.prediction).1 he'
      by_cases ht : o.prediction.type ≠ PredictionType.DETERMINISTIC ∧
          o.prediction.type ≠ PredictionType.GAUSSIAN
      · have hne : ¬ o.Supported := by
          intro h
          rcases h.2 with h | h
          · exact ht.1 h
          · exact ht.2 h
        simp [he', ht, hne]
      · have hs : o.Supported := by
          refine ⟨hmode, ?_⟩
          by_contra hcon
          exact ht ⟨fun h => hcon (Or.inl h), fun h => hcon (Or.inr h)⟩
        simp only [he', Bool.false_eq_true, if_false, ht, ih, List.mem_cons, forall_eq_or_imp,
          hs, true_and]

/-- C3: `LinearizedConstraints::isDataReady` returns true exactly when the number of dynamic
obstacles equals `max_obstacles` and every obstacle has a non-empty prediction (a first mode
with at least one step) of type DETERMINISTIC or GAUSSIAN. -/
theorem LinearizedConstraints.isDataReady_true_iff {F : Type} (m : LinearizedConstraints F)
    (data : RealTimeData F) (missing_data : String) :
    (LinearizedConstraints.isDataReady m data missing_data).1 = true ↔
      data.dynamic_obstacles.length = m._max_obstacles ∧
        ∀ o ∈ data.dynamic_obstacles,
          (∃ mode0, o.prediction.modes[0]? = some mode0 ∧ 1 ≤ mode0.length) ∧
            (o.prediction.type = PredictionType.DETERMINISTIC ∨
              o.prediction.type = PredictionType.GAUSSIAN) := by
  unfold LinearizedConstraints.isDataReady
  by_cases hlen : data.dynamic_obstacles.length = m._max_obstacles
  · simp only [hlen, ne_eq, not_true_eq_false, if_false, true_and]
    exact LinearizedConstraints.linearized_isDataReadyLoop_true_iff _ _
  · simp [hlen]

/-- C4: when the obstacle count differs from `max_obstacles`,
`LinearizedConstraints::isDataReady` returns false and `missing_data` becomes the incoming
string followed by a reason that contains "Obstacles". -/
theorem LinearizedConstraints.isDataReady_count_mismatch {F : Type}
    (m : LinearizedConstraints F) (data : RealTimeData F) (missing_data : String)
    (h : data.dynamic_obstacles.length ≠ m._max_obstacles) :
    (LinearizedConstraints.isDataReady m data missing_data).1 = false ∧
      ∃ reason : String,
        (LinearizedConstraints.isDataReady m data missing_data).2 = missing_data ++ reason ∧
          ∃ before after : String, reason = before ++ "Obstacles" ++ after := by
  unfold LinearizedConstraints.isDataReady
  rw [if_pos h]
  exact ⟨rfl, "Obstacles ", rfl, "", " ", by decide⟩

/-- Witness of C4: the module constructed for `max_obstacles = 2` receives one obstacle
(`max_obstacles - 1`). -/
theorem LinearizedConstraints.isDataReady_count_mismatch_witness :
    (LinearizedConstraints.isDataReady
        (LinearizedConstraints.new (sampleConfig2 ℚ) (sampleMemory ℚ)) (sampleData2 ℚ)
        "Goal ").1 = false ∧
      ∃ reason : String,
        (LinearizedConstraints.isDataReady
            (LinearizedConstraints.new (sampleConfig2 ℚ) (sampleMemory ℚ)) (sampleData2 ℚ)
            "Goal ").2 = "Goal " ++ reason ∧
          ∃ before after : String, reason = before ++ "Obstacles" ++ after :=
  LinearizedConstraints.isDataReady_count_mismatch
    (LinearizedConstraints.new (sampleConfig2 ℚ) (sampleMemory ℚ)) (sampleData2 ℚ) "Goal "
    (by decide)

theorem GaussianConstraints.isDataReadyLoop_deterministic {F : Type}
    (obstacles : List (DynamicObstacle F)) (missing_data : String)
    (h : ∃ o ∈ obstacles, o.prediction.type = PredictionType.DETERMINISTIC) :
    (GaussianConstraints.isDataReadyLoop obstacles missing_data).1 = false := by
  induction obstacles with
  | nil => simp at h
  | cons o rest ih =>
    unfold GaussianConstraints.isDataReadyLoop
    by_cases he : o.prediction.modes.isEmpty = true
    · simp [he]
    · by_cases ht : o.prediction.type ≠ PredictionType.GAUSSIAN
      · simp [he, ht]
      · have hg : o.prediction.type = PredictionType.GAUSSIAN := by simpa using ht
        simp only [he, Bool.false_eq_true, if_false, ht]
        apply ih
        obtain ⟨o', ho', hdet⟩ := h
        rcases List.mem_cons.1 ho' with rfl | hmem
        · rw [hg] at hdet; cases hdet
        · exact ⟨o', hmem, hdet⟩

theorem EllipsoidConstraints.ellipsoid_isDataReadyLoop_true_iff {F : Type}
    (obstacles : List (DynamicObstacle F)) (missing_data : String) :
    (EllipsoidConstraints.isDataReadyLoop obstacles missing_data).1 = true ↔
      ∀ o ∈ obstacles, o.Supported := by
  induction obstacles with
  | nil => simp [EllipsoidConstraints.isDataReadyLoop]
  | cons o rest ih =>
    unfold EllipsoidConstraints.isDataReadyLoop
    by_cases he : o.prediction.empty = true
    · have hne : ¬ o.Supported := by
        intro h
        have := (Prediction.empty_eq_false_iff o.prediction).2 h.1
        simp [he] at this
      simp [he, hne]
    · have he' : o.prediction.empty = false := by simpa using he
      have hmode := (Prediction.empty_eq_false_iff o.prediction).1 he'
      by_cases ht : o.prediction.type ≠ PredictionType.GAUSSIAN ∧
          o.prediction.type ≠ PredictionType.DETERMINISTIC
      · have hne : ¬ o.Supported := by
          intro h
          rcases h.2 with h | h
          · exact ht.2 h
          · exact ht.1 h
        simp [he', ht, hne]
      · have hs : o.Supported := by
          refine ⟨hmode, ?_⟩
          by_contra hcon
          exact ht ⟨fun h => hcon (Or.inr h), fun h => hcon (Or.inl h)⟩
        simp only [he', Bool.false_eq_true, if_false, ht, ih, List.mem_cons, forall_eq_or_imp,
          hs, true_and]

/-- C5: `GaussianConstraints::isDataReady` returns false for every RealTimeData in which some
obstacle has a DETERMINISTIC prediction; and for every configuration with at least one
obstacle slot there is such a RealTimeData (max_obstacles obstacles, non-empty robot area,
only non-empty DETERMINISTIC predictions) that `EllipsoidConstraints::isDataReady`
accepts. -/
theorem GaussianConstraints.isDataReady_rejects_deterministic {F : Type} (config : Config F) :
    (∀ (data : RealTimeData F) (missing_data : String),
        (∃ o ∈ data.dynamic_obstacles, o.prediction.type = PredictionType.DETERMINISTIC) →
          (GaussianConstraints.isDataReady config data missing_data).1 = false) ∧
      (F → 1 ≤ config.max_obstacles →
        ∃ data : RealTimeData F,
          data.dynamic_obstacles.length = config.max_obstacles ∧
          data.robot_area ≠ [] ∧
          (∀ o ∈ data.dynamic_obstacles,
            o.prediction.type = PredictionType.DETERMINISTIC ∧ o.prediction.empty = false) ∧
          (∃ o ∈ data.dynamic_obstacles,
            o.prediction.type = PredictionType.DETERMINISTIC) ∧
          (∀ missing_data : String,
            EllipsoidConstraints.isDataReady config data missing_data = (true, missing_data) ∧
            (GaussianConstraints.isDataReady config data missing_data).1 = false)) := by
  have part1 : ∀ (data : RealTimeData F) (missing_data : String),
      (∃ o ∈ data.dynamic_obstacles, o.prediction.type = PredictionType.DETERMINISTIC) →
        (GaussianConstraints.isDataReady config data missing_data).1 = false := by
    intro data missing_data h
    unfold GaussianConstraints.isDataReady
    by_cases hlen : data.dynamic_obstacles.length ≠ config.max_obstacles
    · simp [hlen]
    · rw [if_neg hlen]
      exact GaussianConstraints.isDataReadyLoop_deterministic _ _ h
  refine ⟨part1, ?_⟩
  intro z hmax
  let data : RealTimeData F :=
    { robot_area := [⟨z, z⟩],
      dynamic_obstacles := List.replicate config.max_obstacles (deterministicObstacle z 1) }
  have hall : ∀ o ∈ data.dynamic_obstacles,
      o.prediction.type = PredictionType.DETERMINISTIC ∧ o.prediction.empty = false := by
    intro o ho
    have := List.eq_of_mem_replicate ho
    subst this
    exact ⟨rfl, rfl⟩
  have hex : ∃ o ∈ data.dynamic_obstacles,
      o.prediction.type = PredictionType.DETERMINISTIC := by
    refine ⟨deterministicObstacle z 1, ?_, rfl⟩
    show deterministicObstacle z 1 ∈ List.replicate config.max_obstacles _
    rw [List.mem_replicate]
    exact ⟨by omega, rfl⟩
  refine ⟨data, by simp [data], by simp [data], hall, hex, ?_⟩
  intro missing_data
  refine ⟨?_, part1 data missing_data hex⟩
  have hloop : ∀ (n : Nat),
      EllipsoidConstraints.isDataReadyLoop (List.replicate n (deterministicObstacle z 1))
        missing_data = (true, missing_data) := by
    intro n
    induction n with
    | zero => rfl
    | succ n ih =>
      rw [List.replicate_succ]
      unfold EllipsoidConstraints.isDataReadyLoop
      simpa [deterministicObstacle, Prediction.empty] using ih
  unfold EllipsoidConstraints.isDataReady
  simp only [data, List.length_singleton, one_ne_zero, if_false, List.length_replicate, ne_eq,
    not_true_eq_false]
  exact hloop _

/-- Witness of C5: two obstacle slots, the second obstacle DETERMINISTIC, the first
GAUSSIAN. -/
theorem GaussianConstraints.isDataReady_rejects_deterministic_witness :
    (GaussianConstraints.isDataReady
        ({ n_discs := 1, N := 4, max_obstacles := 2, add_halfspaces := 0, robot_radius := 1,
           obstacle_radius := 1, risk := 0 } : Config ℚ)
        { robot_area := [⟨0, 1⟩],
          dynamic_obstacles :=
            [{ deterministicObstacle (0 : ℚ) 3 with
                prediction := { type := PredictionType.GAUSSIAN,
                                modes := [List.replicate 3 ⟨⟨0, 0⟩, 0, 0, 0⟩],
                                probabilities := [1] } },
             deterministicObstacle (0 : ℚ) 3] }
        "").1 = false :=
  (GaussianConstraints.isDataReady_rejects_deterministic _).1 _ ""
    ⟨deterministicObstacle (0 : ℚ) 3, by simp, rfl⟩

/-- C6, the code at the failing input: one obstacle slot, one disc, and the obstacle carries
the prediction built by `Prediction(PredictionType::GAUSSIAN)` to which no step was added
(one mode, no steps). `GaussianConstraints::isDataReady` returns true with `missing_data`
unchanged, `EllipsoidConstraints::isDataReady` returns false with "Obstacle Prediction ". -/
theorem GaussianConstraints.isDataReady_accepts_stepless_mode :
    GaussianConstraints.isDataReady
        ({ n_discs := 1, N := 4, max_obstacles := 1, add_halfspaces := 0, robot_radius := 1,
           obstacle_radius := 1, risk := 0 } : Config ℚ)
        { robot_area := [⟨0, 1⟩],
          dynamic_obstacles :=
            [{ index := 0, position := ⟨2, 0⟩, angle := 0, radius := 1,
               type := ObstacleType.DYNAMIC,
               prediction := Prediction.ofType PredictionType.GAUSSIAN }] }
        "" = (true, "") ∧
      EllipsoidConstraints.isDataReady
        ({ n_discs := 1, N := 4, max_obstacles := 1, add_halfspaces := 0, robot_radius := 1,
           obstacle_radius := 1, risk := 0 } : Config ℚ)
        { robot_area := [⟨0, 1⟩],
          dynamic_obstacles :=
            [{ index := 0, position := ⟨2, 0⟩, angle := 0, radius := 1,
               type := ObstacleType.DYNAMIC,
               prediction := Prediction.ofType PredictionType.GAUSSIAN }] }
        "" = (false, "Obstacle Prediction ") := by
  constructor <;> decide

theorem EllipsoidConstraints.obstacleFails_eq_false_iff {F : Type} (o : DynamicObstacle F) :
    EllipsoidConstraints.obstacleFails o = false ↔ o.Supported := by
  unfold EllipsoidConstraints.obstacleFails DynamicObstacle.Supported
  rw [← Prediction.empty_eq_false_iff]
  cases o.prediction.empty <;> cases o.prediction.type <;> simp

theorem EllipsoidConstraints.isDataReadyLoop_eq {F : Type}
    (obstacles : List (DynamicObstacle F)) (missing_data : String) :
    EllipsoidConstraints.isDataReadyLoop obstacles missing_data =
      match obstacles.find? EllipsoidConstraints.obstacleFails with
      | some o =>
        if o.prediction.empty then (false, missing_data ++ "Obstacle Prediction ")
        else (false, missing_data ++ "Obstacle Prediction (Type is incorrect) ")
      | none => (true, missing_data) := by
  induction obstacles with
  | nil => rfl
  | cons o rest ih =>
    unfold EllipsoidConstraints.isDataReadyLoop
    by_cases he : o.prediction.empty = true
    · simp [he, EllipsoidConstraints.obstacleFails, List.find?_cons]
    · have he' : o.prediction.empty = false := by simpa using he
      by_cases ht : o.prediction.type ≠ PredictionType.GAUSSIAN ∧
          o.prediction.type ≠ PredictionType.DETERMINISTIC
      · have hf : EllipsoidConstraints.obstacleFails o = true := by
          simp [EllipsoidConstraints.obstacleFails, he', ht.1, ht.2]
        simp [he', ht, hf, List.find?_cons]
      · have hf : EllipsoidConstraints.obstacleFails o = false := by
          simp only [EllipsoidConstraints.obstacleFails, he', Bool.false_or,
            Bool.and_eq_false_imp, decide_eq_true_eq, decide_eq_false_iff_not]
          intro h1 h2
          exact ht ⟨h1, h2⟩
        simp only [he', Bool.false_eq_true, if_false, ht, List.find?_cons, hf]
        exact ih

/-- C7: `EllipsoidConstraints::isDataReady` returns true (leaving `missing_data` as it was)
exactly when the robot area has at least one disc, the obstacle count equals `max_obstacles`
and every obstacle's prediction is non-empty and of type DETERMINISTIC or GAUSSIAN;
otherwise it returns false and appends exactly one reason, that of the first failing check in
the order robot area, obstacle count, then per obstacle prediction and type. -/
theorem EllipsoidConstraints.isDataReady_spec {F : Type} (config : Config F)
    (data : RealTimeData F) (missing_data : String) :
    ((EllipsoidConstraints.isDataReady config data missing_data).1 = true ↔
        1 ≤ data.robot_area.length ∧
        data.dynamic_obstacles.length = config.max_obstacles ∧
        ∀ o ∈ data.dynamic_obstacles,
          (∃ mode0, o.prediction.modes[0]? = some mode0 ∧ 1 ≤ mode0.length) ∧
            (o.prediction.type = PredictionType.DETERMINISTIC ∨
              o.prediction.type = PredictionType.GAUSSIAN)) ∧
      EllipsoidConstraints.isDataReady config data missing_data =
        (match EllipsoidConstraints.firstFailingReason config data with
          | none => (true, missing_data)
          | some reason => (false, missing_data ++ reason)) ∧
      (∀ reason, EllipsoidConstraints.firstFailingReason config data = some reason →
        reason ∈ ["Robot area ", "Obstacles ", "Obstacle Prediction ",
          "Obstacle Prediction (Type is incorrect) "]) := by
  refine ⟨?_, ?_, ?_⟩
  · unfold EllipsoidConstraints.isDataReady
    by_cases hr : data.robot_area.length = 0
    · simp [hr]
    · by_cases hlen : data.dynamic_obstacles.length ≠ config.max_obstacles
      · simp [hr, hlen]
      · have hlen' : data.dynamic_obstacles.length = config.max_obstacles := by
          simpa using hlen
        rw [if_neg hr, if_neg hlen, EllipsoidConstraints.ellipsoid_isDataReadyLoop_true_iff]
        have h1 : 1 ≤ data.robot_area.length := by omega
        simp only [h1, hlen', true_and]
        rfl
  · unfold EllipsoidConstraints.isDataReady EllipsoidConstraints.firstFailingReason
    by_cases hr : data.robot_area.length = 0
    · simp [hr]
    · by_cases hlen : data.dynamic_obstacles.length ≠ config.max_obstacles
      · simp [hr, hlen]
      · rw [if_neg hr, if_neg hlen, if_neg hr, if_neg hlen,
          EllipsoidConstraints.isDataReadyLoop_eq]
        cases data.dynamic_obstacles.find? EllipsoidConstraints.obstacleFails with
        | none => rfl
        | some o => by_cases he : o.prediction.empty = true <;> simp [he]
  · intro reason h
    unfold EllipsoidConstraints.firstFailingReason at h
    split_ifs at h with h1 h2
    · cases h; simp
    · cases h; simp
    · cases hfind : data.dynamic_obstacles.find? EllipsoidConstraints.obstacleFails with
      | none => rw [hfind] at h; cases h
      | some o =>
        rw [hfind] at h
        by_cases he : o.prediction.empty = true
        · simp only [he, if_true, Option.some.injEq] at h
          subst h; simp
        · simp only [he, Bool.false_eq_true, if_false, Option.some.injEq] at h
          subst h; simp

theorem forLoop_zero {σ : Type} (body : Nat → σ → Option σ) (start : Nat) (s : σ) :
    forLoop body start 0 s = some s := rfl

theorem forLoop_succ {σ : Type} (body : Nat → σ → Option σ) (start count : Nat) (s : σ) :
    forLoop body start (count + 1) s =
      (body start s).bind (forLoop body (start + 1) count) := rfl

theorem forLoop_invariant {σ : Type} (body : Nat → σ → Option σ) (P : Nat → σ → Prop) :
    ∀ (count start : Nat) (s : σ), P start s →
      (∀ i t, start ≤ i → i < start + count → P i t →
        ∃ t', body i t = some t' ∧ P (i + 1) t') →
      ∃ s', forLoop body start count s = some s' ∧ P (start + count) s' := by
  intro count
  induction count with
  | zero =>
    intro start s h0 _
    exact ⟨s, rfl, by simpa using h0⟩
  | succ n ih =>
    intro start s h0 hstep
    obtain ⟨t, ht, hPt⟩ := hstep start s (le_refl _) (by omega) h0
    obtain ⟨s', hs', hP'⟩ := ih (start + 1) t hPt (fun i u h1 h2 hu =>
      hstep i u (by omega) (by omega) hu)
    refine ⟨s', ?_, ?_⟩
    · rw [forLoop_succ, ht]
      exact hs'
    · have : start + (n + 1) = start + 1 + n := by omega
      rw [this]; exact hP'

theorem forLoop_preserved {σ : Type} (body : Nat → σ → Option σ) (P : Nat → σ → Prop) :
    ∀ (count start : Nat) (s s' : σ),
      (∀ i t t', start ≤ i → i < start + count → body i t = some t' → P i t → P (i + 1) t') →
      forLoop body start count s = some s' → P start s → P (start + count) s' := by
  intro count
  induction count with
  | zero =>
    intro start s s' _ h h0
    rw [forLoop_zero, Option.some.injEq] at h
    subst h
    simpa using h0
  | succ n ih =>
    intro start s s' hstep h h0
    rw [forLoop_succ] at h
    cases hb : body start s with
    | none => rw [hb] at h; simp at h
    | some t =>
      rw [hb] at h
      change forLoop body (start + 1) n t = some s' at h
      have := ih (start + 1) t s' (fun i u u' h1 h2 hu hP =>
        hstep i u u' (by omega) (by omega) hu hP) h
        (hstep start s t (le_refl _) (by omega) hb h0)
      have e : start + (n + 1) = start + 1 + n := by omega
      rw [e]; exact this

theorem Buffer.write_isSome {F : Type} (buffer : Buffer F) (d k i : Nat) (v : F)
    (h : (buffer.read d k i).isSome) : ∃ buffer', buffer.write d k i v = some buffer' := by
  unfold Buffer.read at h
  unfold Buffer.write
  cases hd : buffer[d]? with
  | none => simp [hd] at h
  | some row =>
    simp only [hd] at h ⊢
    cases hk : row[k]? with
    | none => simp [hk] at h
    | some arr =>
      simp only [hk] at h ⊢
      have hi : i < arr.length := by
        rcases Option.isSome_iff_exists.1 h with ⟨a, ha⟩
        exact (List.getElem?_eq_some.1 ha).1
      exact ⟨_, if_pos hi⟩

theorem Buffer.read_write {F : Type} (buffer buffer' : Buffer F) (d k i : Nat) (v : F)
    (h : buffer.write d k i v = some buffer') (d' k' i' : Nat) :
    buffer'.read d' k' i' =
      if d' = d ∧ k' = k ∧ i' = i then some v else buffer.read d' k' i' := by
  unfold Buffer.write at h
  cases hd : buffer[d]? with
  | none => simp [hd] at h
  | some row =>
    simp only [hd] at h
    cases hk : row[k]? with
    | none => simp [hk] at h
    | some arr =>
      simp only [hk] at h
      split_ifs at h with hi
      simp only [Option.some.injEq] at h
      subst h
      have hdl : d < buffer.length := (List.getElem?_eq_some.1 hd).1
      have hkl : k < row.length := (List.getElem?_eq_some.1 hk).1
      unfold Buffer.read
      by_cases e1 : d' = d
      · subst e1
        simp only [List.getElem?_set_self hdl, hd, true_and]
        by_cases e2 : k' = k
        · subst e2
          simp only [List.getElem?_set_self hkl, hk, true_and]
          by_cases e3 : i' = i
          · subst e3
            simp [List.getElem?_set_self hi]
          · simp [e3, List.getElem?_set_ne (Ne.symm e3)]
        · simp [e2, List.getElem?_set_ne (Ne.symm e2)]
      · simp [e1, List.getElem?_set_ne (Ne.symm e1)]

theorem valuesAt_setSolverParameter {F : Type} (params : List (ParameterWrite F))
    (f : ParameterField) (k : Nat) (v : F) (i : Nat) (f' : ParameterField) (k' i' : Nat) :
    valuesAt (setSolverParameter f k params v i) f' k' i' =
      valuesAt params f' k' i' ++ (if f = f' ∧ k = k' ∧ i = i' then [v] else []) := by
  unfold valuesAt setSolverParameter
  by_cases h : f = f' ∧ k = k' ∧ i = i'
  · simp [List.filter_append, List.filter_cons, h]
  · simp [List.filter_append, List.filter_cons, h]

theorem LinearizedConstraints.valuesAt_setConstraint {F : Type} (k : Nat) (t : F × F × F)
    (s : SetParametersState F) (f : ParameterField) (k' i' : Nat) :
    valuesAt (LinearizedConstraints.setConstraint k t.1 t.2.1 t.2.2 s).params f k' i' =
      valuesAt s.params f k' i' ++
        (if k' = k ∧ i' = s.constraint_counter then constraintValue f t else []) := by
  unfold LinearizedConstraints.setConstraint
  simp only [valuesAt_setSolverParameter, List.append_assoc]
  congr 1
  by_cases h : k' = k ∧ i' = s.constraint_counter
  · obtain ⟨rfl, rfl⟩ := h
    cases f <;> simp [constraintValue]
  · have h' : ¬ (k = k' ∧ s.constraint_counter = i') := fun ⟨a, b⟩ => h ⟨a.symm, b.symm⟩
    simp [h, h']

/-- A loop whose body at index `start + j` writes the triple `t j`: it writes `t j` to slot
`constraint_counter + j` for every `j < count`, and nothing else. -/
theorem LinearizedConstraints.tripleLoop {F : Type} (k : Nat)
    (body : Nat → SetParametersState F → Option (SetParametersState F))
    (t : Nat → F × F × F) (start count : Nat)
    (hbody : ∀ j s, j < count →
      body (start + j) s =
        some (LinearizedConstraints.setConstraint k (t j).1 (t j).2.1 (t j).2.2 s))
    (s : SetParametersState F) :
    ∃ s', forLoop body start count s = some s' ∧
      s'.constraint_counter = s.constraint_counter + count ∧
      ∀ f k' i', valuesAt s'.params f k' i' =
        valuesAt s.params f k' i' ++
          (if k' = k ∧ s.constraint_counter ≤ i' ∧ i' < s.constraint_counter + count then
            constraintValue f (t (i' - s.constraint_counter)) else []) := by
  have key := forLoop_invariant body
    (fun idx u => u.constraint_counter = s.constraint_counter + (idx - start) ∧
      ∀ f k' i', valuesAt u.params f k' i' =
        valuesAt s.params f k' i' ++
          (if k' = k ∧ s.constraint_counter ≤ i' ∧
              i' < s.constraint_counter + (idx - start) then
            constraintValue f (t (i' - s.constraint_counter)) else []))
    count start s ⟨by simp, by intro f k' i'; simp⟩
    (by
      intro idx u h1 h2 ⟨hc, hv⟩
      obtain ⟨j, rfl⟩ : ∃ j, idx = start + j := ⟨idx - start, by omega⟩
      have hj : j < count := by omega
      refine ⟨_, hbody j u hj, ?_, ?_⟩
      · simp only [LinearizedConstraints.setConstraint, hc]; omega
      · intro f k' i'
        rw [LinearizedConstraints.valuesAt_setConstraint, hv, List.append_assoc, hc]
        congr 1
        have e1 : start + j - start = j := by omega
        have e2 : start + j + 1 - start = j + 1 := by omega
        rw [e1, e2]
        by_cases hk : k' = k
        · by_cases hlt : s.constraint_counter ≤ i' ∧ i' < s.constraint_counter + j
          · have : ¬ i' = s.constraint_counter + j := by omega
            have h3 : s.constraint_counter ≤ i' ∧ i' < s.constraint_counter + (j + 1) := by
              omega
            simp [hk, hlt, this, h3]
          · by_cases heq : i' = s.constraint_counter + j
            · have h3 : s.constraint_counter ≤ i' ∧ i' < s.constraint_counter + (j + 1) := by
                omega
              have h4 : i' - s.constraint_counter = j := by omega
              simp only [hk, hlt, and_false, if_false, List.nil_append, true_and, h3, if_true,
                h4]
              simp [heq]
            · have h3 : ¬ (s.constraint_counter ≤ i' ∧
                  i' < s.constraint_counter + (j + 1)) := by omega
              simp [hk, hlt, heq, h3]
        · simp [hk])
  obtain ⟨s', hs', hc, hv⟩ := key
  refine ⟨s', hs', ?_, ?_⟩
  · rw [hc]; omega
  · intro f k' i'
    rw [hv]
    have : start + count - start = count := by omega
    rw [this]

theorem LinearizedConstraints.setBuffered_eq {F : Type} (m : LinearizedConstraints F)
    (k d i : Nat) (s : SetParametersState F) (t : F × F × F)
    (h : m.readConstraint d k i = some t) :
    LinearizedConstraints.setBuffered m k d i s =
      some (LinearizedConstraints.setConstraint k t.1 t.2.1 t.2.2 s) := by
  unfold LinearizedConstraints.readConstraint at h
  unfold LinearizedConstraints.setBuffered
  cases h1 : m._a1.read d k i <;> cases h2 : m._a2.read d k i <;>
    cases h3 : m._b.read d k i <;> simp_all
  subst h
  rfl

theorem LinearizedConstraints.setDiscOffset_spec {F : Type} (m : LinearizedConstraints F)
    (data : RealTimeData F) (k d : Nat) (s : SetParametersState F)
    (harea : m._use_guidance = false → d < data.robot_area.length) :
    ∃ s', LinearizedConstraints.setDiscOffset m data k d s = some s' ∧
      s'.constraint_counter = s.constraint_counter ∧
      ∀ f k' i', f ≠ ParameterField.EgoDiscOffset →
        valuesAt s'.params f k' i' = valuesAt s.params f k' i' := by
  unfold LinearizedConstraints.setDiscOffset
  cases hg : m._use_guidance with
  | true => exact ⟨s, by simp, rfl, fun _ _ _ _ => rfl⟩
  | false =>
    have hd := harea hg
    rw [List.getElem?_eq_getElem hd]
    refine ⟨_, rfl, rfl, ?_⟩
    intro f k' i' hf
    simp only [valuesAt_setSolverParameter]
    have : ¬ (ParameterField.EgoDiscOffset = f ∧ k = k' ∧ d = i') := fun h => hf h.1.symm
    simp [this]

/-- The effect of one pass of the disc loop of `setParameters(k)`, `k > 0`. -/
theorem LinearizedConstraints.setParametersDisc_spec {F : Type}
    (m : LinearizedConstraints F) (data : RealTimeData F) (k d : Nat)
    (s : SetParametersState F)
    (hn : data.dynamic_obstacles.length ≤ m._max_obstacles)
    (hbuf : ∀ i, i < data.dynamic_obstacles.length + m._n_other_halfspaces →
      (m.readConstraint d k i).isSome)
    (harea : m._use_guidance = false → d < data.robot_area.length) :
    ∃ s', LinearizedConstraints.setParametersDisc m data k d s = some s' ∧
      s'.constraint_counter =
        s.constraint_counter + (m._max_obstacles + m._n_other_halfspaces) ∧
      ∀ f k' i', f ≠ ParameterField.EgoDiscOffset →
        valuesAt s'.params f k' i' =
          valuesAt s.params f k' i' ++
            (if k' = k ∧ s.constraint_counter ≤ i' ∧
                i' < s.constraint_counter + (m._max_obstacles + m._n_other_halfspaces) then
              constraintValue f
                (m.slotConstraint data.dynamic_obstacles.length k d
                  (i' - s.constraint_counter))
            else []) := by
  obtain ⟨s1, hs1, hc1, hv1⟩ := LinearizedConstraints.setDiscOffset_spec m data k d s harea
  obtain ⟨s2, hs2, hc2, hv2⟩ := LinearizedConstraints.tripleLoop k
    (LinearizedConstraints.setBuffered m k d)
    (fun j => (m.readConstraint d k j).getD m.dummyConstraint) 0
    (data.dynamic_obstacles.length + m._n_other_halfspaces)
    (by
      intro j u hj
      obtain ⟨t, ht⟩ := Option.isSome_iff_exists.1 (hbuf j hj)
      rw [Nat.zero_add, LinearizedConstraints.setBuffered_eq m k d j u t ht]
      simp only [ht, Option.getD_some]) s1
  obtain ⟨s3, hs3, hc3, hv3⟩ := LinearizedConstraints.tripleLoop k
    (LinearizedConstraints.setDummy m k)
    (fun _ => m.dummyConstraint)
    (data.dynamic_obstacles.length + m._n_other_halfspaces)
    (m._max_obstacles + m._n_other_halfspaces -
      (data.dynamic_obstacles.length + m._n_other_halfspaces))
    (by intro j u _; rfl) s2
  refine ⟨s3, ?_, ?_, ?_⟩
  · unfold LinearizedConstraints.setParametersDisc
    rw [hs1]
    simp only [hs2]
    exact hs3
  · rw [hc3, hc2, hc1]; omega
  · intro f k' i' hf
    rw [hv3, hv2, hv1 f k' i' hf, List.append_assoc, hc2, hc1]
    congr 1
    unfold LinearizedConstraints.slotConstraint
    by_cases hk : k' = k
    · by_cases h1 : s.constraint_counter ≤ i' ∧
          i' < s.constraint_counter +
            (data.dynamic_obstacles.length + m._n_other_halfspaces)
      · have h2 : ¬ (s.constraint_counter +
            (data.dynamic_obstacles.length + m._n_other_halfspaces) ≤ i' ∧
            i' < s.constraint_counter +
              (data.dynamic_obstacles.length + m._n_other_halfspaces) +
              (m._max_obstacles + m._n_other_halfspaces -
                (data.dynamic_obstacles.length + m._n_other_halfspaces))) := by omega
        have h3 : s.constraint_counter ≤ i' ∧
            i' < s.constraint_counter + (m._max_obstacles + m._n_other_halfspaces) := by
          omega
        have h4 : i' - s.constraint_counter <
            data.dynamic_obstacles.length + m._n_other_halfspaces := by omega
        simp [hk, h1, h2, h3, h4]
      · by_cases h2 : s.constraint_counter +
            (data.dynamic_obstacles.length + m._n_other_halfspaces) ≤ i' ∧
            i' < s.constraint_counter +
              (data.dynamic_obstacles.length + m._n_other_halfspaces) +
              (m._max_obstacles + m._n_other_halfspaces -
                (data.dynamic_obstacles.length + m._n_other_halfspaces))
        · have h3 : s.constraint_counter ≤ i' ∧
              i' < s.constraint_counter + (m._max_obstacles + m._n_other_halfspaces) := by
            omega
          have h4 : ¬ i' - s.constraint_counter <
              data.dynamic_obstacles.length + m._n_other_halfspaces := by omega
          simp [hk, h1, h2, h3, h4]
        · have h3 : ¬ (s.constraint_counter ≤ i' ∧
              i' < s.constraint_counter + (m._max_obstacles + m._n_other_halfspaces)) := by
            omega
          simp [hk, h1, h2, h3]
    · simp [hk]

/-- The effect of `setParameters(0)` on the sink: the dummy triple goes to every slot below
`_max_obstacles + _n_other_halfspaces` of stage 0, and nothing else is written. -/
theorem LinearizedConstraints.setParameters_zero {F : Type} (m : LinearizedConstraints F)
    (solver : Solver F) (data : RealTimeData F) (module_data : ModuleData F) :
    ∃ solver', LinearizedConstraints.setParameters m solver data module_data 0 = some solver' ∧
      ∀ f k' i', valuesAt solver'._params f k' i' =
        valuesAt solver._params f k' i' ++
          (if k' = 0 ∧ i' < m._max_obstacles + m._n_other_halfspaces then
            constraintValue f m.dummyConstraint else []) := by
  obtain ⟨s, hs, _, hv⟩ := LinearizedConstraints.tripleLoop 0
    (LinearizedConstraints.setDummy m 0) (fun _ => m.dummyConstraint) 0
    (m._max_obstacles + m._n_other_halfspaces) (by intro j u _; rfl)
    { params := solver._params, constraint_counter := 0 }
  refine ⟨{ solver with _params := s.params }, ?_, ?_⟩
  · unfold LinearizedConstraints.setParameters
    simp only [if_true, hs]
  · intro f k' i'
    have := hv f k' i'
    simp only [Nat.zero_le, true_and, Nat.zero_add] at this
    exact this

/-- The effect of `setParameters(k)`, `k > 0`, on the constraint fields of the sink: disc `d`
owns the block of slots `d * M + i`, `i < M = _max_obstacles + _n_other_halfspaces`; each
slot of a block receives one triple, and no other slot and no other stage is written. -/
theorem LinearizedConstraints.setParameters_pos {F : Type} (m : LinearizedConstraints F)
    (solver : Solver F) (data : RealTimeData F) (module_data : ModuleData F) (k : Nat)
    (hk : k ≠ 0)
    (hn : data.dynamic_obstacles.length ≤ m._max_obstacles)
    (hbuf : ∀ d i, d < m._n_discs →
      i < data.dynamic_obstacles.length + m._n_other_halfspaces →
      (m.readConstraint d k i).isSome)
    (harea : m._use_guidance = false → m._n_discs ≤ data.robot_area.length) :
    ∃ solver', LinearizedConstraints.setParameters m solver data module_data k = some solver' ∧
      (∀ f d i, f ≠ ParameterField.EgoDiscOffset → d < m._n_discs →
        i < m._max_obstacles + m._n_other_halfspaces →
        valuesAt solver'._params f k (d * (m._max_obstacles + m._n_other_halfspaces) + i) =
          valuesAt solver._params f k (d * (m._max_obstacles + m._n_other_halfspaces) + i) ++
            constraintValue f (m.slotConstraint data.dynamic_obstacles.length k d i)) ∧
      (∀ f k' i', f ≠ ParameterField.EgoDiscOffset →
        (k' ≠ k ∨ m._n_discs * (m._max_obstacles + m._n_other_halfspaces) ≤ i') →
        valuesAt solver'._params f k' i' = valuesAt solver._params f k' i') := by
  have key := forLoop_invariant (LinearizedConstraints.setParametersDisc m data k)
    (fun d' u =>
      u.constraint_counter = d' * (m._max_obstacles + m._n_other_halfspaces) ∧
      (∀ f d i, f ≠ ParameterField.EgoDiscOffset → d < d' →
        i < m._max_obstacles + m._n_other_halfspaces →
        valuesAt u.params f k (d * (m._max_obstacles + m._n_other_halfspaces) + i) =
          valuesAt solver._params f k (d * (m._max_obstacles + m._n_other_halfspaces) + i) ++
            constraintValue f (m.slotConstraint data.dynamic_obstacles.length k d i)) ∧
      (∀ f k' i', f ≠ ParameterField.EgoDiscOffset →
        (k' ≠ k ∨ d' * (m._max_obstacles + m._n_other_halfspaces) ≤ i') →
        valuesAt u.params f k' i' = valuesAt solver._params f k' i'))
    m._n_discs 0 { params := solver._params, constraint_counter := 0 }
    ⟨by simp, by intro f d i _ hd; omega, by intro f k' i' _ _; rfl⟩
    (by
      intro d' u _ hd' ⟨hc, hin, hout⟩
      obtain ⟨u', hu', hc', hv'⟩ := LinearizedConstraints.setParametersDisc_spec m data k d' u
        hn (fun i hi => hbuf d' i (by omega) hi) (fun hg => by have := harea hg; omega)
      refine ⟨u', hu', ?_, ?_, ?_⟩
      · rw [hc', hc, Nat.add_mul, Nat.one_mul]
      · intro f d i hf hd hi
        rw [hv' f k _ hf, hc]
        by_cases hdd : d = d'
        · subst hdd
          rw [hout f k _ hf (Or.inr (Nat.le_add_right _ _))]
          have e : d * (m._max_obstacles + m._n_other_halfspaces) + i -
              d * (m._max_obstacles + m._n_other_halfspaces) = i := by omega
          simp [hi, e]
        · have hlt : d < d' := by omega
          have hmul : (d + 1) * (m._max_obstacles + m._n_other_halfspaces) ≤
              d' * (m._max_obstacles + m._n_other_halfspaces) :=
            Nat.mul_le_mul_right _ hlt
          rw [Nat.add_mul, Nat.one_mul] at hmul
          have hno : ¬ (d' * (m._max_obstacles + m._n_other_halfspaces) ≤
              d * (m._max_obstacles + m._n_other_halfspaces) + i) := by omega
          rw [hin f d i hf hlt hi]
          simp [hno]
      · intro f k' i' hf hcase
        rw [hv' f k' i' hf, hc]
        have hmul : (d' + 1) * (m._max_obstacles + m._n_other_halfspaces) =
            d' * (m._max_obstacles + m._n_other_halfspaces) +
              (m._max_obstacles + m._n_other_halfspaces) := by
          rw [Nat.add_mul, Nat.one_mul]
        rcases hcase with hk' | hge
        · rw [hout f k' i' hf (Or.inl hk')]
          simp [hk']
        · rw [hout f k' i' hf (Or.inr (by omega))]
          have : ¬ (i' < d' * (m._max_obstacles + m._n_other_halfspaces) +
              (m._max_obstacles + m._n_other_halfspaces)) := by omega
          simp [this])
  obtain ⟨s, hs, _, hin, hout⟩ := key
  refine ⟨{ solver with _params := s.params }, ?_, ?_, ?_⟩
  · unfold LinearizedConstraints.setParameters
    simp only [hk, if_false, hs]
  · intro f d i hf hd hi
    exact hin f d i hf (by omega) hi
  · intro f k' i' hf hcase
    refine hout f k' i' hf ?_
    rcases hcase with h | h
    · exact Or.inl h
    · exact Or.inr (by simpa using h)

theorem LinearizedConstraints.linearizeObstacle_settings {F : Type} [Field F]
    (num : Numerics F) (config : Config F) (copied_obstacles : List (DynamicObstacle F))
    (k d : Nat) (pos : Vector2d F) (obs_id : Nat) (m m' : LinearizedConstraints F)
    (h : LinearizedConstraints.linearizeObstacle num config copied_obstacles k d pos obs_id m
      = some m') :
    m'.settings = m.settings ∧ m'.warnings = m.warnings := by
  unfold LinearizedConstraints.linearizeObstacle at h
  split at h
  · cases h
  · split at h
    · cases h
    · simp only at h
      split at h
      · cases h
      · split at h
        · cases h
        · split at h
          · split at h
            · cases h
            · simp only [Option.some.injEq] at h
              subst h
              exact ⟨rfl, rfl⟩
          · cases h

theorem LinearizedConstraints.storeHalfspace_settings {F : Type}
    (halfspaces : List (Halfspace F)) (num_obstacles k d h : Nat)
    (m m' : LinearizedConstraints F)
    (hs : LinearizedConstraints.storeHalfspace halfspaces num_obstacles k d h m = some m') :
    m'.settings = m.settings ∧ m'.warnings = m.warnings := by
  unfold LinearizedConstraints.storeHalfspace at hs
  simp only at hs
  split at hs
  · cases hs
  · split at hs
    · cases hs
    · split at hs
      · cases hs
      · split at hs
        · cases hs
        · simp only [Option.some.injEq] at hs
          subst hs
          exact ⟨rfl, rfl⟩

theorem LinearizedConstraints.warnHalfspaces_settings {F : Type}
    (module_data : ModuleData F) (k : Nat) (m m' : LinearizedConstraints F)
    (h : LinearizedConstraints.warnHalfspaces module_data k m = some m') :
    m'.settings = m.settings ∧ m'._a1 = m._a1 ∧ m'._a2 = m._a2 ∧ m'._b = m._b := by
  unfold LinearizedConstraints.warnHalfspaces at h
  split at h
  · simp only [Option.some.injEq] at h
    subst h
    exact ⟨rfl, rfl, rfl, rfl⟩
  · split at h
    · cases h
    · split at h
      · simp only [Option.some.injEq] at h
        subst h
        exact ⟨rfl, rfl, rfl, rfl⟩
      · simp only [Option.some.injEq] at h
        subst h
        exact ⟨rfl, rfl, rfl, rfl⟩

theorem LinearizedConstraints.updateDisc_settings {F : Type} [Field F] (num : Numerics F)
    (dr : DouglasRachford F) (config : Config F) (solver : Solver F) (data : RealTimeData F)
    (module_data : ModuleData F) (copied_obstacles : List (DynamicObstacle F)) (k d : Nat)
    (m m' : LinearizedConstraints F)
    (h : LinearizedConstraints.updateDisc num dr config solver data module_data
      copied_obstacles k d m = some m') :
    m'.settings = m.settings := by
  unfold LinearizedConstraints.updateDisc at h
  split at h
  · cases h
  · rename_i pos _
    split at h
    · cases h
    · rename_i m1 h1
      split at h
      · cases h
      · rename_i m2 h2
        have e1 : m1.settings = m.settings :=
          forLoop_preserved _ (fun _ u => u.settings = m.settings) _ 0 m m1
            (fun i t t' _ _ ht hP =>
              (LinearizedConstraints.linearizeObstacle_settings num config copied_obstacles
                k d pos i t t' ht).1.trans hP) h1 rfl
        have e2 : m2.settings = m1.settings :=
          (LinearizedConstraints.warnHalfspaces_settings module_data k m1 m2 h2).1
        unfold LinearizedConstraints.storeHalfspaces at h
        split at h
        · simp only [Option.some.injEq] at h
          subst h
          exact e2.trans e1
        · split at h
          · cases h
          · rename_i halfspaces _
            have e3 : m'.settings = m2.settings :=
              forLoop_preserved _ (fun _ u => u.settings = m2.settings) _ 0 m2 m'
                (fun i t t' _ _ ht hP =>
                  (LinearizedConstraints.storeHalfspace_settings halfspaces
                    copied_obstacles.length k d i t t' ht).1.trans hP) h rfl
            exact e3.trans (e2.trans e1)

/-- A successful `update` sets `_dummy_b` to `state.get("x") + 100` and `_num_obstacles` to
the obstacle count, and leaves the other settings as they were. -/
theorem LinearizedConstraints.update_settings {F : Type} [Field F] (num : Numerics F)
    (dr : DouglasRachford F) (config : Config F) (solver : Solver F)
    (m m' : LinearizedConstraints F) (state : State F) (data : RealTimeData F)
    (module_data : ModuleData F)
    (h : LinearizedConstraints.update num dr config solver m state data module_data
      = some m') :
    m'.settings =
      (m._dummy_a1, m._dummy_a2, state.get "x" + 100, m._use_guidance, m._n_discs,
        m._n_other_halfspaces, data.dynamic_obstacles.length, m._max_obstacles) := by
  unfold LinearizedConstraints.update at h
  exact forLoop_preserved _
    (fun _ u => u.settings =
      (m._dummy_a1, m._dummy_a2, state.get "x" + 100, m._use_guidance, m._n_discs,
        m._n_other_halfspaces, data.dynamic_obstacles.length, m._max_obstacles))
    _ 1 _ m'
    (fun k t t' _ _ ht hP =>
      (forLoop_preserved _ (fun _ u => u.settings = t.settings) _ 0 t t'
        (fun d u u' _ _ hu hQ =>
          (LinearizedConstraints.updateDisc_settings num dr config solver data module_data
            data.dynamic_obstacles k d u u' hu).trans hQ) ht rfl).trans hP)
    h rfl

theorem LinearizedConstraints.readConstraint_isSome {F : Type} (m : LinearizedConstraints F)
    (d k i : Nat) (h : (m.readConstraint d k i).isSome) :
    (m._a1.read d k i).isSome ∧ (m._a2.read d k i).isSome ∧ (m._b.read d k i).isSome := by
  unfold LinearizedConstraints.readConstraint at h
  cases h1 : m._a1.read d k i <;> cases h2 : m._a2.read d k i <;>
    cases h3 : m._b.read d k i <;> simp_all

/-- Writing the three buffers at an allocated slot succeeds and changes that slot only. -/
theorem LinearizedConstraints.store_triple {F : Type} (m : LinearizedConstraints F)
    (d k i : Nat) (v1 v2 v3 : F) (h : (m.readConstraint d k i).isSome) :
    ∃ a1 a2 b, m._a1.write d k i v1 = some a1 ∧ m._a2.write d k i v2 = some a2 ∧
      m._b.write d k i v3 = some b ∧ a1.read d k i = some v1 ∧ a2.read d k i = some v2 ∧
      ∀ d' k' i',
        LinearizedConstraints.readConstraint { m with _a1 := a1, _a2 := a2, _b := b }
            d' k' i' =
          if d' = d ∧ k' = k ∧ i' = i then some (v1, v2, v3)
          else m.readConstraint d' k' i' := by
  obtain ⟨h1, h2, h3⟩ := LinearizedConstraints.readConstraint_isSome m d k i h
  obtain ⟨a1, ha1⟩ := Buffer.write_isSome m._a1 d k i v1 h1
  obtain ⟨a2, ha2⟩ := Buffer.write_isSome m._a2 d k i v2 h2
  obtain ⟨b, hb⟩ := Buffer.write_isSome m._b d k i v3 h3
  refine ⟨a1, a2, b, ha1, ha2, hb, ?_, ?_, ?_⟩
  · rw [Buffer.read_write _ _ d k i v1 ha1]; simp
  · rw [Buffer.read_write _ _ d k i v2 ha2]; simp
  · intro d' k' i'
    unfold LinearizedConstraints.readConstraint
    simp only [Buffer.read_write _ _ d k i v1 ha1, Buffer.read_write _ _ d k i v2 ha2,
      Buffer.read_write _ _ d k i v3 hb]
    by_cases e : d' = d ∧ k' = k ∧ i' = i
    · simp [e]
    · simp [e]

theorem LinearizedConstraints.linearizeObstacle_spec {F : Type} [Field F]
    (num : Numerics F) (config : Config F) (copied_obstacles : List (DynamicObstacle F))
    (k d : Nat) (pos : Vector2d F) (obs_id : Nat) (m : LinearizedConstraints F)
    (obstacle : DynamicObstacle F) (o : Vector2d F)
    (hobs : copied_obstacles[obs_id]? = some obstacle)
    (hpos : obstacle.predictedPosition k = some o)
    (hslot : (m.readConstraint d k obs_id).isSome) :
    ∃ m', LinearizedConstraints.linearizeObstacle num config copied_obstacles k d pos obs_id m
        = some m' ∧
      m'.settings = m.settings ∧ m'.warnings = m.warnings ∧
      ∀ d' k' i', m'.readConstraint d' k' i' =
        if d' = d ∧ k' = k ∧ i' = obs_id then
          some (LinearizedConstraints.linearized num pos o
            (LinearizedConstraints.inflatedRadius config m obstacle))
        else m.readConstraint d' k' i' := by
  obtain ⟨a1, a2, b, ha1, ha2, hb, hr1, hr2, hread⟩ :=
    LinearizedConstraints.store_triple m d k obs_id
      ((o.x - pos.x) / (o.sub pos).norm num) ((o.y - pos.y) / (o.sub pos).norm num)
      ((o.x - pos.x) / (o.sub pos).norm num * o.x + (o.y - pos.y) / (o.sub pos).norm num * o.y
        - LinearizedConstraints.inflatedRadius config m obstacle) hslot
  refine ⟨{ m with _a1 := a1, _a2 := a2, _b := b }, ?_, rfl, rfl, ?_⟩
  · unfold LinearizedConstraints.linearizeObstacle
    simp only [hobs, hpos, ha1, ha2, hr1, hr2, hb]
  · intro d' k' i'
    rw [hread d' k' i']
    rfl

theorem LinearizedConstraints.storeHalfspace_spec {F : Type}
    (halfspaces : List (Halfspace F)) (num_obstacles k d h : Nat)
    (m : LinearizedConstraints F) (halfspace : Halfspace F)
    (hh : halfspaces[h]? = some halfspace)
    (hslot : (m.readConstraint d k (num_obstacles + h)).isSome) :
    ∃ m', LinearizedConstraints.storeHalfspace halfspaces num_obstacles k d h m = some m' ∧
      m'.settings = m.settings ∧ m'.warnings = m.warnings ∧
      ∀ d' k' i', m'.readConstraint d' k' i' =
        if d' = d ∧ k' = k ∧ i' = num_obstacles + h then
          some (halfspace.A.x, halfspace.A.y, halfspace.b)
        else m.readConstraint d' k' i' := by
  obtain ⟨a1, a2, b, ha1, ha2, hb, _, _, hread⟩ :=
    LinearizedConstraints.store_triple m d k (num_obstacles + h)
      halfspace.A.x halfspace.A.y halfspace.b hslot
  refine ⟨{ m with _a1 := a1, _a2 := a2, _b := b }, ?_, rfl, rfl, hread⟩
  unfold LinearizedConstraints.storeHalfspace
  simp only [hh, ha1, ha2, hb]

/-- A loop whose body at index `j` stores the triple `t j` in slot `base + j` of the cell
`(d, k)`: it succeeds when the slots exist, and changes those slots only. -/
theorem LinearizedConstraints.storeLoop {F : Type}
    (body : Nat → LinearizedConstraints F → Option (LinearizedConstraints F))
    (d k base count : Nat) (t : Nat → F × F × F) (m : LinearizedConstraints F)
    (hbody : ∀ j u, j < count → u.settings = m.settings →
      (u.readConstraint d k (base + j)).isSome →
      ∃ u', body j u = some u' ∧ u'.settings = u.settings ∧ u'.warnings = u.warnings ∧
        ∀ d' k' i', u'.readConstraint d' k' i' =
          if d' = d ∧ k' = k ∧ i' = base + j then some (t j) else u.readConstraint d' k' i')
    (hslots : ∀ j, j < count → (m.readConstraint d k (base + j)).isSome) :
    ∃ m', forLoop body 0 count m = some m' ∧
      m'.settings = m.settings ∧ m'.warnings = m.warnings ∧
      ∀ d' k' i', m'.readConstraint d' k' i' =
        if d' = d ∧ k' = k ∧ base ≤ i' ∧ i' < base + count then some (t (i' - base))
        else m.readConstraint d' k' i' := by
  have key := forLoop_invariant body
    (fun j u => u.settings = m.settings ∧ u.warnings = m.warnings ∧
      ∀ d' k' i', u.readConstraint d' k' i' =
        if d' = d ∧ k' = k ∧ base ≤ i' ∧ i' < base + j then some (t (i' - base))
        else m.readConstraint d' k' i')
    count 0 m
    ⟨rfl, rfl, by
      intro d' k' i'
      have : ¬ (d' = d ∧ k' = k ∧ base ≤ i' ∧ i' < base + 0) := by omega
      rw [if_neg this]⟩
    (by
      intro j u _ hj ⟨hs, hw, hr⟩
      have hj' : j < count := by omega
      have hslot : (u.readConstraint d k (base + j)).isSome := by
        rw [hr]
        have : ¬ (d = d ∧ k = k ∧ base ≤ base + j ∧ base + j < base + j) := by omega
        rw [if_neg this]
        exact hslots j hj'
      obtain ⟨u', hu', hs', hw', hr'⟩ := hbody j u hj' hs hslot
      refine ⟨u', hu', hs'.trans hs, hw'.trans hw, ?_⟩
      intro d' k' i'
      rw [hr', hr]
      by_cases e : d' = d ∧ k' = k
      · by_cases e1 : i' = base + j
        · have h2 : base ≤ i' ∧ i' < base + (j + 1) := by omega
          have h3 : i' - base = j := by omega
          simp [e, e1]
        · by_cases e2 : base ≤ i' ∧ i' < base + j
          · have h2 : base ≤ i' ∧ i' < base + (j + 1) := by omega
            simp [e, e1, e2, h2]
          · have h2 : ¬ (base ≤ i' ∧ i' < base + (j + 1)) := by omega
            simp [e, e1, e2, h2]
      · have n1 : ¬ (d' = d ∧ k' = k ∧ i' = base + j) := fun h => e ⟨h.1, h.2.1⟩
        have n2 : ¬ (d' = d ∧ k' = k ∧ base ≤ i' ∧ i' < base + j) := fun h => e ⟨h.1, h.2.1⟩
        have n3 : ¬ (d' = d ∧ k' = k ∧ base ≤ i' ∧ i' < base + (j + 1)) :=
          fun h => e ⟨h.1, h.2.1⟩
        simp [n1, n2, n3])
  obtain ⟨m', hm', hs, hw, hr⟩ := key
  refine ⟨m', hm', hs, hw, ?_⟩
  intro d' k' i'
  rw [hr, Nat.zero_add]

theorem LinearizedConstraints.use_guidance_of_settings {F : Type}
    (u m : LinearizedConstraints F) (h : u.settings = m.settings) :
    u._use_guidance = m._use_guidance ∧ u._n_discs = m._n_discs ∧
      u._n_other_halfspaces = m._n_other_halfspaces ∧
      u._max_obstacles = m._max_obstacles := by
  simp only [LinearizedConstraints.settings, Prod.mk.injEq] at h
  exact ⟨h.2.2.2.1, h.2.2.2.2.1, h.2.2.2.2.2.1, h.2.2.2.2.2.2.2⟩

theorem LinearizedConstraints.inflatedRadius_congr {F : Type} [Field F] (config : Config F)
    (u m : LinearizedConstraints F) (h : u._use_guidance = m._use_guidance)
    (obstacle : DynamicObstacle F) :
    LinearizedConstraints.inflatedRadius config u obstacle =
      LinearizedConstraints.inflatedRadius config m obstacle := by
  unfold LinearizedConstraints.inflatedRadius
  rw [h]

theorem LinearizedConstraints.anchor_congr {F : Type} [Field F] (num : Numerics F)
    (dr : DouglasRachford F) (config : Config F) (solver : Solver F)
    (u m : LinearizedConstraints F) (h : u._use_guidance = m._use_guidance)
    (data : RealTimeData F) (copied_obstacles : List (DynamicObstacle F)) (k d : Nat) :
    LinearizedConstraints.anchor num dr config solver u data copied_obstacles k d =
      LinearizedConstraints.anchor num dr config solver m data copied_obstacles k d := by
  have hstep : LinearizedConstraints.projectionStep dr config u copied_obstacles k =
      LinearizedConstraints.projectionStep dr config m copied_obstacles k := by
    funext pos obstacle
    unfold LinearizedConstraints.projectionStep
    rw [LinearizedConstraints.inflatedRadius_congr config u m h]
  unfold LinearizedConstraints.anchor LinearizedConstraints.projectToSafety
  rw [hstep, h]

theorem LinearizedConstraints.warnHalfspaces_spec {F : Type} (module_data : ModuleData F)
    (k : Nat) (m : LinearizedConstraints F)
    (hstatic : module_data.static_obstacles = [] ∨
      ∃ halfspaces, module_data.static_obstacles[k]? = some halfspaces) :
    ∃ m', LinearizedConstraints.warnHalfspaces module_data k m = some m' ∧
      m'.settings = m.settings ∧
      ∀ d' k' i', m'.readConstraint d' k' i' = m.readConstraint d' k' i' := by
  have hsome : ∃ m', LinearizedConstraints.warnHalfspaces module_data k m = some m' := by
    unfold LinearizedConstraints.warnHalfspaces
    rcases hstatic with h | ⟨halfspaces, h⟩
    · exact ⟨m, by simp [h]⟩
    · rw [h]
      by_cases he : module_data.static_obstacles.isEmpty = true
      · exact ⟨m, by simp [he]⟩
      · by_cases hl : halfspaces.length < m._n_other_halfspaces
        · simp only [he, Bool.false_eq_true, if_false, hl, if_true]
          exact ⟨_, rfl⟩
        · simp only [he, Bool.false_eq_true, if_false, hl]
          exact ⟨_, rfl⟩
  obtain ⟨m', hm'⟩ := hsome
  obtain ⟨hs, h1, h2, h3⟩ :=
    LinearizedConstraints.warnHalfspaces_settings module_data k m m' hm'
  refine ⟨m', hm', hs, ?_⟩
  intro d' k' i'
  unfold LinearizedConstraints.readConstraint
  rw [h1, h2, h3]

theorem LinearizedConstraints.storeHalfspaces_spec {F : Type} (module_data : ModuleData F)
    (num_obstacles k d : Nat) (m : LinearizedConstraints F)
    (hstatic : module_data.static_obstacles = [] ∨
      ∃ halfspaces, module_data.static_obstacles[k]? = some halfspaces)
    (hslots : ∀ h, h < m._n_other_halfspaces →
      (m.readConstraint d k (num_obstacles + h)).isSome) :
    ∃ m', LinearizedConstraints.storeHalfspaces module_data num_obstacles k d m = some m' ∧
      m'.settings = m.settings ∧ m'.warnings = m.warnings ∧
      ∀ d' k' i', m'.readConstraint d' k' i' =
        if d' = d ∧ k' = k ∧ num_obstacles ≤ i' then
          match module_data.static_obstacles[k]? with
          | none => m.readConstraint d' k' i'
          | some halfspaces =>
            if i' - num_obstacles < min halfspaces.length m._n_other_halfspaces then
              (halfspaces[i' - num_obstacles]?).map
                fun halfspace => (halfspace.A.x, halfspace.A.y, halfspace.b)
            else m.readConstraint d' k' i'
        else m.readConstraint d' k' i' := by
  unfold LinearizedConstraints.storeHalfspaces
  rcases hstatic with h | ⟨halfspaces, h⟩
  · refine ⟨m, by simp [h], rfl, rfl, ?_⟩
    intro d' k' i'
    simp [h]
  · have hne : module_data.static_obstacles.isEmpty = false := by
      cases hl : module_data.static_obstacles with
      | nil => rw [hl] at h; simp at h
      | cons a l => rfl
    obtain ⟨m', hm', hs, hw, hr⟩ := LinearizedConstraints.storeLoop
      (LinearizedConstraints.storeHalfspace halfspaces num_obstacles k d) d k num_obstacles
      (min halfspaces.length m._n_other_halfspaces)
      (fun j => ((halfspaces[j]?).map
        fun halfspace => (halfspace.A.x, halfspace.A.y, halfspace.b)).getD
          (m._dummy_a1, m._dummy_a2, m._dummy_b)) m
      (by
        intro j u hj _ hslot
        have hjl : j < halfspaces.length := by omega
        have hget : halfspaces[j]? = some halfspaces[j] := List.getElem?_eq_getElem hjl
        obtain ⟨u', hu', hs', hw', hr'⟩ := LinearizedConstraints.storeHalfspace_spec
          halfspaces num_obstacles k d j u halfspaces[j] hget hslot
        refine ⟨u', hu', hs', hw', ?_⟩
        intro d' k' i'
        rw [hr' d' k' i']
        simp only [hget, Option.map_some', Option.getD_some])
      (by intro j hj; exact hslots j (by omega))
    refine ⟨m', ?_, hs, hw, ?_⟩
    · simp only [hne, Bool.false_eq_true, if_false, h]
      exact hm'
    · intro d' k' i'
      rw [hr d' k' i', h]
      by_cases e : d' = d ∧ k' = k ∧ num_obstacles ≤ i'
      · by_cases e2 : i' - num_obstacles < min halfspaces.length m._n_other_halfspaces
        · have e3 : d' = d ∧ k' = k ∧ num_obstacles ≤ i' ∧
              i' < num_obstacles + min halfspaces.length m._n_other_halfspaces := by omega
          have hjl : i' - num_obstacles < halfspaces.length := by omega
          rw [if_pos e3, if_pos e]
          simp only [e2, if_true, List.getElem?_eq_getElem hjl, Option.map_some',
            Option.getD_some]
        · have e3 : ¬ (d' = d ∧ k' = k ∧ num_obstacles ≤ i' ∧
              i' < num_obstacles + min halfspaces.length m._n_other_halfspaces) := by omega
          rw [if_neg e3, if_pos e]
          simp only [e2, if_false]
      · have e3 : ¬ (d' = d ∧ k' = k ∧ num_obstacles ≤ i' ∧
            i' < num_obstacles + min halfspaces.length m._n_other_halfspaces) :=
          fun hh => e ⟨hh.1, hh.2.1, hh.2.2.1⟩
        rw [if_neg e3, if_neg e]

/-- The effect of one pass of the body of the stage and disc loops of `update`: it succeeds
when the anchor, the prediction steps, the half-spaces of the stage and the slots of the cell
exist, and it rewrites the cell `(d, k)` only. -/
theorem LinearizedConstraints.updateDisc_spec {F : Type} [Field F] (num : Numerics F)
    (dr : DouglasRachford F) (config : Config F) (solver : Solver F) (data : RealTimeData F)
    (module_data : ModuleData F) (copied_obstacles : List (DynamicObstacle F)) (k d : Nat)
    (m : LinearizedConstraints F) (p : Vector2d F)
    (hanchor : LinearizedConstraints.anchor num dr config solver m data copied_obstacles k d
      = some p)
    (hpos : ∀ (i : Nat) (obstacle : DynamicObstacle F), copied_obstacles[i]? = some obstacle →
      ∃ o, obstacle.predictedPosition k = some o)
    (hstatic : module_data.static_obstacles = [] ∨
      ∃ halfspaces, module_data.static_obstacles[k]? = some halfspaces)
    (hn : copied_obstacles.length ≤ m._max_obstacles)
    (hslots : ∀ i, i < m._max_obstacles + m._n_other_halfspaces →
      (m.readConstraint d k i).isSome) :
    ∃ m', LinearizedConstraints.updateDisc num dr config solver data module_data
        copied_obstacles k d m = some m' ∧
      m'.settings = m.settings ∧
      ∀ d' k' i', m'.readConstraint d' k' i' =
        if d' = d ∧ k' = k then
          LinearizedConstraints.cellConstraint num config m copied_obstacles module_data k p i'
            (m.readConstraint d k i')
        else m.readConstraint d' k' i' := by
  obtain ⟨m1, hm1, hs1, _, hr1⟩ := LinearizedConstraints.storeLoop
    (LinearizedConstraints.linearizeObstacle num config copied_obstacles k d p) d k 0
    copied_obstacles.length
    (fun j => (LinearizedConstraints.obstacleConstraint num config m copied_obstacles k p
      j).getD (m._dummy_a1, m._dummy_a2, m._dummy_b)) m
    (by
      intro j u hj hu hslot
      have hget : copied_obstacles[j]? = some copied_obstacles[j] :=
        List.getElem?_eq_getElem hj
      obtain ⟨o, ho⟩ := hpos j _ hget
      rw [Nat.zero_add] at hslot
      obtain ⟨u', hu', hs', hw', hr'⟩ := LinearizedConstraints.linearizeObstacle_spec num
        config copied_obstacles k d p j u _ o hget ho hslot
      refine ⟨u', hu', hs', hw', ?_⟩
      intro d' k' i'
      rw [hr' d' k' i', Nat.zero_add,
        LinearizedConstraints.inflatedRadius_congr config u m
          (LinearizedConstraints.use_guidance_of_settings u m hu).1]
      simp only [LinearizedConstraints.obstacleConstraint, hget, ho, Option.getD_some])
    (by intro j hj; exact hslots _ (by omega))
  obtain ⟨m2, hm2, hs2, hr2⟩ :=
    LinearizedConstraints.warnHalfspaces_spec module_data k m1 hstatic
  obtain ⟨e1, e2, e3, e4⟩ := LinearizedConstraints.use_guidance_of_settings _ _ (hs2.trans hs1)
  obtain ⟨m3, hm3, hs3, _, hr3⟩ := LinearizedConstraints.storeHalfspaces_spec module_data
    copied_obstacles.length k d m2 hstatic
    (by
      intro h hh
      rw [hr2, hr1]
      have hlt : copied_obstacles.length + h < m._max_obstacles + m._n_other_halfspaces := by
        omega
      by_cases e : d = d ∧ k = k ∧ 0 ≤ copied_obstacles.length + h ∧
          copied_obstacles.length + h < 0 + copied_obstacles.length
      · rw [if_pos e]; rfl
      · rw [if_neg e]; exact hslots _ hlt)
  refine ⟨m3, ?_, hs3.trans (hs2.trans hs1), ?_⟩
  · unfold LinearizedConstraints.updateDisc
    simp only [hanchor, hm1, hm2]
    exact hm3
  · intro d' k' i'
    rw [hr3 d' k' i']
    unfold LinearizedConstraints.cellConstraint
    by_cases e : d' = d ∧ k' = k
    · obtain ⟨rfl, rfl⟩ := e
      by_cases hi : i' < copied_obstacles.length
      · have n1 : ¬ (d' = d' ∧ k' = k' ∧ copied_obstacles.length ≤ i') := by omega
        have n2 : d' = d' ∧ k' = k' ∧ 0 ≤ i' ∧ i' < 0 + copied_obstacles.length := by omega
        rw [if_neg n1, hr2, hr1, if_pos n2]
        have hget : copied_obstacles[i']? = some copied_obstacles[i'] :=
          List.getElem?_eq_getElem hi
        obtain ⟨o, ho⟩ := hpos i' _ hget
        simp only [LinearizedConstraints.obstacleConstraint, hget, ho, Option.getD_some,
          and_self, if_true, hi, Nat.sub_zero]
      · have n1 : d' = d' ∧ k' = k' ∧ copied_obstacles.length ≤ i' := by omega
        have n2 : ¬ (d' = d' ∧ k' = k' ∧ 0 ≤ i' ∧ i' < 0 + copied_obstacles.length) := by
          omega
        rw [if_pos n1, hr2, hr1, if_neg n2, e3]
        simp only [and_self, if_true, hi, if_false]
    · have n1 : ¬ (d' = d ∧ k' = k ∧ copied_obstacles.length ≤ i') :=
        fun h => e ⟨h.1, h.2.1⟩
      have n2 : ¬ (d' = d ∧ k' = k ∧ 0 ≤ i' ∧ i' < 0 + copied_obstacles.length) :=
        fun h => e ⟨h.1, h.2.1⟩
      rw [if_neg n1, hr2, hr1, if_neg n2, if_neg e]

theorem DynamicObstacle.predictedPosition_isSome {F : Type} (obstacle : DynamicObstacle F)
    (k : Nat) (mode0 : List (PredictionStep F)) (hk : 1 ≤ k)
    (hmode : obstacle.prediction.modes[0]? = some mode0) (hlen : k - 1 < mode0.length) :
    ∃ o, obstacle.predictedPosition k = some o := by
  unfold DynamicObstacle.predictedPosition
  have hk0 : k ≠ 0 := by omega
  rw [if_neg hk0, hmode]
  simp only [List.getElem?_eq_getElem hlen]
  exact ⟨_, rfl⟩

theorem foldlM_option_isSome {α β : Type} (f : β → α → Option β) (l : List α)
    (h : ∀ a ∈ l, ∀ b, ∃ b', f b a = some b') : ∀ b, ∃ b', l.foldlM f b = some b' := by
  induction l with
  | nil => intro b; exact ⟨b, rfl⟩
  | cons a l ih =>
    intro b
    obtain ⟨b1, hb1⟩ := h a (List.mem_cons_self a l) b
    obtain ⟨b2, hb2⟩ := ih (fun a' ha' => h a' (List.mem_cons_of_mem a ha')) b1
    refine ⟨b2, ?_⟩
    rw [List.foldlM_cons, hb1]
    exact hb2

theorem LinearizedConstraints.projectToSafety_isSome {F : Type} [Field F]
    (dr : DouglasRachford F) (config : Config F) (m : LinearizedConstraints F)
    (copied_obstacles : List (DynamicObstacle F)) (k : Nat) (pos : Vector2d F)
    (hpos : ∀ o ∈ copied_obstacles, ∃ q, o.predictedPosition k = some q) :
    ∃ p, LinearizedConstraints.projectToSafety dr config m copied_obstacles k pos = some p := by
  unfold LinearizedConstraints.projectToSafety
  cases hl : copied_obstacles with
  | nil => exact ⟨pos, rfl⟩
  | cons first rest =>
    rw [← hl]
    have hne : copied_obstacles.isEmpty = false := by rw [hl]; rfl
    rw [hne]
    simp only [Bool.false_eq_true, if_false]
    obtain ⟨anchor, hanchor⟩ := hpos first (by rw [hl]; exact List.mem_cons_self _ _)
    have hstep : ∀ o ∈ copied_obstacles, ∀ b, ∃ b',
        LinearizedConstraints.projectionStep dr config m copied_obstacles k b o = some b' := by
      intro o ho b
      obtain ⟨q, hq⟩ := hpos o ho
      unfold LinearizedConstraints.projectionStep
      have h0 : copied_obstacles[0]? = some first := by rw [hl]; simp
      rw [hq, h0]
      simp only [hanchor]
      exact ⟨_, rfl⟩
    obtain ⟨p, hp, _⟩ := forLoop_invariant
      (fun _ pos => copied_obstacles.foldlM
        (LinearizedConstraints.projectionStep dr config m copied_obstacles k) pos)
      (fun _ _ => True) 3 0 pos trivial
      (fun i t _ _ _ => by
        obtain ⟨t', ht'⟩ := foldlM_option_isSome _ copied_obstacles hstep t
        exact ⟨t', ht', trivial⟩)
    exact ⟨p, hp⟩

theorem LinearizedConstraints.anchor_isSome {F : Type} [Field F] (num : Numerics F)
    (dr : DouglasRachford F) (config : Config F) (solver : Solver F)
    (m : LinearizedConstraints F) (data : RealTimeData F)
    (copied_obstacles : List (DynamicObstacle F)) (k d : Nat)
    (harea : m._use_guidance = false → d < data.robot_area.length)
    (hpos : ∀ o ∈ copied_obstacles, ∃ q, o.predictedPosition k = some q) :
    ∃ p, LinearizedConstraints.anchor num dr config solver m data copied_obstacles k d
      = some p := by
  unfold LinearizedConstraints.anchor
  cases hg : m._use_guidance with
  | true =>
    simp only [Bool.not_true, Bool.false_eq_true, if_false]
    exact LinearizedConstraints.projectToSafety_isSome dr config m copied_obstacles k _ hpos
  | false =>
    simp only [Bool.not_false, if_true, List.getElem?_eq_getElem (harea hg)]
    exact LinearizedConstraints.projectToSafety_isSome dr config m copied_obstacles k _ hpos

theorem LinearizedConstraints.cellConstraint_congr {F : Type} [Field F] (num : Numerics F)
    (config : Config F) (u m : LinearizedConstraints F)
    (h1 : u._use_guidance = m._use_guidance)
    (h2 : u._n_other_halfspaces = m._n_other_halfspaces)
    (copied_obstacles : List (DynamicObstacle F)) (module_data : ModuleData F) (k : Nat)
    (pos : Vector2d F) (i : Nat) (old : Option (F × F × F)) :
    LinearizedConstraints.cellConstraint num config u copied_obstacles module_data k pos i old
      = LinearizedConstraints.cellConstraint num config m copied_obstacles module_data k pos i
        old := by
  have hr : LinearizedConstraints.inflatedRadius config u =
      LinearizedConstraints.inflatedRadius config m := by
    funext obstacle
    exact LinearizedConstraints.inflatedRadius_congr config u m h1 obstacle
  unfold LinearizedConstraints.cellConstraint LinearizedConstraints.obstacleConstraint
  rw [hr, h2]

/-- The effect of the disc loop of `update` at one stage `k`: the cell `(d, k)` of every disc
`d < _n_discs` is rewritten about its anchor, every other cell is kept. -/
theorem LinearizedConstraints.updateStage_spec {F : Type} [Field F] (num : Numerics F)
    (dr : DouglasRachford F) (config : Config F) (solver : Solver F) (data : RealTimeData F)
    (module_data : ModuleData F) (k : Nat) (m u : LinearizedConstraints F)
    (hu : u._use_guidance = m._use_guidance ∧ u._n_discs = m._n_discs ∧
      u._n_other_halfspaces = m._n_other_halfspaces ∧ u._max_obstacles = m._max_obstacles)
    (hn : data.dynamic_obstacles.length ≤ m._max_obstacles)
    (hpos : ∀ o ∈ data.dynamic_obstacles, ∃ q, o.predictedPosition k = some q)
    (harea : m._use_guidance = false → m._n_discs ≤ data.robot_area.length)
    (hstatic : module_data.static_obstacles = [] ∨
      ∃ halfspaces, module_data.static_obstacles[k]? = some halfspaces)
    (hslots : ∀ d i, d < m._n_discs → i < m._max_obstacles + m._n_other_halfspaces →
      (u.readConstraint d k i).isSome) :
    ∃ u', forLoop
        (LinearizedConstraints.updateDisc num dr config solver data module_data
          data.dynamic_obstacles k) 0 u._n_discs u = some u' ∧
      u'.settings = u.settings ∧
      ∀ d k' i, u'.readConstraint d k' i =
        if k' = k ∧ d < m._n_discs then
          match LinearizedConstraints.anchor num dr config solver m data
              data.dynamic_obstacles k d with
          | none => none
          | some pos =>
            LinearizedConstraints.cellConstraint num config m data.dynamic_obstacles
              module_data k pos i (u.readConstraint d k i)
        else u.readConstraint d k' i := by
  obtain ⟨hg, hnd, hno, hmax⟩ := hu
  have key := forLoop_invariant
    (LinearizedConstraints.updateDisc num dr config solver data module_data
      data.dynamic_obstacles k)
    (fun d' v => v.settings = u.settings ∧
      ∀ d k' i, v.readConstraint d k' i =
        if k' = k ∧ d < d' then
          match LinearizedConstraints.anchor num dr config solver m data
              data.dynamic_obstacles k d with
          | none => none
          | some pos =>
            LinearizedConstraints.cellConstraint num config m data.dynamic_obstacles
              module_data k pos i (u.readConstraint d k i)
        else u.readConstraint d k' i)
    u._n_discs 0 u
    ⟨rfl, by
      intro d k' i
      have : ¬ (k' = k ∧ d < 0) := by omega
      rw [if_neg this]⟩
    (by
      intro d' v _ hd' ⟨hsv, hrv⟩
      have hd'' : d' < m._n_discs := by omega
      obtain ⟨vg, _, vno, vmax⟩ := LinearizedConstraints.use_guidance_of_settings v u hsv
      obtain ⟨p, hp⟩ := LinearizedConstraints.anchor_isSome num dr config solver m data
        data.dynamic_obstacles k d' (fun hgm => by have := harea hgm; omega) hpos
      have hp' : LinearizedConstraints.anchor num dr config solver v data
          data.dynamic_obstacles k d' = some p := by
        rw [LinearizedConstraints.anchor_congr num dr config solver v m (vg.trans hg)]
        exact hp
      have hkeep : ∀ i, v.readConstraint d' k i = u.readConstraint d' k i := by
        intro i
        rw [hrv]
        have : ¬ (k = k ∧ d' < d') := by omega
        rw [if_neg this]
      obtain ⟨v', hv', hsv', hrv'⟩ := LinearizedConstraints.updateDisc_spec num dr config
        solver data module_data data.dynamic_obstacles k d' v p hp'
        (fun i obstacle hi => hpos obstacle (List.getElem?_mem hi)) hstatic
        (by rw [vmax, hmax]; exact hn)
        (by
          intro i hi
          rw [hkeep]
          exact hslots d' i hd'' (by rw [vmax, vno, hmax, hno] at hi; exact hi))
      refine ⟨v', hv', hsv'.trans hsv, ?_⟩
      intro d k' i
      rw [hrv' d k' i]
      by_cases e : d = d' ∧ k' = k
      · obtain ⟨rfl, rfl⟩ := e
        have e2 : k' = k' ∧ d < d + 1 := by omega
        rw [if_pos ⟨rfl, rfl⟩, if_pos e2, hp, hkeep,
          LinearizedConstraints.cellConstraint_congr num config v m (vg.trans hg)
            (vno.trans hno)]
      · rw [if_neg e, hrv d k' i]
        by_cases e3 : k' = k ∧ d < d'
        · have e4 : k' = k ∧ d < d' + 1 := by omega
          rw [if_pos e3, if_pos e4]
        · have e4 : ¬ (k' = k ∧ d < d' + 1) := by
            intro h4
            exact e ⟨by omega, h4.1⟩
          rw [if_neg e3, if_neg e4])
  obtain ⟨u', hu', hs', hr'⟩ := key
  refine ⟨u', hu', hs', ?_⟩
  intro d k' i
  rw [hr' d k' i, Nat.zero_add, hnd]

/-- The effect of `update`: under `UpdateInRange` it succeeds, it sets `_dummy_b` and
`_num_obstacles`, and the content of every slot of the buffers afterwards is
`updatedConstraint`. -/
theorem LinearizedConstraints.update_spec {F : Type} [Field F] (num : Numerics F)
    (dr : DouglasRachford F) (config : Config F) (solver : Solver F)
    (m : LinearizedConstraints F) (state : State F) (data : RealTimeData F)
    (module_data : ModuleData F)
    (h : LinearizedConstraints.UpdateInRange m solver data module_data) :
    ∃ m', LinearizedConstraints.update num dr config solver m state data module_data
        = some m' ∧
      m'.settings =
        (m._dummy_a1, m._dummy_a2, state.get "x" + 100, m._use_guidance, m._n_discs,
          m._n_other_halfspaces, data.dynamic_obstacles.length, m._max_obstacles) ∧
      ∀ d k i, m'.readConstraint d k i =
        LinearizedConstraints.updatedConstraint num dr config solver m data module_data
          d k i := by
  have hpos : ∀ k, 1 ≤ k → k < solver.N → ∀ o ∈ data.dynamic_obstacles,
      ∃ q, o.predictedPosition k = some q := by
    intro k hk1 hkN o ho
    obtain ⟨mode0, hmode, hlen⟩ := h.steps o ho
    exact DynamicObstacle.predictedPosition_isSome o k mode0 hk1 hmode (by omega)
  have hstatic : ∀ k, k < solver.N → (module_data.static_obstacles = [] ∨
      ∃ halfspaces, module_data.static_obstacles[k]? = some halfspaces) := by
    intro k hk
    rcases h.stages with h0 | h1
    · exact Or.inl h0
    · exact Or.inr ⟨_, List.getElem?_eq_getElem (by omega)⟩
  have key := forLoop_invariant
    (fun k u =>
      forLoop
        (LinearizedConstraints.updateDisc num dr config solver data module_data
          data.dynamic_obstacles k) 0 u._n_discs u)
    (fun k' u =>
      u.settings =
        (m._dummy_a1, m._dummy_a2, state.get "x" + 100, m._use_guidance, m._n_discs,
          m._n_other_halfspaces, data.dynamic_obstacles.length, m._max_obstacles) ∧
      ∀ d k i, u.readConstraint d k i =
        if 1 ≤ k ∧ k < k' ∧ d < m._n_discs then
          match LinearizedConstraints.anchor num dr config solver m data
              data.dynamic_obstacles k d with
          | none => none
          | some pos =>
            LinearizedConstraints.cellConstraint num config m data.dynamic_obstacles
              module_data k pos i (m.readConstraint d k i)
        else m.readConstraint d k i)
    (solver.N - 1) 1
    { m with _dummy_b := state.get "x" + 100,
             _num_obstacles := data.dynamic_obstacles.length }
    ⟨rfl, by
      intro d k i
      have : ¬ (1 ≤ k ∧ k < 1 ∧ d < m._n_discs) := by omega
      rw [if_neg this]
      rfl⟩
    (by
      intro k' u hk1 hkN ⟨hsu, hru⟩
      have hkN' : k' < solver.N := by omega
      have hfields : u._use_guidance = m._use_guidance ∧ u._n_discs = m._n_discs ∧
          u._n_other_halfspaces = m._n_other_halfspaces ∧
          u._max_obstacles = m._max_obstacles := by
        simp only [LinearizedConstraints.settings, Prod.mk.injEq] at hsu
        exact ⟨hsu.2.2.2.1, hsu.2.2.2.2.1, hsu.2.2.2.2.2.1, hsu.2.2.2.2.2.2.2⟩
      have hkeep : ∀ d i, u.readConstraint d k' i = m.readConstraint d k' i := by
        intro d i
        rw [hru]
        have : ¬ (1 ≤ k' ∧ k' < k' ∧ d < m._n_discs) := by omega
        rw [if_neg this]
      obtain ⟨u', hu', hsu', hru'⟩ := LinearizedConstraints.updateStage_spec num dr config
        solver data module_data k' m u hfields h.obstacles (hpos k' hk1 hkN') h.discs
        (hstatic k' hkN')
        (by
          intro d i hd hi
          rw [hkeep]
          exact h.buffers d k' i hd hkN' hi)
      refine ⟨u', hu', hsu'.trans hsu, ?_⟩
      intro d k i
      rw [hru' d k i]
      by_cases e : k = k' ∧ d < m._n_discs
      · obtain ⟨rfl, hd⟩ := e
        have e2 : 1 ≤ k ∧ k < k + 1 ∧ d < m._n_discs := by omega
        rw [if_pos ⟨rfl, hd⟩, if_pos e2, hkeep]
      · rw [if_neg e, hru d k i]
        by_cases e3 : 1 ≤ k ∧ k < k' ∧ d < m._n_discs
        · have e4 : 1 ≤ k ∧ k < k' + 1 ∧ d < m._n_discs := by omega
          rw [if_pos e3, if_pos e4]
        · have e4 : ¬ (1 ≤ k ∧ k < k' + 1 ∧ d < m._n_discs) := by
            intro h4
            exact e ⟨by omega, h4.2.2⟩
          rw [if_neg e3, if_neg e4])
  obtain ⟨m', hm', hs', hr'⟩ := key
  refine ⟨m', hm', hs', ?_⟩
  intro d k i
  rw [hr' d k i]
  unfold LinearizedConstraints.updatedConstraint
  by_cases e : 1 ≤ k ∧ k < solver.N ∧ d < m._n_discs
  · have e2 : 1 ≤ k ∧ k < 1 + (solver.N - 1) ∧ d < m._n_discs := by omega
    rw [if_pos e, if_pos e2]
  · have e2 : ¬ (1 ≤ k ∧ k < 1 + (solver.N - 1) ∧ d < m._n_discs) := by omega
    rw [if_neg e, if_neg e2]

theorem Buffer.read_allocate {F : Type} (n_discs N n_constraints : Nat)
    (content : Nat → Nat → Nat → F) (d k i : Nat) (hd : d < n_discs) (hk : k < N)
    (hi : i < n_constraints) :
    (Buffer.allocate n_discs N n_constraints content).read d k i = some (content d k i) := by
  unfold Buffer.read Buffer.allocate
  simp [List.getElem?_map, List.getElem?_range, hd, hk, hi]

/-- The constructor allocates every slot of every disc and stage. -/
theorem LinearizedConstraints.new_allocated {F : Type} [Zero F] [One F] (config : Config F)
    (memory : Uninitialized F) (d k i : Nat)
    (hd : d < (LinearizedConstraints.new config memory)._n_discs) (hk : k < config.N)
    (hi : i < (LinearizedConstraints.new config memory)._max_obstacles +
      (LinearizedConstraints.new config memory)._n_other_halfspaces) :
    (LinearizedConstraints.new config memory).readConstraint d k i =
      some (memory.a1 d k i, memory.a2 d k i, memory.b d k i) := by
  unfold LinearizedConstraints.readConstraint
  simp only [LinearizedConstraints.new] at hd hi ⊢
  rw [Buffer.read_allocate _ _ _ _ d k i hd hk hi, Buffer.read_allocate _ _ _ _ d k i hd hk hi,
    Buffer.read_allocate _ _ _ _ d k i hd hk hi]

theorem LinearizedConstraints.readConstraint_eq_some {F : Type} (m : LinearizedConstraints F)
    (d k i : Nat) (t : F × F × F) (h : m.readConstraint d k i = some t) :
    m._a1.read d k i = some t.1 ∧ m._a2.read d k i = some t.2.1 ∧
      m._b.read d k i = some t.2.2 := by
  unfold LinearizedConstraints.readConstraint at h
  cases h1 : m._a1.read d k i <;> cases h2 : m._a2.read d k i <;>
    cases h3 : m._b.read d k i <;> simp_all
  subst h
  exact ⟨rfl, rfl, rfl⟩

/-- The sample inputs satisfy `UpdateInRange` for the freshly constructed module. -/
theorem LinearizedConstraints.sample_inRange (F : Type) [Field F] :
    LinearizedConstraints.UpdateInRange
      (LinearizedConstraints.new (sampleConfig F) (sampleMemory F)) (sampleSolver F)
      (sampleData F) ⟨[]⟩ where
  obstacles := by simp [sampleData, LinearizedConstraints.new, sampleConfig]
  steps := by
    intro o ho
    simp only [sampleData, List.mem_singleton] at ho
    subst ho
    exact ⟨[⟨⟨2, 0⟩, 0, 0, 0⟩], rfl, by simp [sampleSolver]⟩
  discs := by intro _; simp [sampleData, LinearizedConstraints.new, sampleConfig]
  stages := Or.inl rfl
  buffers := by
    intro d k i hd hk hi
    rw [LinearizedConstraints.new_allocated (sampleConfig F) (sampleMemory F) d k i hd hk hi]
    rfl

/-- The stored triple of an obstacle slot after `update`. -/
theorem LinearizedConstraints.update_obstacle_slot {F : Type} [Field F] (num : Numerics F)
    (dr : DouglasRachford F) (config : Config F) (solver : Solver F)
    (m : LinearizedConstraints F) (data : RealTimeData F) (module_data : ModuleData F)
    (k d i : Nat) (obstacle : DynamicObstacle F) (p o : Vector2d F)
    (hk1 : 1 ≤ k) (hkN : k < solver.N) (hd : d < m._n_discs)
    (hobs : data.dynamic_obstacles[i]? = some obstacle)
    (hp : LinearizedConstraints.anchor num dr config solver m data data.dynamic_obstacles k d
      = some p)
    (ho : obstacle.predictedPosition k = some o) :
    LinearizedConstraints.updatedConstraint num dr config solver m data module_data d k i =
      some (LinearizedConstraints.linearized num p o
        (LinearizedConstraints.inflatedRadius config m obstacle)) := by
  have hi : i < data.dynamic_obstacles.length := (List.getElem?_eq_some.1 hobs).1
  unfold LinearizedConstraints.updatedConstraint
  rw [if_pos ⟨hk1, hkN, hd⟩, hp]
  simp only [LinearizedConstraints.cellConstraint, hi, if_true,
    LinearizedConstraints.obstacleConstraint, hobs, ho]

theorem LinearizedConstraints.sample_distance :
    (Vector2d.sub (⟨2, 0⟩ : Vector2d ℝ) ⟨0, 0⟩).norm ⟨Real.sqrt, Real.cos, Real.sin⟩ = 2 := by
  simp only [Vector2d.norm, Vector2d.sub]
  have : ((2 : ℝ) - 0) * (2 - 0) + (0 - 0) * (0 - 0) = 2 * 2 := by norm_num
  rw [this, Real.sqrt_mul_self (by norm_num)]

theorem writesTriple_of_constraintValue {F : Type} (before after : List (ParameterWrite F))
    (k index : Nat) (t : F × F × F)
    (h : ∀ f, f ≠ ParameterField.EgoDiscOffset →
      valuesAt after f k index = valuesAt before f k index ++ constraintValue f t) :
    WritesTriple before after k index t.1 t.2.1 t.2.2 :=
  ⟨h _ (by decide), h _ (by decide), h _ (by decide)⟩

/-- C8: for every stage `k < N`, with at least one disc and no more obstacles than
`_max_obstacles` (and buffers and robot area large enough for the reads), `setParameters(k)`
succeeds and every slot below `_max_obstacles + _n_other_halfspaces` of stage `k` receives
exactly one value in each of the fields A1, A2 and B. -/
theorem LinearizedConstraints.setParameters_fills_every_slot {F : Type}
    (m : LinearizedConstraints F) (solver : Solver F) (data : RealTimeData F)
    (module_data : ModuleData F) (k : Nat)
    (hk : k < solver.N) (hdiscs : 1 ≤ m._n_discs)
    (hn : data.dynamic_obstacles.length ≤ m._max_obstacles)
    (hbuf : ∀ d k i, d < m._n_discs → k < solver.N →
      i < m._max_obstacles + m._n_other_halfspaces → (m.readConstraint d k i).isSome)
    (harea : m._use_guidance = false → m._n_discs ≤ data.robot_area.length) :
    ∃ solver', LinearizedConstraints.setParameters m solver data module_data k = some solver' ∧
      ∀ slot, slot < m._max_obstacles + m._n_other_halfspaces →
        ∃ a1 a2 b, WritesTriple solver._params solver'._params k slot a1 a2 b := by
  by_cases hk0 : k = 0
  · subst hk0
    obtain ⟨solver', hs, hv⟩ :=
      LinearizedConstraints.setParameters_zero m solver data module_data
    refine ⟨solver', hs, ?_⟩
    intro slot hslot
    refine ⟨_, _, _, writesTriple_of_constraintValue _ _ 0 slot m.dummyConstraint ?_⟩
    intro f _
    rw [hv f 0 slot, if_pos ⟨rfl, hslot⟩]
  · obtain ⟨solver', hs, hin, _⟩ :=
      LinearizedConstraints.setParameters_pos m solver data module_data k hk0 hn
        (fun d i hd hi => hbuf d k i hd hk (by omega)) harea
    refine ⟨solver', hs, ?_⟩
    intro slot hslot
    refine ⟨_, _, _, writesTriple_of_constraintValue _ _ k slot
      (m.slotConstraint data.dynamic_obstacles.length k 0 slot) ?_⟩
    intro f hf
    have := hin f 0 slot hf (by omega) hslot
    rw [Nat.zero_mul, Nat.zero_add] at this
    exact this

/-- C9: `setParameters(0)` after an `update` writes exactly the triple
`(1, 0, state.get("x") + 100)` to every slot below `_max_obstacles + _n_other_halfspaces` of
stage 0 and nothing else, whatever the obstacle data, the module data and the content of the
constraint buffers (`_dummy_a1 = 1` and `_dummy_a2 = 0` are set at construction and never
assigned). -/
theorem LinearizedConstraints.setParameters_zero_dummy {F : Type} [Field F]
    (num : Numerics F) (dr : DouglasRachford F) (config : Config F) (solver0 : Solver F)
    (m0 m : LinearizedConstraints F) (state : State F) (data0 : RealTimeData F)
    (module_data0 : ModuleData F)
    (h1 : m0._dummy_a1 = 1) (h2 : m0._dummy_a2 = 0)
    (hupdate : LinearizedConstraints.update num dr config solver0 m0 state data0 module_data0
      = some m)
    (a1 a2 b : Buffer F) (solver : Solver F) (data : RealTimeData F)
    (module_data : ModuleData F) :
    ∃ solver',
      LinearizedConstraints.setParameters { m with _a1 := a1, _a2 := a2, _b := b } solver data
        module_data 0 = some solver' ∧
      (∀ slot, slot < m0._max_obstacles + m0._n_other_halfspaces →
        WritesTriple solver._params solver'._params 0 slot 1 0 (state.get "x" + 100)) ∧
      (∀ f k slot, (k ≠ 0 ∨ m0._max_obstacles + m0._n_other_halfspaces ≤ slot) →
        valuesAt solver'._params f k slot = valuesAt solver._params f k slot) := by
  have hset := LinearizedConstraints.update_settings num dr config solver0 m0 m state data0
    module_data0 hupdate
  simp only [LinearizedConstraints.settings, Prod.mk.injEq] at hset
  obtain ⟨e1, e2, e3, _, _, e6, _, e8⟩ := hset
  obtain ⟨solver', hs, hv⟩ := LinearizedConstraints.setParameters_zero
    { m with _a1 := a1, _a2 := a2, _b := b } solver data module_data
  simp only [LinearizedConstraints.dummyConstraint, e1, e2, e3, e6, e8, h1, h2] at hv
  refine ⟨solver', hs, ?_, ?_⟩
  · intro slot hslot
    refine writesTriple_of_constraintValue _ _ 0 slot (1, 0, state.get "x" + 100) ?_
    intro f _
    rw [hv f 0 slot, if_pos ⟨rfl, hslot⟩]
  · intro f k slot hcase
    rw [hv f k slot]
    have : ¬ (k = 0 ∧ slot < m0._max_obstacles + m0._n_other_halfspaces) := by omega
    rw [if_neg this, List.append_nil]

/-- C10: for every stage `k > 0`, disc `d` and obstacle count `n ≤ _max_obstacles`,
`setParameters(k)` writes, in the block of disc `d` (slots `d * M + i`,
`M = _max_obstacles + _n_other_halfspaces`), the buffered triple of slot `i` to in-block slot
`i` for every `i < n + _n_other_halfspaces` (the obstacles `i < n` first), and the dummy
triple `(1, 0, _dummy_b)` to every in-block slot from `n + _n_other_halfspaces` up to `M`;
with no obstacle these are `_max_obstacles` slots per disc. -/
theorem LinearizedConstraints.setParameters_block {F : Type} [Zero F] [One F]
    (m : LinearizedConstraints F)
    (solver : Solver F) (data : RealTimeData F) (module_data : ModuleData F) (k d : Nat)
    (hk0 : 0 < k) (hk : k < solver.N) (hd : d < m._n_discs)
    (hn : data.dynamic_obstacles.length ≤ m._max_obstacles)
    (h1 : m._dummy_a1 = 1) (h2 : m._dummy_a2 = 0)
    (hbuf : ∀ d k i, d < m._n_discs → k < solver.N →
      i < m._max_obstacles + m._n_other_halfspaces → (m.readConstraint d k i).isSome)
    (harea : m._use_guidance = false → m._n_discs ≤ data.robot_area.length) :
    ∃ solver', LinearizedConstraints.setParameters m solver data module_data k = some solver' ∧
      (∀ i, i < data.dynamic_obstacles.length + m._n_other_halfspaces →
        ∃ a1 a2 b, m._a1.read d k i = some a1 ∧ m._a2.read d k i = some a2 ∧
          m._b.read d k i = some b ∧
          WritesTriple solver._params solver'._params k
            (d * (m._max_obstacles + m._n_other_halfspaces) + i) a1 a2 b) ∧
      (∀ i, data.dynamic_obstacles.length + m._n_other_halfspaces ≤ i →
        i < m._max_obstacles + m._n_other_halfspaces →
        WritesTriple solver._params solver'._params k
          (d * (m._max_obstacles + m._n_other_halfspaces) + i) 1 0 m._dummy_b) ∧
      (data.dynamic_obstacles.length = 0 → ∀ j, j < m._max_obstacles →
        WritesTriple solver._params solver'._params k
          (d * (m._max_obstacles + m._n_other_halfspaces) + (m._n_other_halfspaces + j))
          1 0 m._dummy_b) := by
  obtain ⟨solver', hs, hin, _⟩ :=
    LinearizedConstraints.setParameters_pos m solver data module_data k (by omega) hn
      (fun d i hd hi => hbuf d k i hd hk (by omega)) harea
  have hdummy : ∀ i, data.dynamic_obstacles.length + m._n_other_halfspaces ≤ i →
      i < m._max_obstacles + m._n_other_halfspaces →
      WritesTriple solver._params solver'._params k
        (d * (m._max_obstacles + m._n_other_halfspaces) + i) 1 0 m._dummy_b := by
    intro i hlo hhi
    refine writesTriple_of_constraintValue _ _ k _ (1, 0, m._dummy_b) ?_
    intro f hf
    rw [hin f d i hf hd hhi]
    have hnot : ¬ i < data.dynamic_obstacles.length + m._n_other_halfspaces := by omega
    simp only [LinearizedConstraints.slotConstraint, hnot, if_false,
      LinearizedConstraints.dummyConstraint, h1, h2]
  refine ⟨solver', hs, ?_, hdummy, ?_⟩
  · intro i hi
    have hiM : i < m._max_obstacles + m._n_other_halfspaces := by omega
    obtain ⟨t, ht⟩ := Option.isSome_iff_exists.1 (hbuf d k i hd hk hiM)
    obtain ⟨r1, r2, r3⟩ := LinearizedConstraints.readConstraint_eq_some m d k i t ht
    refine ⟨t.1, t.2.1, t.2.2, r1, r2, r3, writesTriple_of_constraintValue _ _ k _ t ?_⟩
    intro f hf
    rw [hin f d i hf hd hiM]
    simp only [LinearizedConstraints.slotConstraint, hi, if_true, ht, Option.getD_some]
  · intro h0 j hj
    exact hdummy (m._n_other_halfspaces + j) (by omega) (by omega)

theorem LinearizedConstraints.sample2_allocated (F : Type) [Field F] (d k i : Nat)
    (hd : d < (LinearizedConstraints.new (sampleConfig2 F) (sampleMemory F))._n_discs)
    (hk : k < (sampleSolver2 F).N)
    (hi : i < (LinearizedConstraints.new (sampleConfig2 F) (sampleMemory F))._max_obstacles +
      (LinearizedConstraints.new (sampleConfig2 F) (sampleMemory F))._n_other_halfspaces) :
    ((LinearizedConstraints.new (sampleConfig2 F) (sampleMemory F)).readConstraint
      d k i).isSome := by
  rw [LinearizedConstraints.new_allocated (sampleConfig2 F) (sampleMemory F) d k i hd hk hi]
  rfl

/-- Witness of C8: stage 1 of horizon 3, two discs, one obstacle for two obstacle slots and
one extra half-space slot. -/
theorem LinearizedConstraints.setParameters_fills_every_slot_witness :
    ∃ solver', LinearizedConstraints.setParameters
        (LinearizedConstraints.new (sampleConfig2 ℚ) (sampleMemory ℚ)) (sampleSolver2 ℚ)
        (sampleData2 ℚ) ⟨[]⟩ 1 = some solver' ∧
      ∀ slot, slot < 2 + 1 →
        ∃ a1 a2 b, WritesTriple (sampleSolver2 ℚ)._params solver'._params 1 slot a1 a2 b :=
  LinearizedConstraints.setParameters_fills_every_slot
    (LinearizedConstraints.new (sampleConfig2 ℚ) (sampleMemory ℚ)) (sampleSolver2 ℚ)
    (sampleData2 ℚ) ⟨[]⟩ 1 (by decide) (by decide) (by decide)
    (LinearizedConstraints.sample2_allocated ℚ) (fun _ => by decide)

/-- Witness of C9: the freshly constructed module is updated at a state with `x = 3`; the
buffers are then replaced by empty ones and the obstacle data by none. -/
theorem LinearizedConstraints.setParameters_zero_dummy_witness :
    ∃ m, LinearizedConstraints.update ⟨id, id, id⟩ (sampleProjection ℚ) (sampleConfig ℚ)
        (sampleSolver ℚ) (LinearizedConstraints.new (sampleConfig ℚ) (sampleMemory ℚ))
        ⟨fun _ => 3⟩ (sampleData ℚ) ⟨[]⟩ = some m ∧
      ∃ solver',
        LinearizedConstraints.setParameters { m with _a1 := [], _a2 := [], _b := [] }
          (sampleSolver2 ℚ) ⟨[], []⟩ ⟨[]⟩ 0 = some solver' ∧
        (∀ slot, slot < 1 + 0 →
          WritesTriple (sampleSolver2 ℚ)._params solver'._params 0 slot 1 0 (3 + 100)) ∧
        (∀ f k slot, (k ≠ 0 ∨ 1 + 0 ≤ slot) →
          valuesAt solver'._params f k slot = valuesAt (sampleSolver2 ℚ)._params f k slot) := by
  obtain ⟨m, hm, _⟩ := LinearizedConstraints.update_spec ⟨id, id, id⟩ (sampleProjection ℚ)
    (sampleConfig ℚ) (sampleSolver ℚ)
    (LinearizedConstraints.new (sampleConfig ℚ) (sampleMemory ℚ)) ⟨fun _ => 3⟩ (sampleData ℚ)
    ⟨[]⟩ (LinearizedConstraints.sample_inRange ℚ)
  exact ⟨m, hm, LinearizedConstraints.setParameters_zero_dummy ⟨id, id, id⟩
    (sampleProjection ℚ) (sampleConfig ℚ) (sampleSolver ℚ)
    (LinearizedConstraints.new (sampleConfig ℚ) (sampleMemory ℚ)) m ⟨fun _ => 3⟩
    (sampleData ℚ) ⟨[]⟩ rfl rfl hm [] [] [] (sampleSolver2 ℚ) ⟨[], []⟩ ⟨[]⟩⟩

/-- Witness of C10: stage 1, the second disc, one obstacle for two obstacle slots and one
extra half-space slot. -/
theorem LinearizedConstraints.setParameters_block_witness :
    ∃ solver', LinearizedConstraints.setParameters
        (LinearizedConstraints.new (sampleConfig2 ℚ) (sampleMemory ℚ)) (sampleSolver2 ℚ)
        (sampleData2 ℚ) ⟨[]⟩ 1 = some solver' ∧
      (∀ i, i < 1 + 1 →
        ∃ a1 a2 b,
          (LinearizedConstraints.new (sampleConfig2 ℚ) (sampleMemory ℚ))._a1.read 1 1 i
            = some a1 ∧
          (LinearizedConstraints.new (sampleConfig2 ℚ) (sampleMemory ℚ))._a2.read 1 1 i
            = some a2 ∧
          (LinearizedConstraints.new (sampleConfig2 ℚ) (sampleMemory ℚ))._b.read 1 1 i
            = some b ∧
          WritesTriple (sampleSolver2 ℚ)._params solver'._params 1 (1 * (2 + 1) + i)
            a1 a2 b) ∧
      (∀ i, 1 + 1 ≤ i → i < 2 + 1 →
        WritesTriple (sampleSolver2 ℚ)._params solver'._params 1 (1 * (2 + 1) + i) 1 0 5) ∧
      ((sampleData2 ℚ).dynamic_obstacles.length = 0 → ∀ j, j < 2 →
        WritesTriple (sampleSolver2 ℚ)._params solver'._params 1 (1 * (2 + 1) + (1 + j))
          1 0 5) :=
  LinearizedConstraints.setParameters_block
    (LinearizedConstraints.new (sampleConfig2 ℚ) (sampleMemory ℚ)) (sampleSolver2 ℚ)
    (sampleData2 ℚ) ⟨[]⟩ 1 1 (by decide) (by decide) (by decide) (by decide) rfl rfl
    (LinearizedConstraints.sample2_allocated ℚ) (fun _ => by decide)

/-- Witness of C7 for the order of the checks: the first obstacle has a non-empty prediction
of type NONE, the second an empty prediction; the reason is that of the first obstacle's
type. -/
theorem EllipsoidConstraints.isDataReady_spec_witness :
    EllipsoidConstraints.isDataReady (sampleConfig2 ℚ)
        { robot_area := [⟨0, 1⟩],
          dynamic_obstacles :=
            [{ sampleObstacle ℚ with
                prediction := { type := PredictionType.NONE, modes := [[⟨⟨2, 0⟩, 0, 0, 0⟩]],
                                probabilities := [1] } },
             { sampleObstacle ℚ with prediction := Prediction.default ℚ }] }
        "Goal " = (false, "Goal " ++ "Obstacle Prediction (Type is incorrect) ") :=
  (EllipsoidConstraints.isDataReady_spec (sampleConfig2 ℚ) _ "Goal ").2.1.trans (by decide)

theorem valuesAt_append {F : Type} (p q : List (ParameterWrite F)) (f : ParameterField)
    (k i : Nat) : valuesAt (p ++ q) f k i = valuesAt p f k i ++ valuesAt q f k i := by
  unfold valuesAt
  rw [List.filter_append, List.map_append]

theorem valuesAt_of_index_ne {F : Type} (ws : List (ParameterWrite F)) (f : ParameterField)
    (k i : Nat) (h : ∀ w ∈ ws, w.index ≠ i) : valuesAt ws f k i = [] := by
  unfold valuesAt
  rw [List.map_eq_nil_iff, List.filter_eq_nil_iff]
  intro w hw
  have := h w hw
  simp [this]

/-- A loop over the sink whose body at index `j` appends the writes `ws j`, all of them to
slot `j`: afterwards slot `i < count` has received the values of `ws i`, and no other slot
has been written. -/
theorem appendLoop {F : Type}
    (body : Nat → List (ParameterWrite F) → Option (List (ParameterWrite F)))
    (ws : Nat → List (ParameterWrite F)) (count : Nat)
    (hbody : ∀ j params, j < count → body j params = some (params ++ ws j))
    (hslot : ∀ j, j < count → ∀ w ∈ ws j, w.index = j)
    (params : List (ParameterWrite F)) :
    ∃ params', forLoop body 0 count params = some params' ∧
      ∀ f k i, valuesAt params' f k i =
        valuesAt params f k i ++ (if i < count then valuesAt (ws i) f k i else []) := by
  have key := forLoop_invariant body
    (fun j p => ∀ f k i, valuesAt p f k i =
      valuesAt params f k i ++ (if i < j then valuesAt (ws i) f k i else []))
    count 0 params (by intro f k i; simp)
    (by
      intro j p _ hj hP
      have hj' : j < count := by omega
      refine ⟨_, hbody j p hj', ?_⟩
      intro f k i
      rw [valuesAt_append, hP f k i, List.append_assoc]
      congr 1
      by_cases hi : i < j
      · have h1 : i < j + 1 := by omega
        have h2 : valuesAt (ws j) f k i = [] :=
          valuesAt_of_index_ne _ f k i (fun w hw => by rw [hslot j hj' w hw]; omega)
        rw [if_pos hi, if_pos h1, h2, List.append_nil]
      · by_cases hij : i = j
        · subst hij
          rw [if_neg hi, if_pos (Nat.lt_succ_self i), List.nil_append]
        · have h1 : ¬ i < j + 1 := by omega
          have h2 : valuesAt (ws j) f k i = [] :=
            valuesAt_of_index_ne _ f k i (fun w hw => by rw [hslot j hj' w hw]; omega)
          rw [if_neg hi, if_neg h1, h2, List.append_nil])
  obtain ⟨p, hp, hv⟩ := key
  refine ⟨p, hp, ?_⟩
  intro f k i
  rw [hv f k i, Nat.zero_add]

/-- The disc loop of the Ellipsoid and Gaussian modules succeeds when `robot_area` has a
disc for every index, and writes the field `EgoDiscOffset` only. -/
theorem setDiscOffsets_spec {F : Type} (data : RealTimeData F) (k n_discs : Nat)
    (harea : n_discs ≤ data.robot_area.length) (params : List (ParameterWrite F)) :
    ∃ params', forLoop (setDiscOffsets data k) 0 n_discs params = some params' ∧
      ∀ f k' i, f ≠ ParameterField.EgoDiscOffset →
        valuesAt params' f k' i = valuesAt params f k' i := by
  obtain ⟨p, hp, hv⟩ := appendLoop (setDiscOffsets data k)
    (fun d => match data.robot_area[d]? with
      | none => []
      | some disc => [⟨ParameterField.EgoDiscOffset, k, disc.offset, d⟩])
    n_discs
    (by
      intro d params hd
      have hlt : d < data.robot_area.length := by omega
      simp only [setDiscOffsets, List.getElem?_eq_getElem hlt, setSolverParameter])
    (by
      intro d hd w hw
      have hlt : d < data.robot_area.length := by omega
      simp only [List.getElem?_eq_getElem hlt, List.mem_singleton] at hw
      rw [hw])
    params
  refine ⟨p, hp, ?_⟩
  intro f k' i hf
  rw [hv f k' i]
  by_cases hi : i < n_discs
  · have hlt : i < data.robot_area.length := by omega
    rw [if_pos hi]
    simp only [List.getElem?_eq_getElem hlt, valuesAt, List.filter_cons, List.filter_nil]
    have : ¬ (ParameterField.EgoDiscOffset = f) := fun h => hf h.symm
    simp [this]
  · rw [if_neg hi, List.append_nil]

theorem DynamicObstacle.predictedStep_eq_some {F : Type} (obstacle : DynamicObstacle F)
    (k : Nat) (step : PredictionStep F) (h : obstacle.predictedStep k = some step) :
    k ≠ 0 ∧ ∃ mode, obstacle.prediction.modes[0]? = some mode ∧ mode[k - 1]? = some step := by
  unfold DynamicObstacle.predictedStep at h
  split_ifs at h with hk
  refine ⟨hk, ?_⟩
  cases hm : obstacle.prediction.modes[0]? with
  | none => rw [hm] at h; cases h
  | some mode => rw [hm] at h; exact ⟨mode, rfl, h⟩

theorem EllipsoidConstraints.ellipsoid_setObstacle_eq {F : Type} [Field F]
    (ExponentialQuantile : F → F → F) (m : EllipsoidConstraints F) (data : RealTimeData F)
    (k i : Nat) (params : List (ParameterWrite F)) (obstacle : DynamicObstacle F)
    (step : PredictionStep F) (hobs : data.dynamic_obstacles[i]? = some obstacle)
    (hstep : obstacle.predictedStep k = some step) :
    EllipsoidConstraints.setObstacle ExponentialQuantile m data k i params =
      some (params ++
        EllipsoidConstraints.obstacleWrites ExponentialQuantile m k i obstacle step) := by
  obtain ⟨hk, mode, hmode, hs⟩ := DynamicObstacle.predictedStep_eq_some obstacle k step hstep
  unfold EllipsoidConstraints.setObstacle EllipsoidConstraints.obstacleWrites
  simp only [hobs, hmode, hk, if_false, hs, setSolverParameter, List.append_assoc,
    List.singleton_append, List.cons_append, List.nil_append]
  by_cases hd : obstacle.prediction.type = PredictionType.DETERMINISTIC
  · simp [hd]
  · by_cases hg : obstacle.prediction.type = PredictionType.GAUSSIAN
    · simp [hd, hg]
    · simp [hd, hg]

theorem EllipsoidConstraints.obstacleWrites_index {F : Type} [Field F]
    (ExponentialQuantile : F → F → F) (m : EllipsoidConstraints F) (k i : Nat)
    (obstacle : DynamicObstacle F) (step : PredictionStep F) (w : ParameterWrite F)
    (hw : w ∈ EllipsoidConstraints.obstacleWrites ExponentialQuantile m k i obstacle step) :
    w.index = i := by
  unfold EllipsoidConstraints.obstacleWrites at hw
  rcases List.mem_append.1 hw with h | h
  · simp only [List.mem_cons, List.mem_singleton, List.not_mem_nil, or_false] at h
    rcases h with rfl | rfl | rfl | rfl <;> rfl
  · split_ifs at h
    · simp only [List.mem_cons, List.mem_singleton, List.not_mem_nil, or_false] at h
      rcases h with rfl | rfl | rfl <;> rfl
    · simp only [List.mem_cons, List.mem_singleton, List.not_mem_nil, or_false] at h
      rcases h with rfl | rfl | rfl <;> rfl
    · simp at h

theorem valuesAt_setSolverParameter_ne {F : Type} (params : List (ParameterWrite F))
    (f : ParameterField) (k : Nat) (v : F) (i : Nat) (f' : ParameterField) (k' i' : Nat)
    (h : f' ≠ f) :
    valuesAt (setSolverParameter f k params v i) f' k' i' = valuesAt params f' k' i' := by
  rw [valuesAt_setSolverParameter]
  have : ¬ (f = f' ∧ k = k' ∧ i = i') := fun hh => h hh.1.symm
  rw [if_neg this, List.append_nil]

/-- The effect of `EllipsoidConstraints::setParameters(k)` on the obstacle fields of the
sink: it succeeds when `robot_area` has a disc for every disc of the module and, for
`k > 0`, every obstacle has the step `k - 1` in its first mode; slot `i` below the obstacle
count receives `slotWrites`, and no other slot is written. -/
theorem EllipsoidConstraints.ellipsoid_setParameters_spec {F : Type} [Field F]
    (ExponentialQuantile : F → F → F) (m : EllipsoidConstraints F) (solver : Solver F)
    (data : RealTimeData F) (module_data : ModuleData F) (k : Nat)
    (harea : m._n_discs ≤ data.robot_area.length)
    (hsteps : k ≠ 0 → ∀ o ∈ data.dynamic_obstacles, ∃ step, o.predictedStep k = some step) :
    ∃ solver', EllipsoidConstraints.setParameters ExponentialQuantile m solver data
        module_data k = some solver' ∧
      ∀ f k' i, f ≠ ParameterField.EgoDiscRadius → f ≠ ParameterField.EgoDiscOffset →
        valuesAt solver'._params f k' i =
          valuesAt solver._params f k' i ++
            (if i < data.dynamic_obstacles.length then
              valuesAt (EllipsoidConstraints.slotWrites ExponentialQuantile m data k i) f k' i
            else []) := by
  obtain ⟨params1, hp1, hv1⟩ := setDiscOffsets_spec data k m._n_discs harea
    (setSolverParameter ParameterField.EgoDiscRadius k solver._params m._robot_radius 0)
  have hslots : ∀ j, j < data.dynamic_obstacles.length →
      ∀ w ∈ EllipsoidConstraints.slotWrites ExponentialQuantile m data k j, w.index = j := by
    intro j hj w hw
    unfold EllipsoidConstraints.slotWrites at hw
    split_ifs at hw with hk
    · simp only [EllipsoidConstraints.dummyWrites, List.mem_cons, List.mem_singleton,
        List.not_mem_nil, or_false] at hw
      rcases hw with h | h | h | h | h | h | h <;> rw [h]
    · rw [List.getElem?_eq_getElem hj] at hw
      obtain ⟨step, hstep⟩ := hsteps hk _ (List.getElem_mem hj)
      simp only [hstep] at hw
      exact EllipsoidConstraints.obstacleWrites_index ExponentialQuantile m k j _ step w hw
  have hloop : ∃ params2,
      forLoop (if k = 0 then EllipsoidConstraints.setDummyObstacle m
        else EllipsoidConstraints.setObstacle ExponentialQuantile m data k) 0
        data.dynamic_obstacles.length params1 = some params2 ∧
      ∀ f k' i, valuesAt params2 f k' i =
        valuesAt params1 f k' i ++
          (if i < data.dynamic_obstacles.length then
            valuesAt (EllipsoidConstraints.slotWrites ExponentialQuantile m data k i) f k' i
          else []) := by
    refine appendLoop _ (EllipsoidConstraints.slotWrites ExponentialQuantile m data k)
      data.dynamic_obstacles.length ?_ hslots params1
    intro j params hj
    by_cases hk : k = 0
    · simp only [hk, if_true, EllipsoidConstraints.slotWrites,
        EllipsoidConstraints.setDummyObstacle, EllipsoidConstraints.dummyWrites,
        setSolverParameter, List.append_assoc, List.singleton_append, List.cons_append,
        List.nil_append]
    · obtain ⟨step, hstep⟩ := hsteps hk _ (List.getElem_mem hj)
      simp only [hk, if_false, EllipsoidConstraints.slotWrites,
        List.getElem?_eq_getElem hj, hstep]
      exact EllipsoidConstraints.ellipsoid_setObstacle_eq ExponentialQuantile m data k j params _ step
        (List.getElem?_eq_getElem hj) hstep
  obtain ⟨params2, hp2, hv2⟩ := hloop
  refine ⟨{ solver with _params := params2 }, ?_, ?_⟩
  · unfold EllipsoidConstraints.setParameters
    simp only [hp1]
    by_cases hk : k = 0
    · simp only [hk, if_true] at hp2 ⊢
      simp only [hp2]
    · simp only [hk, if_false] at hp2 ⊢
      simp only [hp2]
  · intro f k' i hf1 hf2
    show valuesAt params2 f k' i = _
    rw [hv2 f k' i, hv1 f k' i hf2, valuesAt_setSolverParameter_ne _ _ _ _ _ _ _ _ hf1]

theorem DynamicObstacle.predictedStep_of_mode {F : Type} (obstacle : DynamicObstacle F)
    (k : Nat) (mode : List (PredictionStep F)) (hk : 0 < k)
    (hmode : obstacle.prediction.modes[0]? = some mode) :
    obstacle.predictedStep k = mode[k - 1]? := by
  unfold DynamicObstacle.predictedStep
  have hk0 : k ≠ 0 := by omega
  rw [if_neg hk0, hmode]

/-- C16: for every stage `k > 0` and every obstacle slot `i` whose obstacle has a
DETERMINISTIC prediction, `EllipsoidConstraints::setParameters(k)` writes chi = 1, major = 0
and minor = 0 to slot `i`, the centre and heading of step `k - 1` of the first prediction
mode, and R = the obstacle's radius (each exactly once). -/
theorem EllipsoidConstraints.setParameters_deterministic {F : Type} [Field F]
    (ExponentialQuantile : F → F → F) (m : EllipsoidConstraints F) (solver : Solver F)
    (data : RealTimeData F) (module_data : ModuleData F) (k i : Nat)
    (obstacle : DynamicObstacle F) (mode : List (PredictionStep F)) (step : PredictionStep F)
    (hk : 0 < k)
    (harea : m._n_discs ≤ data.robot_area.length)
    (hsteps : ∀ o ∈ data.dynamic_obstacles, ∃ s, o.predictedStep k = some s)
    (hobs : data.dynamic_obstacles[i]? = some obstacle)
    (hdet : obstacle.prediction.type = PredictionType.DETERMINISTIC)
    (hmode : obstacle.prediction.modes[0]? = some mode)
    (hstep : mode[k - 1]? = some step) :
    ∃ solver', EllipsoidConstraints.setParameters ExponentialQuantile m solver data
        module_data k = some solver' ∧
      valuesAt solver'._params ParameterField.EllipsoidObstChi k i =
        valuesAt solver._params ParameterField.EllipsoidObstChi k i ++ [1] ∧
      valuesAt solver'._params ParameterField.EllipsoidObstMajor k i =
        valuesAt solver._params ParameterField.EllipsoidObstMajor k i ++ [0] ∧
      valuesAt solver'._params ParameterField.EllipsoidObstMinor k i =
        valuesAt solver._params ParameterField.EllipsoidObstMinor k i ++ [0] ∧
      valuesAt solver'._params ParameterField.EllipsoidObstX k i =
        valuesAt solver._params ParameterField.EllipsoidObstX k i ++ [step.position.x] ∧
      valuesAt solver'._params ParameterField.EllipsoidObstY k i =
        valuesAt solver._params ParameterField.EllipsoidObstY k i ++ [step.position.y] ∧
      valuesAt solver'._params ParameterField.EllipsoidObstPsi k i =
        valuesAt solver._params ParameterField.EllipsoidObstPsi k i ++ [step.angle] ∧
      valuesAt solver'._params ParameterField.EllipsoidObstR k i =
        valuesAt solver._params ParameterField.EllipsoidObstR k i ++ [obstacle.radius] := by
  have hk0 : k ≠ 0 := by omega
  obtain ⟨solver', hs, hv⟩ := EllipsoidConstraints.ellipsoid_setParameters_spec ExponentialQuantile m
    solver data module_data k harea (fun _ => hsteps)
  have hi : i < data.dynamic_obstacles.length := (List.getElem?_eq_some.1 hobs).1
  have hps : obstacle.predictedStep k = some step := by
    rw [DynamicObstacle.predictedStep_of_mode obstacle k mode hk hmode, hstep]
  have hw : EllipsoidConstraints.slotWrites ExponentialQuantile m data k i =
      EllipsoidConstraints.obstacleWrites ExponentialQuantile m k i obstacle step := by
    simp only [EllipsoidConstraints.slotWrites, hk0, if_false, hobs, hps]
  refine ⟨solver', hs, ?_, ?_, ?_, ?_, ?_, ?_, ?_⟩ <;>
    (rw [hv _ k i (by decide) (by decide), if_pos hi, hw]
     simp [valuesAt, EllipsoidConstraints.obstacleWrites, hdet, List.filter_cons])

/-- C17: `EllipsoidConstraints::setParameters(0)` after `update(state)` writes, for every
obstacle slot `i` below the obstacle count, x = state.x + 50, y = state.y + 50, psi = 0,
R = 0.1, major = 0, minor = 0 and chi = 1 (each exactly once); the obstacles are not read:
the call succeeds whatever their predictions hold, and its result depends on the obstacle
list only through its length. -/
theorem EllipsoidConstraints.setParameters_zero_dummies {F : Type} [Field F]
    (ExponentialQuantile : F → F → F) (m : EllipsoidConstraints F) (state : State F)
    (data0 : RealTimeData F) (module_data0 : ModuleData F) (solver : Solver F)
    (data : RealTimeData F) (module_data : ModuleData F)
    (harea : m._n_discs ≤ data.robot_area.length) :
    (∃ solver', EllipsoidConstraints.setParameters ExponentialQuantile
        (m.update state data0 module_data0) solver data module_data 0 = some solver' ∧
      ∀ i, i < data.dynamic_obstacles.length →
        valuesAt solver'._params ParameterField.EllipsoidObstX 0 i =
          valuesAt solver._params ParameterField.EllipsoidObstX 0 i ++ [state.get "x" + 50] ∧
        valuesAt solver'._params ParameterField.EllipsoidObstY 0 i =
          valuesAt solver._params ParameterField.EllipsoidObstY 0 i ++ [state.get "y" + 50] ∧
        valuesAt solver'._params ParameterField.EllipsoidObstPsi 0 i =
          valuesAt solver._params ParameterField.EllipsoidObstPsi 0 i ++ [0] ∧
        valuesAt solver'._params ParameterField.EllipsoidObstR 0 i =
          valuesAt solver._params ParameterField.EllipsoidObstR 0 i ++ [1 / 10] ∧
        valuesAt solver'._params ParameterField.EllipsoidObstMajor 0 i =
          valuesAt solver._params ParameterField.EllipsoidObstMajor 0 i ++ [0] ∧
        valuesAt solver'._params ParameterField.EllipsoidObstMinor 0 i =
          valuesAt solver._params ParameterField.EllipsoidObstMinor 0 i ++ [0] ∧
        valuesAt solver'._params ParameterField.EllipsoidObstChi 0 i =
          valuesAt solver._params ParameterField.EllipsoidObstChi 0 i ++ [1]) ∧
    (∀ data' : RealTimeData F, data'.robot_area = data.robot_area →
      data'.dynamic_obstacles.length = data.dynamic_obstacles.length →
      (EllipsoidConstraints.setParameters ExponentialQuantile
          (m.update state data0 module_data0) solver data' module_data 0).map
          (fun s => s._params) =
        (EllipsoidConstraints.setParameters ExponentialQuantile
          (m.update state data0 module_data0) solver data module_data 0).map
          (fun s => s._params)) := by
  constructor
  · obtain ⟨solver', hs, hv⟩ := EllipsoidConstraints.ellipsoid_setParameters_spec ExponentialQuantile
      (m.update state data0 module_data0) solver data module_data 0 harea
      (fun h => absurd rfl h)
    refine ⟨solver', hs, ?_⟩
    intro i hi
    refine ⟨?_, ?_, ?_, ?_, ?_, ?_, ?_⟩ <;>
      (rw [hv _ 0 i (by decide) (by decide), if_pos hi]
       simp [valuesAt, EllipsoidConstraints.slotWrites, EllipsoidConstraints.dummyWrites,
         EllipsoidConstraints.update, List.filter_cons])
  · intro data' h1 h2
    have hd : setDiscOffsets data' 0 = setDiscOffsets data 0 := by
      funext d params
      simp only [setDiscOffsets, h1]
    simp only [EllipsoidConstraints.setParameters, hd, h2, if_true]

theorem EllipsoidConstraints.ellipsoid_isDataReady_true {F : Type} (config : Config F)
    (data : RealTimeData F) (missing_data : String)
    (h : (EllipsoidConstraints.isDataReady config data missing_data).1 = true) :
    data.dynamic_obstacles.length = config.max_obstacles ∧
      ∀ o ∈ data.dynamic_obstacles, o.Supported := by
  unfold EllipsoidConstraints.isDataReady at h
  by_cases hr : data.robot_area.length = 0
  · simp [hr] at h
  · by_cases hlen : data.dynamic_obstacles.length ≠ config.max_obstacles
    · simp [hr, hlen] at h
    · rw [if_neg hr, if_neg hlen] at h
      exact ⟨by simpa using hlen,
        (EllipsoidConstraints.ellipsoid_isDataReadyLoop_true_iff _ _).1 h⟩

theorem DynamicObstacle.predictedStep_isSome {F : Type} (obstacle : DynamicObstacle F)
    (k N : Nat) (hk : k ≠ 0) (hkN : k < N)
    (h : ∃ mode0, obstacle.prediction.modes[0]? = some mode0 ∧ N - 1 ≤ mode0.length) :
    ∃ step, obstacle.predictedStep k = some step := by
  obtain ⟨mode0, hmode, hlen⟩ := h
  have hlt : k - 1 < mode0.length := by omega
  rw [DynamicObstacle.predictedStep_of_mode obstacle k mode0 (by omega) hmode,
    List.getElem?_eq_getElem hlt]
  exact ⟨_, rfl⟩

/-- C18: for every RealTimeData accepted by `EllipsoidConstraints::isDataReady` whose first
prediction modes have at least `N - 1` steps (and whose robot area has a disc for every disc
of the module), and every stage `k < N`, `EllipsoidConstraints::setParameters(k)` succeeds
and writes each of the seven obstacle fields exactly once to every slot below
`max_obstacles`. -/
theorem EllipsoidConstraints.ellipsoid_setParameters_writes_every_field {F : Type} [Field F]
    (ExponentialQuantile : F → F → F) (config : Config F) (m : EllipsoidConstraints F)
    (solver : Solver F) (data : RealTimeData F) (module_data : ModuleData F) (k : Nat)
    (missing_data : String)
    (hready : (EllipsoidConstraints.isDataReady config data missing_data).1 = true)
    (hsteps : ∀ o ∈ data.dynamic_obstacles,
      ∃ mode0, o.prediction.modes[0]? = some mode0 ∧ solver.N - 1 ≤ mode0.length)
    (hk : k < solver.N)
    (harea : m._n_discs ≤ data.robot_area.length) :
    ∃ solver', EllipsoidConstraints.setParameters ExponentialQuantile m solver data
        module_data k = some solver' ∧
      ∀ f ∈ EllipsoidConstraints.obstacleFields, ∀ slot, slot < config.max_obstacles →
        ∃ v, valuesAt solver'._params f k slot = valuesAt solver._params f k slot ++ [v] := by
  obtain ⟨hlen, hsup⟩ := EllipsoidConstraints.ellipsoid_isDataReady_true config data missing_data hready
  obtain ⟨solver', hs, hv⟩ := EllipsoidConstraints.ellipsoid_setParameters_spec ExponentialQuantile m
    solver data module_data k harea
    (fun hk0 o ho => DynamicObstacle.predictedStep_isSome o k solver.N hk0 hk (hsteps o ho))
  refine ⟨solver', hs, ?_⟩
  intro f hf slot hslot
  have hi : slot < data.dynamic_obstacles.length := by omega
  have hf1 : f ≠ ParameterField.EgoDiscRadius := by
    intro h; subst h; simp [EllipsoidConstraints.obstacleFields] at hf
  have hf2 : f ≠ ParameterField.EgoDiscOffset := by
    intro h; subst h; simp [EllipsoidConstraints.obstacleFields] at hf
  rw [hv f k slot hf1 hf2, if_pos hi]
  simp only [EllipsoidConstraints.obstacleFields, List.mem_cons, List.mem_singleton,
    List.not_mem_nil, or_false] at hf
  suffices hone : (valuesAt (EllipsoidConstraints.slotWrites ExponentialQuantile m data k slot)
      f k slot).length = 1 by
    obtain ⟨v, hv1⟩ := List.length_eq_one.1 hone
    exact ⟨v, by rw [hv1]⟩
  by_cases hk0 : k = 0
  · subst hk0
    rcases hf with rfl | rfl | rfl | rfl | rfl | rfl | rfl <;>
      simp [valuesAt, EllipsoidConstraints.slotWrites, EllipsoidConstraints.dummyWrites,
        List.filter_cons]
  · obtain ⟨step, hstep⟩ := DynamicObstacle.predictedStep_isSome data.dynamic_obstacles[slot]
      k solver.N hk0 hk (hsteps _ (List.getElem_mem hi))
    have hw : EllipsoidConstraints.slotWrites ExponentialQuantile m data k slot =
        EllipsoidConstraints.obstacleWrites ExponentialQuantile m k slot
          data.dynamic_obstacles[slot] step := by
      simp only [EllipsoidConstraints.slotWrites, hk0, if_false,
        List.getElem?_eq_getElem hi, hstep]
    rw [hw]
    rcases (hsup _ (List.getElem_mem hi)).2 with ht | ht
    · rcases hf with rfl | rfl | rfl | rfl | rfl | rfl | rfl <;>
        simp [valuesAt, EllipsoidConstraints.obstacleWrites, ht, List.filter_cons]
    · rcases hf with rfl | rfl | rfl | rfl | rfl | rfl | rfl <;>
        simp [valuesAt, EllipsoidConstraints.obstacleWrites, ht, List.filter_cons]

theorem GaussianConstraints.gaussian_setObstacle_eq {F : Type} [Field F] (config : Config F)
    (m : GaussianConstraints F) (data : RealTimeData F) (k i : Nat)
    (params : List (ParameterWrite F)) (obstacle : DynamicObstacle F) (hk : k ≠ 0)
    (hobs : data.dynamic_obstacles[i]? = some obstacle)
    (hstep : obstacle.prediction.type = PredictionType.GAUSSIAN →
      ∃ step, obstacle.predictedStep k = some step) :
    GaussianConstraints.setObstacle config data.dynamic_obstacles k i params =
      some (params ++ GaussianConstraints.slotWrites config m data k i) := by
  unfold GaussianConstraints.setObstacle GaussianConstraints.slotWrites
  simp only [hobs, hk, if_false]
  by_cases hg : obstacle.prediction.type = PredictionType.GAUSSIAN
  · obtain ⟨step, hs⟩ := hstep hg
    obtain ⟨_, mode, hmode, hms⟩ := DynamicObstacle.predictedStep_eq_some obstacle k step hs
    simp only [hg, if_true, hmode, hms, hs, GaussianConstraints.obstacleWrites,
      setSolverParameter, List.append_assoc, List.singleton_append, List.cons_append,
      List.nil_append]
    by_cases hd : obstacle.type = ObstacleType.DYNAMIC
    · simp [hd]
    · simp [hd]
  · simp [hg]

theorem GaussianConstraints.slotWrites_index {F : Type} [Field F] (config : Config F)
    (m : GaussianConstraints F) (data : RealTimeData F) (k i : Nat) (w : ParameterWrite F)
    (hw : w ∈ GaussianConstraints.slotWrites config m data k i) : w.index = i := by
  unfold GaussianConstraints.slotWrites at hw
  split_ifs at hw with hk
  · simp only [GaussianConstraints.dummyWrites, List.mem_cons, List.mem_singleton,
      List.not_mem_nil, or_false] at hw
    rcases hw with rfl | rfl | rfl | rfl | rfl | rfl <;> rfl
  · cases hobs : data.dynamic_obstacles[i]? with
    | none => rw [hobs] at hw; simp at hw
    | some obstacle =>
      rw [hobs] at hw
      simp only at hw
      split_ifs at hw with hg
      · cases hstep : obstacle.predictedStep k with
        | none => rw [hstep] at hw; simp at hw
        | some step =>
          rw [hstep] at hw
          simp only [GaussianConstraints.obstacleWrites, List.mem_cons, List.mem_singleton,
            List.not_mem_nil, or_false] at hw
          rcases hw with rfl | rfl | rfl | rfl | rfl | rfl <;> rfl
      · simp at hw

/-- The effect of `GaussianConstraints::setParameters(k)` on the obstacle fields of the
sink: it succeeds when `robot_area` has a disc for each of the `n_discs` discs and, for
`k > 0`, every obstacle with a GAUSSIAN prediction has the step `k - 1` in its first mode;
slot `i` below the obstacle count receives `slotWrites`, and no other slot is written. -/
theorem GaussianConstraints.gaussian_setParameters_spec {F : Type} [Field F] (config : Config F)
    (m : GaussianConstraints F) (solver : Solver F) (data : RealTimeData F)
    (module_data : ModuleData F) (k : Nat)
    (harea : config.n_discs ≤ data.robot_area.length)
    (hsteps : k ≠ 0 → ∀ o ∈ data.dynamic_obstacles,
      o.prediction.type = PredictionType.GAUSSIAN → ∃ step, o.predictedStep k = some step) :
    ∃ solver', GaussianConstraints.setParameters config m solver data module_data k
        = some solver' ∧
      ∀ f k' i, f ≠ ParameterField.EgoDiscRadius → f ≠ ParameterField.EgoDiscOffset →
        valuesAt solver'._params f k' i =
          valuesAt solver._params f k' i ++
            (if i < data.dynamic_obstacles.length then
              valuesAt (GaussianConstraints.slotWrites config m data k i) f k' i
            else []) := by
  obtain ⟨params1, hp1, hv1⟩ := setDiscOffsets_spec data k config.n_discs harea
    (setSolverParameter ParameterField.EgoDiscRadius k solver._params config.robot_radius 0)
  have hloop : ∃ params2,
      forLoop (if k = 0 then GaussianConstraints.setDummyObstacle m
        else GaussianConstraints.setObstacle config data.dynamic_obstacles k) 0
        data.dynamic_obstacles.length params1 = some params2 ∧
      ∀ f k' i, valuesAt params2 f k' i =
        valuesAt params1 f k' i ++
          (if i < data.dynamic_obstacles.length then
            valuesAt (GaussianConstraints.slotWrites config m data k i) f k' i
          else []) := by
    refine appendLoop _ (GaussianConstraints.slotWrites config m data k)
      data.dynamic_obstacles.length ?_
      (fun j _ w hw => GaussianConstraints.slotWrites_index config m data k j w hw) params1
    intro j params hj
    by_cases hk : k = 0
    · simp only [hk, if_true, GaussianConstraints.slotWrites,
        GaussianConstraints.setDummyObstacle, GaussianConstraints.dummyWrites,
        setSolverParameter, List.append_assoc, List.singleton_append, List.cons_append,
        List.nil_append]
    · simp only [hk, if_false]
      exact GaussianConstraints.gaussian_setObstacle_eq config m data k j params _ hk
        (List.getElem?_eq_getElem hj) (hsteps hk _ (List.getElem_mem hj))
  obtain ⟨params2, hp2, hv2⟩ := hloop
  refine ⟨{ solver with _params := params2 }, ?_, ?_⟩
  · unfold GaussianConstraints.setParameters
    simp only [hp1]
    by_cases hk : k = 0
    · simp only [hk, if_true] at hp2 ⊢
      simp only [hp2]
    · simp only [hk, if_false] at hp2 ⊢
      simp only [hp2]
  · intro f k' i hf1 hf2
    show valuesAt params2 f k' i = _
    rw [hv2 f k' i, hv1 f k' i hf2, valuesAt_setSolverParameter_ne _ _ _ _ _ _ _ _ hf1]

theorem GaussianConstraints.isDataReadyLoop_true {F : Type}
    (obstacles : List (DynamicObstacle F)) (missing_data : String)
    (h : (GaussianConstraints.isDataReadyLoop obstacles missing_data).1 = true) :
    ∀ o ∈ obstacles, o.prediction.type = PredictionType.GAUSSIAN := by
  induction obstacles with
  | nil => intro o ho; simp at ho
  | cons a rest ih =>
    unfold GaussianConstraints.isDataReadyLoop at h
    by_cases he : a.prediction.modes.isEmpty = true
    · simp [he] at h
    · by_cases ht : a.prediction.type ≠ PredictionType.GAUSSIAN
      · simp [he, ht] at h
      · simp only [he, Bool.false_eq_true, if_false, ht] at h
        intro o ho
        rcases List.mem_cons.1 ho with rfl | hmem
        · simpa using ht
        · exact ih h o hmem

theorem GaussianConstraints.gaussian_isDataReady_true {F : Type} (config : Config F)
    (data : RealTimeData F) (missing_data : String)
    (h : (GaussianConstraints.isDataReady config data missing_data).1 = true) :
    data.dynamic_obstacles.length = config.max_obstacles ∧
      ∀ o ∈ data.dynamic_obstacles, o.prediction.type = PredictionType.GAUSSIAN := by
  unfold GaussianConstraints.isDataReady at h
  by_cases hlen : data.dynamic_obstacles.length ≠ config.max_obstacles
  · simp [hlen] at h
  · rw [if_neg hlen] at h
    exact ⟨by simpa using hlen, GaussianConstraints.isDataReadyLoop_true _ _ h⟩

/-- C19: for every RealTimeData accepted by `GaussianConstraints::isDataReady` whose first
prediction modes have at least `N - 1` steps (and whose robot area has a disc for each of
the `n_discs` discs), and every stage `k < N`, `GaussianConstraints::setParameters(k)`
succeeds and writes each of the six obstacle fields exactly once to every slot below
`max_obstacles`. -/
theorem GaussianConstraints.gaussian_setParameters_writes_every_field {F : Type} [Field F]
    (config : Config F) (m : GaussianConstraints F) (solver : Solver F)
    (data : RealTimeData F) (module_data : ModuleData F) (k : Nat) (missing_data : String)
    (hready : (GaussianConstraints.isDataReady config data missing_data).1 = true)
    (hsteps : ∀ o ∈ data.dynamic_obstacles,
      ∃ mode0, o.prediction.modes[0]? = some mode0 ∧ solver.N - 1 ≤ mode0.length)
    (hk : k < solver.N)
    (harea : config.n_discs ≤ data.robot_area.length) :
    ∃ solver', GaussianConstraints.setParameters config m solver data module_data k
        = some solver' ∧
      ∀ f ∈ GaussianConstraints.obstacleFields, ∀ slot, slot < config.max_obstacles →
        ∃ v, valuesAt solver'._params f k slot = valuesAt solver._params f k slot ++ [v] := by
  obtain ⟨hlen, hgauss⟩ := GaussianConstraints.gaussian_isDataReady_true config data missing_data hready
  obtain ⟨solver', hs, hv⟩ := GaussianConstraints.gaussian_setParameters_spec config m solver data
    module_data k harea
    (fun hk0 o ho _ =>
      DynamicObstacle.predictedStep_isSome o k solver.N hk0 hk (hsteps o ho))
  refine ⟨solver', hs, ?_⟩
  intro f hf slot hslot
  have hi : slot < data.dynamic_obstacles.length := by omega
  have hf1 : f ≠ ParameterField.EgoDiscRadius := by
    intro h; subst h; simp [GaussianConstraints.obstacleFields] at hf
  have hf2 : f ≠ ParameterField.EgoDiscOffset := by
    intro h; subst h; simp [GaussianConstraints.obstacleFields] at hf
  rw [hv f k slot hf1 hf2, if_pos hi]
  simp only [GaussianConstraints.obstacleFields, List.mem_cons, List.mem_singleton,
    List.not_mem_nil, or_false] at hf
  suffices hone : (valuesAt (GaussianConstraints.slotWrites config m data k slot)
      f k slot).length = 1 by
    obtain ⟨v, hv1⟩ := List.length_eq_one.1 hone
    exact ⟨v, by rw [hv1]⟩
  by_cases hk0 : k = 0
  · subst hk0
    rcases hf with rfl | rfl | rfl | rfl | rfl | rfl <;>
      simp [valuesAt, GaussianConstraints.slotWrites, GaussianConstraints.dummyWrites,
        List.filter_cons]
  · obtain ⟨step, hstep⟩ := DynamicObstacle.predictedStep_isSome data.dynamic_obstacles[slot]
      k solver.N hk0 hk (hsteps _ (List.getElem_mem hi))
    have hw : GaussianConstraints.slotWrites config m data k slot =
        GaussianConstraints.obstacleWrites config k slot data.dynamic_obstacles[slot] step := by
      simp only [GaussianConstraints.slotWrites, hk0, if_false,
        List.getElem?_eq_getElem hi, hgauss _ (List.getElem_mem hi), if_true, hstep]
    rw [hw]
    rcases hf with rfl | rfl | rfl | rfl | rfl | rfl <;>
      simp [valuesAt, GaussianConstraints.obstacleWrites, List.filter_cons]

/-- C20: for every stage `k > 0` and every obstacle slot `i` with a GAUSSIAN prediction,
`GaussianConstraints::setParameters(k)` writes (exactly once) major and minor equal to the
`major_radius` and `minor_radius` of step `k - 1` of the first mode when the obstacle is
DYNAMIC, and major = minor = 0.001 when the obstacle is STATIC, whatever radii the step
carries. -/
theorem GaussianConstraints.setParameters_major_minor {F : Type} [Field F]
    (config : Config F) (m : GaussianConstraints F) (solver : Solver F)
    (data : RealTimeData F) (module_data : ModuleData F) (k i : Nat)
    (obstacle : DynamicObstacle F) (mode : List (PredictionStep F)) (step : PredictionStep F)
    (hk : 0 < k)
    (harea : config.n_discs ≤ data.robot_area.length)
    (hsteps : ∀ o ∈ data.dynamic_obstacles,
      o.prediction.type = PredictionType.GAUSSIAN → ∃ s, o.predictedStep k = some s)
    (hobs : data.dynamic_obstacles[i]? = some obstacle)
    (hgauss : obstacle.prediction.type = PredictionType.GAUSSIAN)
    (hmode : obstacle.prediction.modes[0]? = some mode)
    (hstep : mode[k - 1]? = some step) :
    ∃ solver', GaussianConstraints.setParameters config m solver data module_data k
        = some solver' ∧
      (obstacle.type = ObstacleType.DYNAMIC →
        valuesAt solver'._params ParameterField.GaussianObstMajor k i =
          valuesAt solver._params ParameterField.GaussianObstMajor k i ++
            [step.major_radius] ∧
        valuesAt solver'._params ParameterField.GaussianObstMinor k i =
          valuesAt solver._params ParameterField.GaussianObstMinor k i ++
            [step.minor_radius]) ∧
      (obstacle.type = ObstacleType.STATIC →
        valuesAt solver'._params ParameterField.GaussianObstMajor k i =
          valuesAt solver._params ParameterField.GaussianObstMajor k i ++ [1 / 1000] ∧
        valuesAt solver'._params ParameterField.GaussianObstMinor k i =
          valuesAt solver._params ParameterField.GaussianObstMinor k i ++ [1 / 1000]) := by
  have hk0 : k ≠ 0 := by omega
  obtain ⟨solver', hs, hv⟩ := GaussianConstraints.gaussian_setParameters_spec config m solver data
    module_data k harea (fun _ => hsteps)
  have hi : i < data.dynamic_obstacles.length := (List.getElem?_eq_some.1 hobs).1
  have hps : obstacle.predictedStep k = some step := by
    rw [DynamicObstacle.predictedStep_of_mode obstacle k mode hk hmode, hstep]
  have hw : GaussianConstraints.slotWrites config m data k i =
      GaussianConstraints.obstacleWrites config k i obstacle step := by
    simp only [GaussianConstraints.slotWrites, hk0, if_false, hobs, hgauss, if_true, hps]
  refine ⟨solver', hs, ?_, ?_⟩
  · intro hdyn
    constructor <;>
      (rw [hv _ k i (by decide) (by decide), if_pos hi, hw]
       simp [valuesAt, GaussianConstraints.obstacleWrites, hdyn, List.filter_cons])
  · intro hstat
    constructor <;>
      (rw [hv _ k i (by decide) (by decide), if_pos hi, hw]
       simp [valuesAt, GaussianConstraints.obstacleWrites, hstat, List.filter_cons])

theorem sampleData3_steps (k : Nat) (hk : 0 < k) (hk2 : k < 3) :
    ∀ o ∈ (sampleData3 ℚ).dynamic_obstacles, ∃ s, o.predictedStep k = some s := by
  intro o ho
  apply DynamicObstacle.predictedStep_isSome o k 3 (by omega) hk2
  simp only [sampleData3, List.mem_cons, List.mem_singleton, List.not_mem_nil, or_false] at ho
  rcases ho with rfl | rfl
  · exact ⟨_, rfl, by decide⟩
  · exact ⟨_, rfl, by decide⟩

theorem sampleData4_steps (k : Nat) (hk : 0 < k) (hk2 : k < 3) :
    ∀ o ∈ (sampleData4 ℚ).dynamic_obstacles, ∃ s, o.predictedStep k = some s := by
  intro o ho
  apply DynamicObstacle.predictedStep_isSome o k 3 (by omega) hk2
  simp only [sampleData4, List.mem_cons, List.mem_singleton, List.not_mem_nil, or_false] at ho
  rcases ho with rfl | rfl
  · exact ⟨_, rfl, by decide⟩
  · exact ⟨_, rfl, by decide⟩

/-- Witness of C16: stage 1, slot 0 holds the sample deterministic obstacle, whose first step
is at `(2, 0)` with heading 0; its radius is 1/4. -/
theorem EllipsoidConstraints.setParameters_deterministic_witness :
    ∃ solver', EllipsoidConstraints.setParameters (sampleQuantile ℚ)
        (EllipsoidConstraints.new (sampleConfig2 ℚ) 0 0) (sampleSolver2 ℚ) (sampleData3 ℚ)
        ⟨[]⟩ 1 = some solver' ∧
      valuesAt solver'._params ParameterField.EllipsoidObstChi 1 0 =
        valuesAt (sampleSolver2 ℚ)._params ParameterField.EllipsoidObstChi 1 0 ++ [1] ∧
      valuesAt solver'._params ParameterField.EllipsoidObstMajor 1 0 =
        valuesAt (sampleSolver2 ℚ)._params ParameterField.EllipsoidObstMajor 1 0 ++ [0] ∧
      valuesAt solver'._params ParameterField.EllipsoidObstMinor 1 0 =
        valuesAt (sampleSolver2 ℚ)._params ParameterField.EllipsoidObstMinor 1 0 ++ [0] ∧
      valuesAt solver'._params ParameterField.EllipsoidObstX 1 0 =
        valuesAt (sampleSolver2 ℚ)._params ParameterField.EllipsoidObstX 1 0 ++
          [(sampleStep ℚ 2).position.x] ∧
      valuesAt solver'._params ParameterField.EllipsoidObstY 1 0 =
        valuesAt (sampleSolver2 ℚ)._params ParameterField.EllipsoidObstY 1 0 ++
          [(sampleStep ℚ 2).position.y] ∧
      valuesAt solver'._params ParameterField.EllipsoidObstPsi 1 0 =
        valuesAt (sampleSolver2 ℚ)._params ParameterField.EllipsoidObstPsi 1 0 ++
          [(sampleStep ℚ 2).angle] ∧
      valuesAt solver'._params ParameterField.EllipsoidObstR 1 0 =
        valuesAt (sampleSolver2 ℚ)._params ParameterField.EllipsoidObstR 1 0 ++
          [(sampleDeterministic ℚ).radius] :=
  EllipsoidConstraints.setParameters_deterministic (sampleQuantile ℚ)
    (EllipsoidConstraints.new (sampleConfig2 ℚ) 0 0) (sampleSolver2 ℚ) (sampleData3 ℚ) ⟨[]⟩
    1 0 (sampleDeterministic ℚ) [sampleStep ℚ 2, sampleStep ℚ 3] (sampleStep ℚ 2)
    (by decide) (by decide) (sampleData3_steps 1 (by decide) (by decide)) rfl rfl rfl rfl

/-- Witness of C17: the module is updated at a state with every field 3; the robot area has
a disc for each of the two discs. -/
theorem EllipsoidConstraints.setParameters_zero_dummies_witness :
    2 ≤ (sampleData3 ℚ).robot_area.length ∧
    ∃ solver', EllipsoidConstraints.setParameters (sampleQuantile ℚ)
        ((EllipsoidConstraints.new (sampleConfig2 ℚ) 0 0).update ⟨fun _ => 3⟩
          (sampleData3 ℚ) ⟨[]⟩)
        (sampleSolver2 ℚ) (sampleData3 ℚ) ⟨[]⟩ 0 = some solver' ∧
      ∀ i, i < 2 →
        valuesAt solver'._params ParameterField.EllipsoidObstX 0 i =
          valuesAt (sampleSolver2 ℚ)._params ParameterField.EllipsoidObstX 0 i ++ [3 + 50] ∧
        valuesAt solver'._params ParameterField.EllipsoidObstY 0 i =
          valuesAt (sampleSolver2 ℚ)._params ParameterField.EllipsoidObstY 0 i ++ [3 + 50] ∧
        valuesAt solver'._params ParameterField.EllipsoidObstPsi 0 i =
          valuesAt (sampleSolver2 ℚ)._params ParameterField.EllipsoidObstPsi 0 i ++ [0] ∧
        valuesAt solver'._params ParameterField.EllipsoidObstR 0 i =
          valuesAt (sampleSolver2 ℚ)._params ParameterField.EllipsoidObstR 0 i ++ [1 / 10] ∧
        valuesAt solver'._params ParameterField.EllipsoidObstMajor 0 i =
          valuesAt (sampleSolver2 ℚ)._params ParameterField.EllipsoidObstMajor 0 i ++ [0] ∧
        valuesAt solver'._params ParameterField.EllipsoidObstMinor 0 i =
          valuesAt (sampleSolver2 ℚ)._params ParameterField.EllipsoidObstMinor 0 i ++ [0] ∧
        valuesAt solver'._params ParameterField.EllipsoidObstChi 0 i =
          valuesAt (sampleSolver2 ℚ)._params ParameterField.EllipsoidObstChi 0 i ++ [1] :=
  ⟨by decide,
    (EllipsoidConstraints.setParameters_zero_dummies (sampleQuantile ℚ)
      (EllipsoidConstraints.new (sampleConfig2 ℚ) 0 0) ⟨fun _ => 3⟩ (sampleData3 ℚ) ⟨[]⟩
      (sampleSolver2 ℚ) (sampleData3 ℚ) ⟨[]⟩ (by decide)).1⟩

/-- Witness of C18: the sample data with a deterministic and a Gaussian obstacle are accepted
for two obstacle slots; stage 2 of horizon 3. -/
theorem EllipsoidConstraints.ellipsoid_setParameters_writes_every_field_witness :
    (EllipsoidConstraints.isDataReady (sampleConfig2 ℚ) (sampleData3 ℚ) "").1 = true ∧
    ∃ solver', EllipsoidConstraints.setParameters (sampleQuantile ℚ)
        (EllipsoidConstraints.new (sampleConfig2 ℚ) 0 0) (sampleSolver2 ℚ) (sampleData3 ℚ)
        ⟨[]⟩ 2 = some solver' ∧
      ∀ f ∈ EllipsoidConstraints.obstacleFields, ∀ slot, slot < 2 →
        ∃ v, valuesAt solver'._params f 2 slot =
          valuesAt (sampleSolver2 ℚ)._params f 2 slot ++ [v] :=
  ⟨by decide,
    EllipsoidConstraints.ellipsoid_setParameters_writes_every_field (sampleQuantile ℚ)
      (sampleConfig2 ℚ) (EllipsoidConstraints.new (sampleConfig2 ℚ) 0 0) (sampleSolver2 ℚ)
      (sampleData3 ℚ) ⟨[]⟩ 2 "" (by decide)
      (by
        intro o ho
        simp only [sampleData3, List.mem_cons, List.mem_singleton, List.not_mem_nil,
          or_false] at ho
        rcases ho with rfl | rfl
        · exact ⟨_, rfl, by decide⟩
        · exact ⟨_, rfl, by decide⟩)
      (by decide) (by decide)⟩

/-- Witness of C19: the sample data with two Gaussian obstacles are accepted for two obstacle
slots; stage 2 of horizon 3. -/
theorem GaussianConstraints.gaussian_setParameters_writes_every_field_witness :
    (GaussianConstraints.isDataReady (sampleConfig2 ℚ) (sampleData4 ℚ) "").1 = true ∧
    ∃ solver', GaussianConstraints.setParameters (sampleConfig2 ℚ) ⟨0, 0⟩ (sampleSolver2 ℚ)
        (sampleData4 ℚ) ⟨[]⟩ 2 = some solver' ∧
      ∀ f ∈ GaussianConstraints.obstacleFields, ∀ slot, slot < 2 →
        ∃ v, valuesAt solver'._params f 2 slot =
          valuesAt (sampleSolver2 ℚ)._params f 2 slot ++ [v] :=
  ⟨by decide,
    GaussianConstraints.gaussian_setParameters_writes_every_field (sampleConfig2 ℚ) ⟨0, 0⟩
      (sampleSolver2 ℚ) (sampleData4 ℚ) ⟨[]⟩ 2 "" (by decide)
      (by
        intro o ho
        simp only [sampleData4, List.mem_cons, List.mem_singleton, List.not_mem_nil,
          or_false] at ho
        rcases ho with rfl | rfl
        · exact ⟨_, rfl, by decide⟩
        · exact ⟨_, rfl, by decide⟩)
      (by decide) (by decide)⟩

/-- Witness of C20: stage 2; slot 1 holds the sample static Gaussian obstacle, whose second
step carries the radii 1/2 and 1/4, and 0.001 is written for both. -/
theorem GaussianConstraints.setParameters_major_minor_witness :
    (sampleGaussianStatic ℚ).type = ObstacleType.STATIC ∧
    ∃ solver', GaussianConstraints.setParameters (sampleConfig2 ℚ) ⟨0, 0⟩ (sampleSolver2 ℚ)
        (sampleData4 ℚ) ⟨[]⟩ 2 = some solver' ∧
      valuesAt solver'._params ParameterField.GaussianObstMajor 2 1 =
        valuesAt (sampleSolver2 ℚ)._params ParameterField.GaussianObstMajor 2 1 ++
          [1 / 1000] ∧
      valuesAt solver'._params ParameterField.GaussianObstMinor 2 1 =
        valuesAt (sampleSolver2 ℚ)._params ParameterField.GaussianObstMinor 2 1 ++
          [1 / 1000] := by
  obtain ⟨solver', hs, _, hstatic⟩ := GaussianConstraints.setParameters_major_minor
    (sampleConfig2 ℚ) ⟨0, 0⟩ (sampleSolver2 ℚ) (sampleData4 ℚ) ⟨[]⟩ 2 1
    (sampleGaussianStatic ℚ) [sampleStep ℚ 6, sampleStep ℚ 7] (sampleStep ℚ 7)
    (by decide) (by decide) (fun o ho _ => sampleData4_steps 2 (by decide) (by decide) o ho)
    rfl rfl rfl rfl
  exact ⟨rfl, solver', hs, hstatic rfl⟩

/-- A fact `A` that pass `i` of a successful loop establishes and every later pass keeps
holds when the loop ends; `I` is an invariant of the loop that may be used on the way. -/
theorem forLoop_established {σ : Type} (body : Nat → σ → Option σ) (I A : σ → Prop)
    (i count start : Nat) (s s' : σ) (hloop : forLoop body start count s = some s')
    (h1 : start ≤ i) (h2 : i < start + count) (hI : I s)
    (hinv : ∀ j t t', start ≤ j → j < start + count → body j t = some t' → I t → I t')
    (hest : ∀ t t', I t → body i t = some t' → A t')
    (hpres : ∀ j t t', i < j → j < start + count → I t → body j t = some t' → A t → A t') :
    A s' ∧ I s' := by
  have key := forLoop_preserved body (fun idx t => I t ∧ (i < idx → A t)) count start s s'
    (by
      intro j t t' hj1 hj hb hP
      refine ⟨hinv j t t' hj1 hj hb hP.1, ?_⟩
      intro hlt
      by_cases hij : i = j
      · subst hij; exact hest t t' hP.1 hb
      · exact hpres j t t' (by omega) hj hP.1 hb (hP.2 (by omega)))
    hloop ⟨hI, by intro h; omega⟩
  exact ⟨key.2 h2, key.1⟩

theorem forLoop_fixed {σ : Type} (body : Nat → σ → Option σ) (s : σ) :
    ∀ (count start : Nat), (∀ i, start ≤ i → i < start + count → body i s = some s) →
      forLoop body start count s = some s := by
  intro count
  induction count with
  | zero => intro start _; rfl
  | succ n ih =>
    intro start h
    rw [forLoop_succ, h start (le_refl _) (by omega)]
    exact ih (start + 1) (fun i hi1 hi2 => h i (by omega) (by omega))

theorem list_set_of_getElem? {α : Type} (l : List α) (i : Nat) (a : α) (h : l[i]? = some a) :
    l.set i a = l := by
  induction l generalizing i with
  | nil => rfl
  | cons x xs ih =>
    cases i with
    | zero =>
      simp only [List.getElem?_cons_zero, Option.some.injEq] at h
      subst h
      rfl
    | succ j =>
      simp only [List.getElem?_cons_succ] at h
      simp only [List.set_cons_succ, ih j h]

theorem Buffer.write_same {F : Type} (buffer : Buffer F) (d k i : Nat) (v : F)
    (h : buffer.read d k i = some v) : buffer.write d k i v = some buffer := by
  unfold Buffer.read at h
  unfold Buffer.write
  cases hd : buffer[d]? with
  | none => simp [hd] at h
  | some row =>
    simp only [hd] at h ⊢
    cases hk : row[k]? with
    | none => simp [hk] at h
    | some arr =>
      simp only [hk] at h ⊢
      have hi : i < arr.length := (List.getElem?_eq_some.1 h).1
      rw [if_pos hi, list_set_of_getElem? arr i v h, list_set_of_getElem? row k arr hk,
        list_set_of_getElem? buffer d row hd]

/-- The triple view of the buffers after three successful writes to one slot. -/
theorem LinearizedConstraints.readConstraint_of_writes {F : Type}
    (m : LinearizedConstraints F) (d k i : Nat) (v1 v2 v3 : F) (a1 a2 b : Buffer F)
    (ha1 : m._a1.write d k i v1 = some a1) (ha2 : m._a2.write d k i v2 = some a2)
    (hb : m._b.write d k i v3 = some b) (d' k' i' : Nat) :
    LinearizedConstraints.readConstraint { m with _a1 := a1, _a2 := a2, _b := b } d' k' i' =
      if d' = d ∧ k' = k ∧ i' = i then some (v1, v2, v3) else m.readConstraint d' k' i' := by
  unfold LinearizedConstraints.readConstraint
  simp only [Buffer.read_write _ _ d k i v1 ha1, Buffer.read_write _ _ d k i v2 ha2,
    Buffer.read_write _ _ d k i v3 hb]
  by_cases e : d' = d ∧ k' = k ∧ i' = i
  · simp [e]
  · simp [e]

/-- What a successful pass of the obstacle loop body of `update` has read and written. -/
theorem LinearizedConstraints.linearizeObstacle_effect {F : Type} [Field F]
    (num : Numerics F) (config : Config F) (copied_obstacles : List (DynamicObstacle F))
    (k d : Nat) (pos : Vector2d F) (obs_id : Nat) (m m' : LinearizedConstraints F)
    (h : LinearizedConstraints.linearizeObstacle num config copied_obstacles k d pos obs_id m
      = some m') :
    ∃ obstacle o, copied_obstacles[obs_id]? = some obstacle ∧
      obstacle.predictedPosition k = some o ∧
      ∀ d' k' i', m'.readConstraint d' k' i' =
        if d' = d ∧ k' = k ∧ i' = obs_id then
          some (LinearizedConstraints.linearized num pos o
            (LinearizedConstraints.inflatedRadius config m obstacle))
        else m.readConstraint d' k' i' := by
  unfold LinearizedConstraints.linearizeObstacle at h
  cases hobs : copied_obstacles[obs_id]? with
  | none => rw [hobs] at h; cases h
  | some obstacle =>
    rw [hobs] at h
    simp only at h
    cases hpos : obstacle.predictedPosition k with
    | none => rw [hpos] at h; cases h
    | some o =>
      rw [hpos] at h
      simp only at h
      cases ha1 : m._a1.write d k obs_id ((o.x - pos.x) / (o.sub pos).norm num) with
      | none => rw [ha1] at h; cases h
      | some a1 =>
        rw [ha1] at h
        simp only at h
        cases ha2 : m._a2.write d k obs_id ((o.y - pos.y) / (o.sub pos).norm num) with
        | none => rw [ha2] at h; cases h
        | some a2 =>
          rw [ha2] at h
          simp only at h
          have hr1 : a1.read d k obs_id = some ((o.x - pos.x) / (o.sub pos).norm num) := by
            rw [Buffer.read_write _ _ d k obs_id _ ha1]; simp
          have hr2 : a2.read d k obs_id = some ((o.y - pos.y) / (o.sub pos).norm num) := by
            rw [Buffer.read_write _ _ d k obs_id _ ha2]; simp
          rw [hr1, hr2] at h
          simp only at h
          cases hb : m._b.write d k obs_id
              ((o.x - pos.x) / (o.sub pos).norm num * o.x +
                (o.y - pos.y) / (o.sub pos).norm num * o.y -
                LinearizedConstraints.inflatedRadius config m obstacle) with
          | none => rw [hb] at h; cases h
          | some b =>
            rw [hb] at h
            simp only [Option.some.injEq] at h
            subst h
            refine ⟨obstacle, o, rfl, hpos, ?_⟩
            intro d' k' i'
            rw [LinearizedConstraints.readConstraint_of_writes m d k obs_id _ _ _ a1 a2 b
              ha1 ha2 hb]
            rfl

/-- What a successful pass of the half-space loop body of `update` has read and written. -/
theorem LinearizedConstraints.storeHalfspace_effect {F : Type}
    (halfspaces : List (Halfspace F)) (num_obstacles k d h : Nat)
    (m m' : LinearizedConstraints F)
    (hs : LinearizedConstraints.storeHalfspace halfspaces num_obstacles k d h m = some m') :
    ∃ halfspace, halfspaces[h]? = some halfspace ∧
      ∀ d' k' i', m'.readConstraint d' k' i' =
        if d' = d ∧ k' = k ∧ i' = num_obstacles + h then
          some (halfspace.A.x, halfspace.A.y, halfspace.b)
        else m.readConstraint d' k' i' := by
  unfold LinearizedConstraints.storeHalfspace at hs
  simp only at hs
  cases hh : halfspaces[h]? with
  | none => rw [hh] at hs; cases hs
  | some halfspace =>
    rw [hh] at hs
    simp only at hs
    cases ha1 : m._a1.write d k (num_obstacles + h) halfspace.A.x with
    | none => rw [ha1] at hs; cases hs
    | some a1 =>
      rw [ha1] at hs
      simp only at hs
      cases ha2 : m._a2.write d k (num_obstacles + h) halfspace.A.y with
      | none => rw [ha2] at hs; cases hs
      | some a2 =>
        rw [ha2] at hs
        simp only at hs
        cases hb : m._b.write d k (num_obstacles + h) halfspace.b with
        | none => rw [hb] at hs; cases hs
        | some b =>
          rw [hb] at hs
          simp only [Option.some.injEq] at hs
          subst hs
          exact ⟨halfspace, rfl, LinearizedConstraints.readConstraint_of_writes m d k
            (num_obstacles + h) _ _ _ a1 a2 b ha1 ha2 hb⟩

theorem LinearizedConstraints.CellSettled_congr {F : Type} [Field F] (num : Numerics F)
    (dr : DouglasRachford F) (config : Config F) (solver : Solver F)
    (t t' : LinearizedConstraints F) (data : RealTimeData F) (module_data : ModuleData F)
    (k d : Nat) (hg : t'._use_guidance = t._use_guidance)
    (hn : t'._n_other_halfspaces = t._n_other_halfspaces)
    (hr : ∀ i, t'.readConstraint d k i = t.readConstraint d k i)
    (h : LinearizedConstraints.CellSettled num dr config solver t data module_data k d) :
    LinearizedConstraints.CellSettled num dr config solver t' data module_data k d := by
  obtain ⟨p, hp, hobs, hhs⟩ := h
  refine ⟨p, ?_, ?_, ?_⟩
  · rw [LinearizedConstraints.anchor_congr num dr config solver t' t hg]; exact hp
  · intro i obstacle hi
    obtain ⟨o, ho, hread⟩ := hobs i obstacle hi
    exact ⟨o, ho, by
      rw [hr, hread, LinearizedConstraints.inflatedRadius_congr config t' t hg]⟩
  · rcases hhs with h0 | ⟨halfspaces, hk, hall⟩
    · exact Or.inl h0
    · refine Or.inr ⟨halfspaces, hk, ?_⟩
      intro h halfspace hh hget
      rw [hr]
      exact hall h halfspace (by rw [← hn]; exact hh) hget

/-- A successful pass of the body of the stage and disc loops of `update` changes no cell but
`(d, k)`. -/
theorem LinearizedConstraints.updateDisc_frame {F : Type} [Field F] (num : Numerics F)
    (dr : DouglasRachford F) (config : Config F) (solver : Solver F) (data : RealTimeData F)
    (module_data : ModuleData F) (copied_obstacles : List (DynamicObstacle F)) (k d : Nat)
    (t t' : LinearizedConstraints F)
    (h : LinearizedConstraints.updateDisc num dr config solver data module_data
      copied_obstacles k d t = some t')
    (d' k' i' : Nat) (hne : ¬ (d' = d ∧ k' = k)) :
    t'.readConstraint d' k' i' = t.readConstraint d' k' i' := by
  unfold LinearizedConstraints.updateDisc at h
  split at h
  · cases h
  · rename_i pos _
    split at h
    · cases h
    · rename_i m1 h1
      split at h
      · cases h
      · rename_i m2 h2
        have e1 : m1.readConstraint d' k' i' = t.readConstraint d' k' i' :=
          forLoop_preserved _
            (fun _ u => u.readConstraint d' k' i' = t.readConstraint d' k' i') _ 0 t m1
            (fun i u u' _ _ hu hP => by
              obtain ⟨_, _, _, _, hr⟩ := LinearizedConstraints.linearizeObstacle_effect num
                config copied_obstacles k d pos i u u' hu
              rw [hr d' k' i', if_neg (fun hh => hne ⟨hh.1, hh.2.1⟩)]
              exact hP) h1 rfl
        have e2 : m2.readConstraint d' k' i' = m1.readConstraint d' k' i' := by
          obtain ⟨_, b1, b2, b3⟩ :=
            LinearizedConstraints.warnHalfspaces_settings module_data k m1 m2 h2
          unfold LinearizedConstraints.readConstraint
          rw [b1, b2, b3]
        unfold LinearizedConstraints.storeHalfspaces at h
        split at h
        · simp only [Option.some.injEq] at h
          subst h
          exact e2.trans e1
        · split at h
          · cases h
          · rename_i halfspaces _
            have e3 : t'.readConstraint d' k' i' = m2.readConstraint d' k' i' :=
              forLoop_preserved _
                (fun _ u => u.readConstraint d' k' i' = m2.readConstraint d' k' i') _ 0 m2 t'
                (fun i u u' _ _ hu hP => by
                  obtain ⟨_, _, hr⟩ := LinearizedConstraints.storeHalfspace_effect halfspaces
                    copied_obstacles.length k d i u u' hu
                  rw [hr d' k' i', if_neg (fun hh => hne ⟨hh.1, hh.2.1⟩)]
                  exact hP) h rfl
            exact e3.trans (e2.trans e1)

/-- A successful pass of the body of the stage and disc loops of `update` leaves its cell
settled. -/
theorem LinearizedConstraints.updateDisc_settles {F : Type} [Field F] (num : Numerics F)
    (dr : DouglasRachford F) (config : Config F) (solver : Solver F) (data : RealTimeData F)
    (module_data : ModuleData F) (k d : Nat) (t t' : LinearizedConstraints F)
    (h : LinearizedConstraints.updateDisc num dr config solver data module_data
      data.dynamic_obstacles k d t = some t') :
    LinearizedConstraints.CellSettled num dr config solver t' data module_data k d := by
  have hset := LinearizedConstraints.use_guidance_of_settings t' t
    (LinearizedConstraints.updateDisc_settings num dr config solver data module_data
      data.dynamic_obstacles k d t t' h)
  unfold LinearizedConstraints.updateDisc at h
  split at h
  · cases h
  · rename_i pos hpos
    split at h
    · cases h
    · rename_i m1 h1
      split at h
      · cases h
      · rename_i m2 h2
        obtain ⟨s2, b1, b2, b3⟩ :=
          LinearizedConstraints.warnHalfspaces_settings module_data k m1 m2 h2
        have r2 : ∀ i, m2.readConstraint d k i = m1.readConstraint d k i := by
          intro i
          unfold LinearizedConstraints.readConstraint
          rw [b1, b2, b3]
        have hobs1 : ∀ (i : Nat) (obstacle : DynamicObstacle F),
            data.dynamic_obstacles[i]? = some obstacle →
            ∃ o, obstacle.predictedPosition k = some o ∧
              m1.readConstraint d k i =
                some (LinearizedConstraints.linearized num pos o
                  (LinearizedConstraints.inflatedRadius config t obstacle)) := by
          intro i obstacle hi
          have hlt : i < data.dynamic_obstacles.length := by
            rcases Nat.lt_or_ge i data.dynamic_obstacles.length with hlt | hge
            · exact hlt
            · rw [List.getElem?_eq_none hge] at hi; cases hi
          exact (forLoop_established _ (fun u => u._use_guidance = t._use_guidance)
            (fun u => ∃ o, obstacle.predictedPosition k = some o ∧
              u.readConstraint d k i =
                some (LinearizedConstraints.linearized num pos o
                  (LinearizedConstraints.inflatedRadius config t obstacle)))
            i _ 0 t m1 h1 (Nat.zero_le i) (by omega) rfl
            (fun j u u' _ _ hu hI =>
              (LinearizedConstraints.use_guidance_of_settings u' u
                (LinearizedConstraints.linearizeObstacle_settings num config
                  data.dynamic_obstacles k d pos j u u' hu).1).1.trans hI)
            (fun u u' hI hu => by
              obtain ⟨obstacle', o, hget, ho, hr⟩ :=
                LinearizedConstraints.linearizeObstacle_effect num config
                  data.dynamic_obstacles k d pos i u u' hu
              rw [hi] at hget
              cases hget
              refine ⟨o, ho, ?_⟩
              rw [hr d k i, if_pos ⟨rfl, rfl, rfl⟩,
                LinearizedConstraints.inflatedRadius_congr config u t hI])
            (fun j u u' hij _ _ hu hA => by
              obtain ⟨_, _, _, _, hr⟩ :=
                LinearizedConstraints.linearizeObstacle_effect num config
                  data.dynamic_obstacles k d pos j u u' hu
              obtain ⟨o, ho, hread⟩ := hA
              refine ⟨o, ho, ?_⟩
              rw [hr d k i, if_neg (fun hh => by omega)]
              exact hread)).1
        have hanchor : LinearizedConstraints.anchor num dr config solver t' data
            data.dynamic_obstacles k d = some pos := by
          rw [LinearizedConstraints.anchor_congr num dr config solver t' t hset.1]
          exact hpos
        unfold LinearizedConstraints.storeHalfspaces at h
        split at h
        · rename_i hempty
          simp only [Option.some.injEq] at h
          subst h
          refine ⟨pos, hanchor, ?_, Or.inl (List.isEmpty_iff.1 hempty)⟩
          intro i obstacle hi
          obtain ⟨o, ho, hread⟩ := hobs1 i obstacle hi
          refine ⟨o, ho, ?_⟩
          rw [r2, hread, LinearizedConstraints.inflatedRadius_congr config m2 t hset.1]
        · split at h
          · cases h
          · rename_i halfspaces hk
            refine ⟨pos, hanchor, ?_, Or.inr ⟨halfspaces, hk, ?_⟩⟩
            · intro i obstacle hi
              obtain ⟨o, ho, hread⟩ := hobs1 i obstacle hi
              have hlt : i < data.dynamic_obstacles.length := by
                rcases Nat.lt_or_ge i data.dynamic_obstacles.length with hlt | hge
                · exact hlt
                · rw [List.getElem?_eq_none hge] at hi; cases hi
              refine ⟨o, ho, ?_⟩
              have e3 : t'.readConstraint d k i = m2.readConstraint d k i :=
                forLoop_preserved _
                  (fun _ u => u.readConstraint d k i = m2.readConstraint d k i) _ 0 m2 t'
                  (fun j u u' _ _ hu hP => by
                    obtain ⟨_, _, hr⟩ := LinearizedConstraints.storeHalfspace_effect
                      halfspaces data.dynamic_obstacles.length k d j u u' hu
                    rw [hr d k i, if_neg (fun hh => by omega)]
                    exact hP) h rfl
              rw [e3, r2, hread, LinearizedConstraints.inflatedRadius_congr config t' t hset.1]
            · intro j halfspace hj hget
              have hlt : j < halfspaces.length := by
                rcases Nat.lt_or_ge j halfspaces.length with hlt | hge
                · exact hlt
                · rw [List.getElem?_eq_none hge] at hget; cases hget
              have hn2 : m2._n_other_halfspaces = t'._n_other_halfspaces := by
                have e3 : t'.settings = m2.settings :=
                  forLoop_preserved _ (fun _ u => u.settings = m2.settings) _ 0 m2 t'
                    (fun i u u' _ _ hu hP =>
                      (LinearizedConstraints.storeHalfspace_settings halfspaces
                        data.dynamic_obstacles.length k d i u u' hu).1.trans hP) h rfl
                exact (LinearizedConstraints.use_guidance_of_settings t' m2 e3).2.2.1.symm
              exact (forLoop_established _ (fun _ => True)
                (fun u => u.readConstraint d k (data.dynamic_obstacles.length + j) =
                  some (halfspace.A.x, halfspace.A.y, halfspace.b))
                j _ 0 m2 t' h (Nat.zero_le j)
                (by rw [hn2, Nat.zero_add]; exact lt_min hlt hj) trivial
                (fun _ _ _ _ _ _ _ => trivial)
                (fun u u' _ hu => by
                  obtain ⟨halfspace', hget', hr⟩ :=
                    LinearizedConstraints.storeHalfspace_effect halfspaces
                      data.dynamic_obstacles.length k d j u u' hu
                  rw [hget] at hget'
                  cases hget'
                  rw [hr d k _, if_pos ⟨rfl, rfl, rfl⟩])
                (fun i u u' hji _ _ hu hA => by
                  obtain ⟨_, _, hr⟩ :=
                    LinearizedConstraints.storeHalfspace_effect halfspaces
                      data.dynamic_obstacles.length k d i u u' hu
                  rw [hr d k _, if_neg (fun hh => by omega)]
                  exact hA)).1

/-- A successful pass of the stage loop of `update` keeps the settings and changes no cell of
another stage. -/
theorem LinearizedConstraints.updateStage_frame {F : Type} [Field F] (num : Numerics F)
    (dr : DouglasRachford F) (config : Config F) (solver : Solver F) (data : RealTimeData F)
    (module_data : ModuleData F) (k : Nat) (u u' : LinearizedConstraints F)
    (h : forLoop (LinearizedConstraints.updateDisc num dr config solver data module_data
      data.dynamic_obstacles k) 0 u._n_discs u = some u') :
    u'.settings = u.settings ∧
      ∀ d' k' i', k' ≠ k → u'.readConstraint d' k' i' = u.readConstraint d' k' i' :=
  forLoop_preserved _
    (fun _ v => v.settings = u.settings ∧
      ∀ d' k' i', k' ≠ k → v.readConstraint d' k' i' = u.readConstraint d' k' i')
    _ 0 u u'
    (fun d v v' _ _ hv hP =>
      ⟨(LinearizedConstraints.updateDisc_settings num dr config solver data module_data
        data.dynamic_obstacles k d v v' hv).trans hP.1,
       fun d' k' i' hne =>
        (LinearizedConstraints.updateDisc_frame num dr config solver data module_data
          data.dynamic_obstacles k d v v' hv d' k' i' (fun hh => hne hh.2)).trans
          (hP.2 d' k' i' hne)⟩)
    h ⟨rfl, fun _ _ _ _ => rfl⟩

/-- A successful pass of the stage loop of `update` leaves every cell of its stage settled. -/
theorem LinearizedConstraints.updateStage_settles {F : Type} [Field F] (num : Numerics F)
    (dr : DouglasRachford F) (config : Config F) (solver : Solver F) (data : RealTimeData F)
    (module_data : ModuleData F) (k : Nat) (u u' : LinearizedConstraints F)
    (h : forLoop (LinearizedConstraints.updateDisc num dr config solver data module_data
      data.dynamic_obstacles k) 0 u._n_discs u = some u')
    (d : Nat) (hd : d < u._n_discs) :
    LinearizedConstraints.CellSettled num dr config solver u' data module_data k d :=
  (forLoop_established _ (fun v => v.settings = u.settings)
    (fun v => LinearizedConstraints.CellSettled num dr config solver v data module_data k d)
    d _ 0 u u' h (Nat.zero_le d) (by omega) rfl
    (fun j v v' _ _ hv hI =>
      (LinearizedConstraints.updateDisc_settings num dr config solver data module_data
        data.dynamic_obstacles k j v v' hv).trans hI)
    (fun v v' _ hv =>
      LinearizedConstraints.updateDisc_settles num dr config solver data module_data k d
        v v' hv)
    (fun j v v' hdj _ _ hv hA => by
      have hs := LinearizedConstraints.use_guidance_of_settings v' v
        (LinearizedConstraints.updateDisc_settings num dr config solver data module_data
          data.dynamic_obstacles k j v v' hv)
      exact LinearizedConstraints.CellSettled_congr num dr config solver v v' data
        module_data k d hs.1 hs.2.2.1
        (fun i => LinearizedConstraints.updateDisc_frame num dr config solver data
          module_data data.dynamic_obstacles k j v v' hv d k i (fun hh => by omega))
        hA)).1

/-- After a successful `update` every cell of the stages `1 ≤ k < N` is settled. -/
theorem LinearizedConstraints.update_settles {F : Type} [Field F] (num : Numerics F)
    (dr : DouglasRachford F) (config : Config F) (solver : Solver F)
    (m m1 : LinearizedConstraints F) (state : State F) (data : RealTimeData F)
    (module_data : ModuleData F)
    (h : LinearizedConstraints.update num dr config solver m state data module_data
      = some m1)
    (k d : Nat) (hk1 : 1 ≤ k) (hk : k < solver.N) (hd : d < m._n_discs) :
    LinearizedConstraints.CellSettled num dr config solver m1 data module_data k d := by
  unfold LinearizedConstraints.update at h
  exact (forLoop_established _ (fun u => u._n_discs = m._n_discs)
    (fun u => LinearizedConstraints.CellSettled num dr config solver u data module_data k d)
    k _ 1 _ m1 h hk1 (by omega) rfl
    (fun j u u' _ _ hu hI =>
      (LinearizedConstraints.use_guidance_of_settings u' u
        (LinearizedConstraints.updateStage_frame num dr config solver data module_data j
          u u' hu).1).2.1.trans hI)
    (fun u u' hI hu =>
      LinearizedConstraints.updateStage_settles num dr config solver data module_data k
        u u' hu d (by rw [hI]; exact hd))
    (fun j u u' hkj _ _ hu hA => by
      obtain ⟨hs, hr⟩ := LinearizedConstraints.updateStage_frame num dr config solver data
        module_data j u u' hu
      have hs := LinearizedConstraints.use_guidance_of_settings u' u hs
      exact LinearizedConstraints.CellSettled_congr num dr config solver u u' data
        module_data k d hs.1 hs.2.2.1 (fun i => hr d k i (by omega)) hA)).1

/-- The obstacle loop body of `update` changes nothing when the slot already holds the triple
it computes. -/
theorem LinearizedConstraints.linearizeObstacle_same {F : Type} [Field F]
    (num : Numerics F) (config : Config F) (copied_obstacles : List (DynamicObstacle F))
    (k d : Nat) (pos : Vector2d F) (obs_id : Nat) (m : LinearizedConstraints F)
    (obstacle : DynamicObstacle F) (o : Vector2d F)
    (hget : copied_obstacles[obs_id]? = some obstacle)
    (ho : obstacle.predictedPosition k = some o)
    (hread : m.readConstraint d k obs_id =
      some (LinearizedConstraints.linearized num pos o
        (LinearizedConstraints.inflatedRadius config m obstacle))) :
    LinearizedConstraints.linearizeObstacle num config copied_obstacles k d pos obs_id m
      = some m := by
  obtain ⟨r1, r2, r3⟩ := LinearizedConstraints.readConstraint_eq_some m d k obs_id _ hread
  have w1 := Buffer.write_same m._a1 d k obs_id _ r1
  have w2 := Buffer.write_same m._a2 d k obs_id _ r2
  have w3 := Buffer.write_same m._b d k obs_id _ r3
  simp only [LinearizedConstraints.linearized] at r1 r2 w1 w2 w3
  unfold LinearizedConstraints.linearizeObstacle
  rw [hget]
  simp only
  rw [ho]
  simp only
  rw [w1]
  simp only
  rw [w2]
  simp only
  rw [r1, r2]
  simp only
  rw [w3]

/-- The half-space loop body of `update` changes nothing when the slot already holds the
half-space. -/
theorem LinearizedConstraints.storeHalfspace_same {F : Type}
    (halfspaces : List (Halfspace F)) (num_obstacles k d h : Nat)
    (m : LinearizedConstraints F) (halfspace : Halfspace F)
    (hget : halfspaces[h]? = some halfspace)
    (hread : m.readConstraint d k (num_obstacles + h) =
      some (halfspace.A.x, halfspace.A.y, halfspace.b)) :
    LinearizedConstraints.storeHalfspace halfspaces num_obstacles k d h m = some m := by
  obtain ⟨r1, r2, r3⟩ :=
    LinearizedConstraints.readConstraint_eq_some m d k (num_obstacles + h) _ hread
  have w1 := Buffer.write_same m._a1 d k (num_obstacles + h) _ r1
  have w2 := Buffer.write_same m._a2 d k (num_obstacles + h) _ r2
  have w3 := Buffer.write_same m._b d k (num_obstacles + h) _ r3
  simp only at w1 w2 w3
  unfold LinearizedConstraints.storeHalfspace
  simp only
  rw [hget]
  simp only
  rw [w1]
  simp only
  rw [w2]
  simp only
  rw [w3]

/-- On a settled cell the body of the stage and disc loops of `update` succeeds and changes
neither the buffers nor the settings. -/
theorem LinearizedConstraints.updateDisc_same {F : Type} [Field F] (num : Numerics F)
    (dr : DouglasRachford F) (config : Config F) (solver : Solver F) (data : RealTimeData F)
    (module_data : ModuleData F) (k d : Nat) (t : LinearizedConstraints F)
    (h : LinearizedConstraints.CellSettled num dr config solver t data module_data k d) :
    ∃ t', LinearizedConstraints.updateDisc num dr config solver data module_data
        data.dynamic_obstacles k d t = some t' ∧
      t'.settings = t.settings ∧ t'._a1 = t._a1 ∧ t'._a2 = t._a2 ∧ t'._b = t._b := by
  obtain ⟨p, hp, hobs, hhs⟩ := h
  have h1 : forLoop (LinearizedConstraints.linearizeObstacle num config
      data.dynamic_obstacles k d p) 0 data.dynamic_obstacles.length t = some t := by
    apply forLoop_fixed
    intro i _ hi
    have hlt : i < data.dynamic_obstacles.length := by omega
    obtain ⟨o, ho, hread⟩ := hobs i _ (List.getElem?_eq_getElem hlt)
    exact LinearizedConstraints.linearizeObstacle_same num config data.dynamic_obstacles k d
      p i t _ o (List.getElem?_eq_getElem hlt) ho hread
  unfold LinearizedConstraints.updateDisc
  rw [hp]
  simp only
  rw [h1]
  simp only
  rcases hhs with hempty | ⟨halfspaces, hk, hall⟩
  · refine ⟨t, ?_, rfl, rfl, rfl, rfl⟩
    simp [LinearizedConstraints.warnHalfspaces, LinearizedConstraints.storeHalfspaces, hempty]
  · cases h2 : LinearizedConstraints.warnHalfspaces module_data k t with
    | none =>
      unfold LinearizedConstraints.warnHalfspaces at h2
      rw [hk] at h2
      split at h2
      · cases h2
      · simp only at h2
        split at h2 <;> cases h2
    | some t2 =>
      obtain ⟨s2, b1, b2, b3⟩ :=
        LinearizedConstraints.warnHalfspaces_settings module_data k t t2 h2
      have hn := (LinearizedConstraints.use_guidance_of_settings t2 t s2).2.2.1
      have h3 : LinearizedConstraints.storeHalfspaces module_data
          data.dynamic_obstacles.length k d t2 = some t2 := by
        unfold LinearizedConstraints.storeHalfspaces
        split
        · rfl
        · rw [hk]
          simp only
          apply forLoop_fixed
          intro j _ hj
          have hlt : j < halfspaces.length := by
            have := Nat.min_le_left halfspaces.length t2._n_other_halfspaces
            omega
          have hlt2 : j < t._n_other_halfspaces := by
            have := Nat.min_le_right halfspaces.length t2._n_other_halfspaces
            omega
          refine LinearizedConstraints.storeHalfspace_same halfspaces _ k d j t2 _
            (List.getElem?_eq_getElem hlt) ?_
          have := hall j _ hlt2 (List.getElem?_eq_getElem hlt)
          unfold LinearizedConstraints.readConstraint at this ⊢
          rw [b1, b2, b3]
          exact this
      simp only
      exact ⟨t2, h3, s2, b1, b2, b3⟩

/-- C15: `update` is idempotent. When a call of `update` has succeeded, a second call with the
same State, RealTimeData, ModuleData, solver (ego prediction) and projection step `dr` (a
function, hence deterministic) succeeds as well and leaves the buffers `_a1`, `_a2`, `_b` and
`_dummy_b` exactly as the first call left them, whatever the module held before the first
call. -/
theorem LinearizedConstraints.update_idempotent {F : Type} [Field F] (num : Numerics F)
    (dr : DouglasRachford F) (config : Config F) (solver : Solver F)
    (m m1 : LinearizedConstraints F) (state : State F) (data : RealTimeData F)
    (module_data : ModuleData F)
    (h : LinearizedConstraints.update num dr config solver m state data module_data
      = some m1) :
    ∃ m2, LinearizedConstraints.update num dr config solver m1 state data module_data
        = some m2 ∧
      m2._a1 = m1._a1 ∧ m2._a2 = m1._a2 ∧ m2._b = m1._b ∧ m2._dummy_b = m1._dummy_b := by
  have hset := LinearizedConstraints.update_settings num dr config solver m m1 state data
    module_data h
  simp only [LinearizedConstraints.settings, Prod.mk.injEq] at hset
  obtain ⟨_, _, e3, _, e5, _, e7, _⟩ := hset
  have hstart : ∀ (x : F) (n : Nat), m1._dummy_b = x → m1._num_obstacles = n →
      { m1 with _dummy_b := x, _num_obstacles := n } = m1 := by
    intro x n hx hn
    subst hx
    subst hn
    rfl
  unfold LinearizedConstraints.update
  simp only
  rw [hstart _ _ e3 e7]
  obtain ⟨m2, h2, hP⟩ := forLoop_invariant
    (fun k u => forLoop (LinearizedConstraints.updateDisc num dr config solver data
      module_data data.dynamic_obstacles k) 0 u._n_discs u)
    (fun _ u => u.settings = m1.settings ∧ u._a1 = m1._a1 ∧ u._a2 = m1._a2 ∧ u._b = m1._b)
    (solver.N - 1) 1 m1 ⟨rfl, rfl, rfl, rfl⟩
    (fun k u hk1 hk hu => by
      have hnd : u._n_discs = m._n_discs :=
        (LinearizedConstraints.use_guidance_of_settings u m1 hu.1).2.1.trans e5
      have := forLoop_invariant
        (LinearizedConstraints.updateDisc num dr config solver data module_data
          data.dynamic_obstacles k)
        (fun _ v => v.settings = m1.settings ∧ v._a1 = m1._a1 ∧ v._a2 = m1._a2 ∧
          v._b = m1._b)
        u._n_discs 0 u hu
        (fun d v _ hd hv => by
          have hs := LinearizedConstraints.use_guidance_of_settings v m1 hv.1
          have hcell := LinearizedConstraints.CellSettled_congr num dr config solver m1 v
            data module_data k d hs.1 hs.2.2.1
            (fun i => by
              unfold LinearizedConstraints.readConstraint
              rw [hv.2.1, hv.2.2.1, hv.2.2.2])
            (LinearizedConstraints.update_settles num dr config solver m m1 state data
              module_data h k d hk1 (by omega) (by omega))
          obtain ⟨v', hv', s', b1, b2, b3⟩ := LinearizedConstraints.updateDisc_same num dr
            config solver data module_data k d v hcell
          exact ⟨v', hv', s'.trans hv.1, b1.trans hv.2.1, b2.trans hv.2.2.1,
            b3.trans hv.2.2.2⟩)
      obtain ⟨u', hu', hP'⟩ := this
      exact ⟨u', hu', hP'⟩)
  refine ⟨m2, h2, hP.2.1, hP.2.2.1, hP.2.2.2, ?_⟩
  have := hP.1
  simp only [LinearizedConstraints.settings, Prod.mk.injEq] at this
  exact this.2.2.1

/-- Witness of C15: the sample module, freshly constructed over uninitialised memory, updated
twice with the sample data. -/
theorem LinearizedConstraints.update_idempotent_witness :
    ∃ m1, LinearizedConstraints.update ⟨id, id, id⟩ (sampleProjection ℚ) (sampleConfig ℚ)
        (sampleSolver ℚ) (LinearizedConstraints.new (sampleConfig ℚ) (sampleMemory ℚ))
        ⟨fun _ => 3⟩ (sampleData ℚ) ⟨[]⟩ = some m1 ∧
      ∃ m2, LinearizedConstraints.update ⟨id, id, id⟩ (sampleProjection ℚ) (sampleConfig ℚ)
          (sampleSolver ℚ) m1 ⟨fun _ => 3⟩ (sampleData ℚ) ⟨[]⟩ = some m2 ∧
        m2._a1 = m1._a1 ∧ m2._a2 = m1._a2 ∧ m2._b = m1._b ∧ m2._dummy_b = m1._dummy_b := by
  obtain ⟨m1, hm, _⟩ := LinearizedConstraints.update_spec ⟨id, id, id⟩ (sampleProjection ℚ)
    (sampleConfig ℚ) (sampleSolver ℚ)
    (LinearizedConstraints.new (sampleConfig ℚ) (sampleMemory ℚ)) ⟨fun _ => 3⟩ (sampleData ℚ)
    ⟨[]⟩ (LinearizedConstraints.sample_inRange ℚ)
  exact ⟨m1, hm, LinearizedConstraints.update_idempotent ⟨id, id, id⟩ (sampleProjection ℚ)
    (sampleConfig ℚ) (sampleSolver ℚ)
    (LinearizedConstraints.new (sampleConfig ℚ) (sampleMemory ℚ)) m1 ⟨fun _ => 3⟩
    (sampleData ℚ) ⟨[]⟩ hm⟩

/-- C14: for every stage `k` and every point `pos`, `projectToSafety` called with an empty
obstacle list returns `pos` unchanged, and it does so whatever the projection `dr` is (also
one that moves every point): no projection step is made. -/
theorem LinearizedConstraints.projectToSafety_empty {F : Type} [Field F]
    (dr : DouglasRachford F) (config : Config F) (m : LinearizedConstraints F) (k : Nat)
    (pos : Vector2d F) :
    LinearizedConstraints.projectToSafety dr config m [] k pos = some pos := by
  unfold LinearizedConstraints.projectToSafety
  rfl

/-- C12: the inert dummy triple after `update(state)` is constraint-inactive. For a module
with `_dummy_a1 = 1` and `_dummy_a2 = 0` (as the constructor sets them), after a successful
`update` the dummy triple `(a1, a2, b)` is `(1, 0, state.x + 100)`, `a1 x + a2 y ≤ b` holds
for every position `(x, y)` with `x ≤ state.x + 100`, and it holds at the robot's own
position `(state.x, state.y)`. -/
theorem LinearizedConstraints.update_dummy_inactive {F : Type} [LinearOrderedField F]
    (num : Numerics F) (dr : DouglasRachford F) (config : Config F) (solver : Solver F)
    (m m' : LinearizedConstraints F) (state : State F) (data : RealTimeData F)
    (module_data : ModuleData F)
    (h1 : m._dummy_a1 = 1) (h2 : m._dummy_a2 = 0)
    (hupdate : LinearizedConstraints.update num dr config solver m state data module_data
      = some m') :
    m'.dummyConstraint = (1, 0, state.get "x" + 100) ∧
      (∀ x y : F, x ≤ state.get "x" + 100 →
        m'.dummyConstraint.1 * x + m'.dummyConstraint.2.1 * y ≤ m'.dummyConstraint.2.2) ∧
      m'.dummyConstraint.1 * state.get "x" + m'.dummyConstraint.2.1 * state.get "y"
        ≤ m'.dummyConstraint.2.2 := by
  have hset := LinearizedConstraints.update_settings num dr config solver m m' state data
    module_data hupdate
  simp only [LinearizedConstraints.settings, Prod.mk.injEq] at hset
  obtain ⟨e1, e2, e3, _⟩ := hset
  have hd : m'.dummyConstraint = (1, 0, state.get "x" + 100) := by
    unfold LinearizedConstraints.dummyConstraint
    rw [e1, e2, e3, h1, h2]
  refine ⟨hd, ?_, ?_⟩
  · intro x y hx
    rw [hd]
    simpa using hx
  · rw [hd]
    simp

/-- Witness of C12: the sample module, freshly constructed, updated at `state.x = 3`. -/
theorem LinearizedConstraints.update_dummy_inactive_witness :
    ∃ m', LinearizedConstraints.update ⟨id, id, id⟩ (sampleProjection ℚ) (sampleConfig ℚ)
        (sampleSolver ℚ) (LinearizedConstraints.new (sampleConfig ℚ) (sampleMemory ℚ))
        ⟨fun _ => 3⟩ (sampleData ℚ) ⟨[]⟩ = some m' ∧
      m'.dummyConstraint = (1, 0, 3 + 100) ∧
      (∀ x y : ℚ, x ≤ 3 + 100 →
        m'.dummyConstraint.1 * x + m'.dummyConstraint.2.1 * y ≤ m'.dummyConstraint.2.2) ∧
      m'.dummyConstraint.1 * 3 + m'.dummyConstraint.2.1 * 3 ≤ m'.dummyConstraint.2.2 := by
  obtain ⟨m', hm, _⟩ := LinearizedConstraints.update_spec ⟨id, id, id⟩ (sampleProjection ℚ)
    (sampleConfig ℚ) (sampleSolver ℚ)
    (LinearizedConstraints.new (sampleConfig ℚ) (sampleMemory ℚ)) ⟨fun _ => 3⟩ (sampleData ℚ)
    ⟨[]⟩ (LinearizedConstraints.sample_inRange ℚ)
  exact ⟨m', hm, LinearizedConstraints.update_dummy_inactive ⟨id, id, id⟩
    (sampleProjection ℚ) (sampleConfig ℚ) (sampleSolver ℚ)
    (LinearizedConstraints.new (sampleConfig ℚ) (sampleMemory ℚ)) m' ⟨fun _ => 3⟩
    (sampleData ℚ) ⟨[]⟩ rfl rfl hm⟩

/-- In guidance mode the range conditions of `update` carry over from a module with at least
one disc. -/
theorem LinearizedConstraints.setTopologyConstraints_inRange {F : Type}
    (m : LinearizedConstraints F) (solver : Solver F) (data : RealTimeData F)
    (module_data : ModuleData F) (hd : 1 ≤ m._n_discs)
    (h : LinearizedConstraints.UpdateInRange m solver data module_data) :
    LinearizedConstraints.UpdateInRange m.setTopologyConstraints solver data module_data where
  obstacles := h.obstacles
  steps := h.steps
  discs := by intro hg; cases hg
  stages := h.stages
  buffers := by
    intro d k i hd' hk hi
    exact h.buffers d k i (Nat.lt_of_lt_of_le hd' hd) hk hi

/-- Counterexample to C13 as stated: in guidance mode (after `setTopologyConstraints`) the
radius is not `1e-3` and depends on `robot_radius`. With a probe projection that returns the
radius it is called with, `projectToSafety` shows the radius `1/1000 + 1/4 = 251/1000` for
`robot_radius = 1/4` and `1001/1000` for `robot_radius = 1`; and after `update` the amount
subtracted in the stored `b` of the sample obstacle at `(2, 0)` is `251/1000`. -/
theorem LinearizedConstraints.guidance_radius_counterexample :
    LinearizedConstraints.projectToSafety (fun _ _ _ r _ => ⟨r, r⟩) (sampleConfig ℚ)
        (LinearizedConstraints.new (sampleConfig ℚ) (sampleMemory ℚ)).setTopologyConstraints
        [sampleObstacle ℚ] 1 ⟨0, 0⟩ = some ⟨251 / 1000, 251 / 1000⟩ ∧
    LinearizedConstraints.projectToSafety (fun _ _ _ r _ => ⟨r, r⟩)
        { sampleConfig ℚ with robot_radius := 1 }
        (LinearizedConstraints.new (sampleConfig ℚ) (sampleMemory ℚ)).setTopologyConstraints
        [sampleObstacle ℚ] 1 ⟨0, 0⟩ = some ⟨1001 / 1000, 1001 / 1000⟩ ∧
    ∃ m' a1 a2 b,
      LinearizedConstraints.update ⟨Real.sqrt, Real.cos, Real.sin⟩ (sampleProjection ℝ)
        (sampleConfig ℝ) (sampleSolver ℝ)
        (LinearizedConstraints.new (sampleConfig ℝ) (sampleMemory ℝ)).setTopologyConstraints
        ⟨fun _ => 0⟩ (sampleData ℝ) ⟨[]⟩ = some m' ∧
      m'.readConstraint 0 1 0 = some (a1, a2, b) ∧ a1 = 1 ∧ a2 = 0 ∧
      a1 * 2 + a2 * 0 - b = 251 / 1000 ∧ a1 * 2 + a2 * 0 - b ≠ 1 / 1000 := by
  refine ⟨?_, ?_, ?_⟩
  · simp [LinearizedConstraints.projectToSafety, forLoop,
      LinearizedConstraints.projectionStep, DynamicObstacle.predictedPosition, sampleObstacle,
      LinearizedConstraints.inflatedRadius, LinearizedConstraints.setTopologyConstraints,
      sampleConfig]
    norm_num
  · simp [LinearizedConstraints.projectToSafety, forLoop,
      LinearizedConstraints.projectionStep, DynamicObstacle.predictedPosition, sampleObstacle,
      LinearizedConstraints.inflatedRadius, LinearizedConstraints.setTopologyConstraints]
    norm_num
  · obtain ⟨m', hm', _, hall⟩ := LinearizedConstraints.update_spec
      ⟨Real.sqrt, Real.cos, Real.sin⟩ (sampleProjection ℝ) (sampleConfig ℝ) (sampleSolver ℝ)
      (LinearizedConstraints.new (sampleConfig ℝ) (sampleMemory ℝ)).setTopologyConstraints
      ⟨fun _ => 0⟩ (sampleData ℝ) ⟨[]⟩
      (LinearizedConstraints.setTopologyConstraints_inRange _ _ _ _
        (by simp [LinearizedConstraints.new, sampleConfig])
        (LinearizedConstraints.sample_inRange ℝ))
    have hanchor : LinearizedConstraints.anchor ⟨Real.sqrt, Real.cos, Real.sin⟩
        (sampleProjection ℝ) (sampleConfig ℝ) (sampleSolver ℝ)
        (LinearizedConstraints.new (sampleConfig ℝ) (sampleMemory ℝ)).setTopologyConstraints
        (sampleData ℝ) (sampleData ℝ).dynamic_obstacles 1 0 = some ⟨0, 0⟩ := by
      simp [LinearizedConstraints.anchor, LinearizedConstraints.projectToSafety, forLoop,
        LinearizedConstraints.projectionStep, DynamicObstacle.predictedPosition, sampleData,
        sampleObstacle, sampleProjection, sampleSolver,
        LinearizedConstraints.setTopologyConstraints]
    have hread := (hall 0 1 0).trans (LinearizedConstraints.update_obstacle_slot
      ⟨Real.sqrt, Real.cos, Real.sin⟩ (sampleProjection ℝ) (sampleConfig ℝ) (sampleSolver ℝ)
      (LinearizedConstraints.new (sampleConfig ℝ) (sampleMemory ℝ)).setTopologyConstraints
      (sampleData ℝ) ⟨[]⟩ 1 0 0 (sampleObstacle ℝ) ⟨0, 0⟩ ⟨2, 0⟩ (le_refl 1)
      (by simp [sampleSolver]) (by simp [LinearizedConstraints.setTopologyConstraints])
      (by simp [sampleData]) hanchor
      (by simp [DynamicObstacle.predictedPosition, sampleObstacle]))
    have hR : LinearizedConstraints.inflatedRadius (sampleConfig ℝ)
        (LinearizedConstraints.new (sampleConfig ℝ) (sampleMemory ℝ)).setTopologyConstraints
        (sampleObstacle ℝ) = 251 / 1000 := by
      simp [LinearizedConstraints.inflatedRadius, LinearizedConstraints.setTopologyConstraints,
        sampleConfig]
      norm_num
    refine ⟨m', _, _, _, hm', hread, ?_, ?_, ?_, ?_⟩
    · simp only [LinearizedConstraints.linearized, LinearizedConstraints.sample_distance]
      norm_num
    · simp only [LinearizedConstraints.linearized]
      norm_num
    · simp only [LinearizedConstraints.linearized, hR]
      ring
    · simp only [LinearizedConstraints.linearized, hR]
      ring_nf
      norm_num

/-- Under `UpdateInRange` every slot that `setParameters` may read holds a triple after
`update`. -/
theorem LinearizedConstraints.updatedConstraint_isSome {F : Type} [Field F]
    (num : Numerics F) (dr : DouglasRachford F) (config : Config F) (solver : Solver F)
    (m : LinearizedConstraints F) (data : RealTimeData F) (module_data : ModuleData F)
    (h : LinearizedConstraints.UpdateInRange m solver data module_data)
    (d k i : Nat) (hd : d < m._n_discs) (hk : k < solver.N)
    (hi : i < m._max_obstacles + m._n_other_halfspaces) :
    (LinearizedConstraints.updatedConstraint num dr config solver m data module_data
      d k i).isSome := by
  have hold := h.buffers d k i hd hk hi
  unfold LinearizedConstraints.updatedConstraint
  split
  · rename_i hc
    have hpos : ∀ o ∈ data.dynamic_obstacles, ∃ q, o.predictedPosition k = some q := by
      intro o ho
      obtain ⟨mode0, hmode, hlen⟩ := h.steps o ho
      exact DynamicObstacle.predictedPosition_isSome o k mode0 hc.1 hmode (by omega)
    obtain ⟨p, hp⟩ := LinearizedConstraints.anchor_isSome num dr config solver m data
      data.dynamic_obstacles k d (fun hg => Nat.lt_of_lt_of_le hd (h.discs hg)) hpos
    rw [hp]
    simp only
    unfold LinearizedConstraints.cellConstraint
    split
    · rename_i hlt
      obtain ⟨o, ho⟩ := hpos _ (List.getElem_mem hlt)
      simp [LinearizedConstraints.obstacleConstraint, List.getElem?_eq_getElem hlt, ho]
    · split
      · exact hold
      · rename_i halfspaces _
        split
        · rename_i hlt
          have : i - data.dynamic_obstacles.length < halfspaces.length :=
            Nat.lt_of_lt_of_le hlt (Nat.min_le_left _ _)
          simp [List.getElem?_eq_getElem this]
        · exact hold
  · exact hold

/-- C11 (divergence): a static half-space slot that is not supplied is written by
`setParameters(k)` with the content the buffers held before `update`, not with the dummy
triple. Under `UpdateInRange`, for a stage `1 ≤ k < N`, a disc `d` and a half-space index `j`
below `_n_other_halfspaces` that ModuleData does not supply (no static half-spaces at all, or
at most `j` of them at stage `k`), `update` followed by `setParameters(k)` writes to slot
`d * M + n + j` the triple `old` that slot `n + j` of the cell held before the update. -/
theorem LinearizedConstraints.setParameters_unsupplied_halfspace {F : Type} [Field F]
    (num : Numerics F) (dr : DouglasRachford F) (config : Config F) (solver0 : Solver F)
    (m : LinearizedConstraints F) (state : State F) (data : RealTimeData F)
    (module_data : ModuleData F)
    (h : LinearizedConstraints.UpdateInRange m solver0 data module_data)
    (solver : Solver F) (k d j : Nat) (hk1 : 1 ≤ k) (hkN : k < solver0.N)
    (hd : d < m._n_discs) (hj : j < m._n_other_halfspaces)
    (hsupplied : module_data.static_obstacles = [] ∨
      ∃ halfspaces, module_data.static_obstacles[k]? = some halfspaces ∧
        halfspaces.length ≤ j) :
    ∃ m' solver' old,
      LinearizedConstraints.update num dr config solver0 m state data module_data = some m' ∧
      LinearizedConstraints.setParameters m' solver data module_data k = some solver' ∧
      m.readConstraint d k (data.dynamic_obstacles.length + j) = some old ∧
      WritesTriple solver._params solver'._params k
        (d * (m._max_obstacles + m._n_other_halfspaces) + (data.dynamic_obstacles.length + j))
        old.1 old.2.1 old.2.2 := by
  obtain ⟨m', hm', hset, hall⟩ := LinearizedConstraints.update_spec num dr config solver0 m
    state data module_data h
  simp only [LinearizedConstraints.settings, Prod.mk.injEq] at hset
  obtain ⟨_, _, _, e4, e5, e6, _, e8⟩ := hset
  have hn := h.obstacles
  obtain ⟨solver', hs, hin, _⟩ := LinearizedConstraints.setParameters_pos m' solver data
    module_data k (by omega) (by rw [e8]; exact hn)
    (fun d' i' hd' hi' => by
      rw [hall d' k i']
      exact LinearizedConstraints.updatedConstraint_isSome num dr config solver0 m data
        module_data h d' k i' (by rw [← e5]; exact hd') hkN (by rw [e6] at hi'; omega))
    (fun hg => by rw [e5]; exact h.discs (by rw [← e4]; exact hg))
  have hsome := h.buffers d k (data.dynamic_obstacles.length + j) hd hkN (by omega)
  obtain ⟨old, hold⟩ := Option.isSome_iff_exists.1 hsome
  have hpos : ∀ o ∈ data.dynamic_obstacles, ∃ q, o.predictedPosition k = some q := by
    intro o ho
    obtain ⟨mode0, hmode, hlen⟩ := h.steps o ho
    exact DynamicObstacle.predictedPosition_isSome o k mode0 hk1 hmode (by omega)
  obtain ⟨p, hp⟩ := LinearizedConstraints.anchor_isSome num dr config solver0 m data
    data.dynamic_obstacles k d (fun hg => Nat.lt_of_lt_of_le hd (h.discs hg)) hpos
  have hkept : m'.readConstraint d k (data.dynamic_obstacles.length + j) = some old := by
    rw [hall, ← hold]
    unfold LinearizedConstraints.updatedConstraint
    rw [if_pos ⟨hk1, hkN, hd⟩, hp]
    simp only
    unfold LinearizedConstraints.cellConstraint
    rw [if_neg (by omega)]
    rcases hsupplied with h0 | ⟨halfspaces, hk, hlen⟩
    · rw [h0]
      rfl
    · rw [hk]
      simp only
      rw [if_neg]
      have := Nat.min_le_left halfspaces.length m._n_other_halfspaces
      omega
  refine ⟨m', solver', old, hm', hs, hold, ?_⟩
  refine writesTriple_of_constraintValue _ _ k _ old ?_
  intro f hf
  have := hin f d (data.dynamic_obstacles.length + j) hf (by rw [e5]; exact hd)
    (by rw [e6, e8]; omega)
  rw [e6, e8] at this
  rw [this]
  unfold LinearizedConstraints.slotConstraint
  rw [if_pos (by rw [e6]; omega), hkept]
  rfl

theorem LinearizedConstraints.sampleHalfspace_inRange (F : Type) [Field F] :
    LinearizedConstraints.UpdateInRange
      (LinearizedConstraints.new (sampleConfigHalfspace F) (sampleMemory F)) (sampleSolver F)
      (sampleData F) ⟨[]⟩ where
  obstacles := by simp [sampleData, LinearizedConstraints.new, sampleConfigHalfspace]
  steps := by
    intro o ho
    simp only [sampleData, List.mem_singleton] at ho
    subst ho
    exact ⟨[⟨⟨2, 0⟩, 0, 0, 0⟩], rfl, by simp [sampleSolver]⟩
  discs := by intro _; simp [sampleData, LinearizedConstraints.new, sampleConfigHalfspace]
  stages := Or.inl rfl
  buffers := by
    intro d k i hd hk hi
    rw [LinearizedConstraints.new_allocated (sampleConfigHalfspace F) (sampleMemory F) d k i
      hd hk hi]
    rfl

/-- Witness of the divergence of C11: one obstacle slot and one half-space slot, one obstacle
and no static half-space; the module is freshly constructed over memory holding `(7, 8, 9)`.
After `update` at `state.x = 3`, `setParameters(1)` writes `(7, 8, 9)` to the half-space slot
1, while the dummy triple is `(1, 0, 103)`. -/
theorem LinearizedConstraints.setParameters_unsupplied_halfspace_witness :
    ∃ m' solver',
      LinearizedConstraints.update ⟨id, id, id⟩ (sampleProjection ℚ)
        (sampleConfigHalfspace ℚ) (sampleSolver ℚ)
        (LinearizedConstraints.new (sampleConfigHalfspace ℚ) (sampleMemory ℚ)) ⟨fun _ => 3⟩
        (sampleData ℚ) ⟨[]⟩ = some m' ∧
      LinearizedConstraints.setParameters m' (sampleSolver ℚ) (sampleData ℚ) ⟨[]⟩ 1
        = some solver' ∧
      WritesTriple (sampleSolver ℚ)._params solver'._params 1 (0 * (1 + 1) + (1 + 0)) 7 8 9 ∧
      m'.dummyConstraint = (1, 0, 103) ∧ ((7, 8, 9) : ℚ × ℚ × ℚ) ≠ (1, 0, 103) := by
  obtain ⟨m', solver', old, hm', hs, hold, hw⟩ :=
    LinearizedConstraints.setParameters_unsupplied_halfspace ⟨id, id, id⟩
      (sampleProjection ℚ) (sampleConfigHalfspace ℚ) (sampleSolver ℚ)
      (LinearizedConstraints.new (sampleConfigHalfspace ℚ) (sampleMemory ℚ)) ⟨fun _ => 3⟩
      (sampleData ℚ) ⟨[]⟩ (LinearizedConstraints.sampleHalfspace_inRange ℚ) (sampleSolver ℚ)
      1 0 0 (le_refl 1) (by simp [sampleSolver])
      (by simp [LinearizedConstraints.new, sampleConfigHalfspace])
      (by simp [LinearizedConstraints.new, sampleConfigHalfspace]) (Or.inl rfl)
  have hnew := LinearizedConstraints.new_allocated (sampleConfigHalfspace ℚ) (sampleMemory ℚ)
    0 1 1 (by simp [LinearizedConstraints.new, sampleConfigHalfspace])
    (by simp [sampleConfigHalfspace])
    (by simp [LinearizedConstraints.new, sampleConfigHalfspace])
  have hold' : some old = some ((7 : ℚ), (8 : ℚ), (9 : ℚ)) := by
    rw [← hold]
    exact hnew
  simp only [Option.some.injEq] at hold'
  subst hold'
  have hset := LinearizedConstraints.update_settings _ _ _ _ _ _ _ _ _ hm'
  simp only [LinearizedConstraints.settings, Prod.mk.injEq] at hset
  refine ⟨m', solver', hm', hs, hw, ?_, by decide⟩
  unfold LinearizedConstraints.dummyConstraint
  rw [hset.1, hset.2.1, hset.2.2.1]
  simp [LinearizedConstraints.new]
  norm_num

theorem LinearizedConstraints.linearized_isDataReadyLoop_appends {F : Type}
    (obstacles : List (DynamicObstacle F)) (missing_data : String) :
    AppendsOneReason
      ["Obstacle Prediction ",
        "Obstacle Prediction (type must be deterministic, or gaussian) "]
      missing_data (LinearizedConstraints.isDataReadyLoop obstacles missing_data) := by
  induction obstacles with
  | nil => exact Or.inl ⟨rfl, rfl⟩
  | cons obstacle rest ih =>
    unfold LinearizedConstraints.isDataReadyLoop
    split
    · exact Or.inr ⟨rfl, _, by simp, by decide, rfl⟩
    · split
      · exact Or.inr ⟨rfl, _, by simp, by decide, rfl⟩
      · exact ih

theorem EllipsoidConstraints.ellipsoid_isDataReadyLoop_appends {F : Type}
    (obstacles : List (DynamicObstacle F)) (missing_data : String) :
    AppendsOneReason
      ["Obstacle Prediction ", "Obstacle Prediction (Type is incorrect) "]
      missing_data (EllipsoidConstraints.isDataReadyLoop obstacles missing_data) := by
  induction obstacles with
  | nil => exact Or.inl ⟨rfl, rfl⟩
  | cons obstacle rest ih =>
    unfold EllipsoidConstraints.isDataReadyLoop
    split
    · exact Or.inr ⟨rfl, _, by simp, by decide, rfl⟩
    · split
      · exact Or.inr ⟨rfl, _, by simp, by decide, rfl⟩
      · exact ih

theorem GaussianConstraints.gaussian_isDataReadyLoop_appends {F : Type}
    (obstacles : List (DynamicObstacle F)) (missing_data : String) :
    AppendsOneReason
      ["Obstacle Prediction ", "Obstacle Prediction (Type is not Gaussian) "]
      missing_data (GaussianConstraints.isDataReadyLoop obstacles missing_data) := by
  induction obstacles with
  | nil => exact Or.inl ⟨rfl, rfl⟩
  | cons obstacle rest ih =>
    unfold GaussianConstraints.isDataReadyLoop
    split
    · exact Or.inr ⟨rfl, _, by simp, by decide, rfl⟩
    · split
      · exact Or.inr ⟨rfl, _, by simp, by decide, rfl⟩
      · exact ih

theorem AppendsOneReason.mono {reasons reasons' : List String} {missing_data : String}
    {result : Bool × String} (hsub : ∀ r ∈ reasons, r ∈ reasons')
    (h : AppendsOneReason reasons missing_data result) :
    AppendsOneReason reasons' missing_data result := by
  rcases h with h | ⟨hf, reason, hmem, hne, hr⟩
  · exact Or.inl h
  · exact Or.inr ⟨hf, reason, hsub reason hmem, hne, hr⟩

/-- C23: for each of the three modules, `isDataReady` only appends to `missing_data`: when it
returns true the string is unchanged, and when it returns false the new string is the old
string followed by exactly one of the module's reasons, none of which is empty. The call
returns nothing but the flag and the string: no member of a module and nothing of the data is
assigned. -/
theorem isDataReady_appends_one_reason {F : Type} (config : Config F)
    (m : LinearizedConstraints F) (data : RealTimeData F) (missing_data : String) :
    AppendsOneReason
      ["Obstacles ", "Obstacle Prediction ",
        "Obstacle Prediction (type must be deterministic, or gaussian) "]
      missing_data (LinearizedConstraints.isDataReady m data missing_data) ∧
    AppendsOneReason
      ["Robot area ", "Obstacles ", "Obstacle Prediction ",
        "Obstacle Prediction (Type is incorrect) "]
      missing_data (EllipsoidConstraints.isDataReady config data missing_data) ∧
    AppendsOneReason
      ["Obstacles ", "Obstacle Prediction ", "Obstacle Prediction (Type is not Gaussian) "]
      missing_data (GaussianConstraints.isDataReady config data missing_data) := by
  refine ⟨?_, ?_, ?_⟩
  · unfold LinearizedConstraints.isDataReady
    split
    · exact Or.inr ⟨rfl, _, by simp, by decide, rfl⟩
    · exact (LinearizedConstraints.linearized_isDataReadyLoop_appends _ _).mono
        (fun r hr => List.mem_cons_of_mem _ hr)
  · unfold EllipsoidConstraints.isDataReady
    split
    · exact Or.inr ⟨rfl, _, by simp, by decide, rfl⟩
    · split
      · exact Or.inr ⟨rfl, _, by simp, by decide, rfl⟩
      · exact (EllipsoidConstraints.ellipsoid_isDataReadyLoop_appends _ _).mono
          (fun r hr => List.mem_cons_of_mem _ (List.mem_cons_of_mem _ hr))
  · unfold GaussianConstraints.isDataReady
    split
    · exact Or.inr ⟨rfl, _, by simp, by decide, rfl⟩
    · exact (GaussianConstraints.gaussian_isDataReadyLoop_appends _ _).mono
        (fun r hr => List.mem_cons_of_mem _ hr)

/-- C24: `Disc::toRobotCenter` is the inverse of `Disc::getPosition` at the same heading, in
exact arithmetic (any field, whatever `cos` and `sin` return): for every disc, point and
angle, `toRobotCenter(getPosition(p, theta), theta) = p` and
`getPosition(toRobotCenter(q, theta), theta) = q`. -/
theorem Disc.toRobotCenter_getPosition {F : Type} [Field F] (num : Numerics F)
    (disc : Disc F) (p q : Vector2d F) (theta : F) :
    disc.toRobotCenter num (disc.getPosition num p theta) theta = p ∧
      disc.getPosition num (disc.toRobotCenter num q theta) theta = q := by
  constructor
  · simp [Disc.toRobotCenter, Disc.getPosition, Vector2d.add, Vector2d.sub]
  · simp [Disc.toRobotCenter, Disc.getPosition, Vector2d.add, Vector2d.sub]

theorem foldlM_eq_foldl {α β : Type} (f : β → α → Option β) (g : β → α → β) :
    ∀ (l : List α) (init : β), (∀ b a, a ∈ l → f b a = some (g b a)) →
      l.foldlM f init = some (l.foldl g init) := by
  intro l
  induction l with
  | nil => intro init _; rfl
  | cons a rest ih =>
    intro init h
    simp only [List.foldlM_cons, List.foldl_cons]
    rw [h init a (List.mem_cons_self a rest)]
    exact ih (g init a) (fun b' a' ha' => h b' a' (List.mem_cons_of_mem a ha'))

/-- C29: `FixedSizeTrajectory::add` keeps a bounded sliding window. For a capacity
`_size ≥ 1`, a non-empty trajectory (last point `back`) of at most `_size` points and a point
`p`, `add(p)` succeeds, leaves `_size` as it is, and afterwards the last point is `p` and
the length is at most `_size`; if the distance from `back` to `p` (as `add` computes it) is
more than 5 the trajectory is exactly `[p]`; otherwise `p` is appended when the length was
below `_size`, and when the length was `_size` the first point is dropped, the other points
keep their order and `p` follows them. -/
theorem FixedSizeTrajectory.add_sliding_window {F : Type} [LinearOrderedField F]
    (num : Numerics F) (t : FixedSizeTrajectory F) (p back : Vector2d F)
    (hsize : 1 ≤ t._size) (hback : t.positions.getLast? = some back)
    (hlen : (t.positions.length : Int) ≤ t._size) :
    ∃ t', t.add num p = some t' ∧ t'._size = t._size ∧
      t'.positions.getLast? = some p ∧ (t'.positions.length : Int) ≤ t._size ∧
      (5 < (p.sub back).norm num → t'.positions = [p]) ∧
      (¬ 5 < (p.sub back).norm num → (t.positions.length : Int) < t._size →
        t'.positions = t.positions ++ [p]) ∧
      (¬ 5 < (p.sub back).norm num → (t.positions.length : Int) = t._size →
        t'.positions = t.positions.tail ++ [p] ∧
        t'.positions.length = t.positions.length ∧
        ∀ j, j + 1 < t.positions.length → t'.positions[j]? = t.positions[j + 1]?) := by
  unfold FixedSizeTrajectory.add
  rw [hback]
  simp only [gt_iff_lt]
  have hnorm : (p.sub back).norm num =
      num.sqrt ((p.sub back).x * (p.sub back).x + (p.sub back).y * (p.sub back).y) := rfl
  rw [hnorm]
  have hpos : 0 < t.positions.length := by
    cases hp : t.positions with
    | nil => rw [hp] at hback; simp at hback
    | cons a l => simp
  by_cases hjump :
      5 < num.sqrt ((p.sub back).x * (p.sub back).x + (p.sub back).y * (p.sub back).y)
  · rw [if_pos hjump]
    refine ⟨_, rfl, rfl, by simp, ?_, fun _ => rfl, fun h => absurd hjump h,
      fun h => absurd hjump h⟩
    simp only [List.length_singleton, Nat.cast_one]
    exact hsize
  · rw [if_neg hjump]
    by_cases hlt : (t.positions.length : Int) < t._size
    · rw [if_pos hlt]
      refine ⟨_, rfl, rfl, by simp, ?_, fun h => absurd h hjump, fun _ _ => rfl, ?_⟩
      · simp only [List.length_append, List.length_singleton, Nat.cast_add, Nat.cast_one]
        omega
      · intro _ heq
        omega
    · rw [if_neg hlt]
      have htail : t.positions.tail.length + 1 = t.positions.length := by
        rw [List.length_tail]
        omega
      refine ⟨_, rfl, rfl, by simp, ?_, fun h => absurd h hjump,
        fun _ h => absurd h hlt, ?_⟩
      · simp only [List.length_append, List.length_singleton, Nat.cast_add, Nat.cast_one]
        omega
      · intro _ _
        refine ⟨rfl, ?_, ?_⟩
        · simp only [List.length_append, List.length_singleton]
          exact htail
        · intro j hj
          have hj' : j < t.positions.tail.length := by omega
          simp only
          rw [List.getElem?_append_left hj']
          cases hp : t.positions with
          | nil => rfl
          | cons a l => simp

/-- Witness of C29: a full window of capacity 2 and a new point at distance 1. -/
theorem FixedSizeTrajectory.add_sliding_window_witness :
    ∃ t', FixedSizeTrajectory.add ⟨id, id, id⟩
        (⟨2, [⟨0, 0⟩, ⟨1, 0⟩]⟩ : FixedSizeTrajectory ℚ) ⟨2, 0⟩ = some t' ∧
      t'._size = 2 ∧ t'.positions.getLast? = some ⟨2, 0⟩ ∧
      (t'.positions.length : Int) ≤ 2 ∧
      (5 < (Vector2d.sub (⟨2, 0⟩ : Vector2d ℚ) ⟨1, 0⟩).norm ⟨id, id, id⟩ →
        t'.positions = [⟨2, 0⟩]) ∧
      (¬ 5 < (Vector2d.sub (⟨2, 0⟩ : Vector2d ℚ) ⟨1, 0⟩).norm ⟨id, id, id⟩ →
        ((2 : Nat) : Int) < 2 → t'.positions = [⟨0, 0⟩, ⟨1, 0⟩] ++ [⟨2, 0⟩]) ∧
      (¬ 5 < (Vector2d.sub (⟨2, 0⟩ : Vector2d ℚ) ⟨1, 0⟩).norm ⟨id, id, id⟩ →
        ((2 : Nat) : Int) = 2 →
        t'.positions = [⟨1, 0⟩] ++ [⟨2, 0⟩] ∧ t'.positions.length = 2 ∧
        ∀ j, j + 1 < 2 →
          t'.positions[j]? = ([⟨0, 0⟩, ⟨1, 0⟩] : List (Vector2d ℚ))[j + 1]?) :=
  FixedSizeTrajectory.add_sliding_window ⟨id, id, id⟩
    (⟨2, [⟨0, 0⟩, ⟨1, 0⟩]⟩ : FixedSizeTrajectory ℚ) ⟨2, 0⟩ ⟨1, 0⟩ (by decide) rfl
    (by decide)

/-- The range conditions of `update` hold for the module as constructed when the data fit the
configuration. -/
theorem LinearizedConstraints.new_inRange {F : Type} [Field F] (config : Config F)
    (memory : Uninitialized F) (solver : Solver F) (data : RealTimeData F)
    (module_data : ModuleData F)
    (hn : data.dynamic_obstacles.length ≤ config.max_obstacles)
    (hsteps : ∀ o ∈ data.dynamic_obstacles,
      ∃ mode0, o.prediction.modes[0]? = some mode0 ∧ config.N - 1 ≤ mode0.length)
    (harea : config.n_discs ≤ data.robot_area.length)
    (hN : solver.N = config.N)
    (hstatic : module_data.static_obstacles = [] ∨
      config.N ≤ module_data.static_obstacles.length) :
    LinearizedConstraints.UpdateInRange (LinearizedConstraints.new config memory) solver data
      module_data where
  obstacles := hn
  steps := by rw [hN]; exact hsteps
  discs := fun _ => harea
  stages := by rw [hN]; exact hstatic
  buffers := by
    intro d k i hd hk hi
    rw [LinearizedConstraints.new_allocated config memory d k i hd (by rw [← hN]; exact hk)
      hi]
    rfl

/-- C27: index safety of `update`. For the module as constructed from the configuration
(also after `setTopologyConstraints()` when the configuration has at least one disc): if the
obstacle count is at most `max_obstacles`, every first prediction mode has at least `N - 1`
steps, `robot_area` has at least `n_discs` discs, the solver horizon is the configured `N`
and `static_obstacles` is empty or has an entry for every stage below `N`, then `update`
succeeds, that is, every indexed access it makes is in range; and every buffer slot
`[d][k](i)` with `i < max_obstacles + add_halfspaces` still exists afterwards. -/
theorem LinearizedConstraints.update_index_safe {F : Type} [Field F] (num : Numerics F)
    (dr : DouglasRachford F) (config : Config F) (memory : Uninitialized F)
    (topology : Bool) (solver : Solver F) (state : State F) (data : RealTimeData F)
    (module_data : ModuleData F)
    (hn : data.dynamic_obstacles.length ≤ config.max_obstacles)
    (hsteps : ∀ o ∈ data.dynamic_obstacles,
      ∃ mode0, o.prediction.modes[0]? = some mode0 ∧ config.N - 1 ≤ mode0.length)
    (harea : config.n_discs ≤ data.robot_area.length)
    (hN : solver.N = config.N)
    (hstatic : module_data.static_obstacles = [] ∨
      config.N ≤ module_data.static_obstacles.length)
    (htopology : topology = true → 1 ≤ config.n_discs) :
    ∃ m', LinearizedConstraints.update num dr config solver
        (if topology then (LinearizedConstraints.new config memory).setTopologyConstraints
          else LinearizedConstraints.new config memory)
        state data module_data = some m' ∧
      ∀ d k i, d < (if topology then 1 else config.n_discs) → k < config.N →
        i < config.max_obstacles + config.add_halfspaces →
        (m'.readConstraint d k i).isSome := by
  have hnew := LinearizedConstraints.new_inRange config memory solver data module_data hn
    hsteps harea hN hstatic
  have hrange : LinearizedConstraints.UpdateInRange
      (if topology then (LinearizedConstraints.new config memory).setTopologyConstraints
        else LinearizedConstraints.new config memory) solver data module_data := by
    cases topology with
    | false => exact hnew
    | true =>
      exact LinearizedConstraints.setTopologyConstraints_inRange _ _ _ _ (htopology rfl) hnew
  obtain ⟨m', hm', _, hall⟩ := LinearizedConstraints.update_spec num dr config solver _ state
    data module_data hrange
  refine ⟨m', hm', ?_⟩
  intro d k i hd hk hi
  rw [hall d k i]
  refine LinearizedConstraints.updatedConstraint_isSome num dr config solver _ data
    module_data hrange d k i ?_ (by rw [hN]; exact hk) ?_
  · cases topology with
    | false => exact hd
    | true => exact hd
  · cases topology with
    | false => exact hi
    | true => exact hi

/-- Witness of C27: the sample configuration, solver and data, without guidance. -/
theorem LinearizedConstraints.update_index_safe_witness :
    ∃ m', LinearizedConstraints.update ⟨id, id, id⟩ (sampleProjection ℚ) (sampleConfig ℚ)
        (sampleSolver ℚ) (LinearizedConstraints.new (sampleConfig ℚ) (sampleMemory ℚ))
        ⟨fun _ => 3⟩ (sampleData ℚ) ⟨[]⟩ = some m' ∧
      ∀ d k i, d < 1 → k < 2 → i < 1 + 0 → (m'.readConstraint d k i).isSome :=
  LinearizedConstraints.update_index_safe ⟨id, id, id⟩ (sampleProjection ℚ) (sampleConfig ℚ)
    (sampleMemory ℚ) false (sampleSolver ℚ) ⟨fun _ => 3⟩ (sampleData ℚ) ⟨[]⟩
    (by simp [sampleData, sampleConfig])
    (by
      intro o ho
      simp only [sampleData, List.mem_singleton] at ho
      subst ho
      exact ⟨[⟨⟨2, 0⟩, 0, 0, 0⟩], rfl, by simp [sampleConfig]⟩)
    (by simp [sampleData, sampleConfig]) rfl (Or.inl rfl) (fun h => by cases h)

/-- The stored triple of a static half-space slot after `update`. -/
theorem LinearizedConstraints.update_halfspace_slot {F : Type} [Field F] (num : Numerics F)
    (dr : DouglasRachford F) (config : Config F) (solver : Solver F)
    (m : LinearizedConstraints F) (data : RealTimeData F) (module_data : ModuleData F)
    (h : LinearizedConstraints.UpdateInRange m solver data module_data)
    (k d j : Nat) (halfspaces : List (Halfspace F)) (halfspace : Halfspace F)
    (hk1 : 1 ≤ k) (hkN : k < solver.N) (hd : d < m._n_discs)
    (hk : module_data.static_obstacles[k]? = some halfspaces)
    (hj : j < min halfspaces.length m._n_other_halfspaces)
    (hget : halfspaces[j]? = some halfspace) :
    LinearizedConstraints.updatedConstraint num dr config solver m data module_data d k
        (data.dynamic_obstacles.length + j) =
      some (halfspace.A.x, halfspace.A.y, halfspace.b) := by
  have hpos : ∀ o ∈ data.dynamic_obstacles, ∃ q, o.predictedPosition k = some q := by
    intro o ho
    obtain ⟨mode0, hmode, hlen⟩ := h.steps o ho
    exact DynamicObstacle.predictedPosition_isSome o k mode0 hk1 hmode (by omega)
  obtain ⟨p, hp⟩ := LinearizedConstraints.anchor_isSome num dr config solver m data
    data.dynamic_obstacles k d (fun hg => Nat.lt_of_lt_of_le hd (h.discs hg)) hpos
  unfold LinearizedConstraints.updatedConstraint
  rw [if_pos ⟨hk1, hkN, hd⟩, hp]
  simp only
  unfold LinearizedConstraints.cellConstraint
  rw [if_neg (by omega), hk]
  simp only
  have e : data.dynamic_obstacles.length + j - data.dynamic_obstacles.length = j := by omega
  rw [e, if_pos hj, hget]
  rfl

/-- The content of a cell after `update` depends on the static half-spaces of the stage only
through the first `_n_other_halfspaces` of them. -/
theorem LinearizedConstraints.cellConstraint_take {F : Type} [Field F] (num : Numerics F)
    (config : Config F) (m : LinearizedConstraints F)
    (copied_obstacles : List (DynamicObstacle F)) (module_data module_data' : ModuleData F)
    (hagree : module_data'.static_obstacles.map (List.take m._n_other_halfspaces) =
      module_data.static_obstacles.map (List.take m._n_other_halfspaces))
    (k : Nat) (pos : Vector2d F) (i : Nat) (old : Option (F × F × F)) :
    LinearizedConstraints.cellConstraint num config m copied_obstacles module_data' k pos i
        old =
      LinearizedConstraints.cellConstraint num config m copied_obstacles module_data k pos i
        old := by
  have hk := congrArg (fun l => l[k]?) hagree
  simp only [List.getElem?_map] at hk
  unfold LinearizedConstraints.cellConstraint
  split
  · rfl
  · cases h' : module_data'.static_obstacles[k]? with
    | none =>
      cases h0 : module_data.static_obstacles[k]? with
      | none => rfl
      | some hs => rw [h', h0] at hk; cases hk
    | some hs' =>
      cases h0 : module_data.static_obstacles[k]? with
      | none => rw [h', h0] at hk; cases hk
      | some hs =>
        rw [h', h0] at hk
        simp only [Option.map_some', Option.some.injEq] at hk
        have hlen : min hs'.length m._n_other_halfspaces =
            min hs.length m._n_other_halfspaces := by
          have := congrArg List.length hk
          simp only [List.length_take] at this
          rw [Nat.min_comm hs'.length, Nat.min_comm hs.length]
          exact this
        simp only
        rw [hlen]
        split
        · rename_i hlt
          have hlt' : i - copied_obstacles.length < m._n_other_halfspaces :=
            Nat.lt_of_lt_of_le hlt (Nat.min_le_right _ _)
          have e1 : hs'[i - copied_obstacles.length]? =
              (List.take m._n_other_halfspaces hs')[i - copied_obstacles.length]? :=
            (List.getElem?_take_of_lt hlt').symm
          have e2 : hs[i - copied_obstacles.length]? =
              (List.take m._n_other_halfspaces hs)[i - copied_obstacles.length]? :=
            (List.getElem?_take_of_lt hlt').symm
          rw [e1, e2, hk]
        · rfl

/-- C21: after `update` with `n` obstacles (every index in range), for every stage
`1 ≤ k < N`, every disc `d` and every `j < min(number of half-spaces supplied for stage k,
_n_other_halfspaces)`, slot `n + j` of `(d, k)` holds exactly `(A.x, A.y, b)` of the `j`-th
supplied half-space; and no half-space of index `_n_other_halfspaces` or more is stored: a
ModuleData that agrees with the given one on the first `_n_other_halfspaces` half-spaces of
every stage leaves every slot of the buffers with the same content. -/
theorem LinearizedConstraints.update_stores_halfspaces {F : Type} [Field F]
    (num : Numerics F) (dr : DouglasRachford F) (config : Config F) (solver : Solver F)
    (m : LinearizedConstraints F) (state : State F) (data : RealTimeData F)
    (module_data : ModuleData F)
    (h : LinearizedConstraints.UpdateInRange m solver data module_data) :
    ∃ m', LinearizedConstraints.update num dr config solver m state data module_data
        = some m' ∧
      (∀ (k d j : Nat) (halfspaces : List (Halfspace F)) (halfspace : Halfspace F),
        1 ≤ k → k < solver.N → d < m._n_discs →
        module_data.static_obstacles[k]? = some halfspaces →
        j < min halfspaces.length m._n_other_halfspaces →
        halfspaces[j]? = some halfspace →
        m'.readConstraint d k (data.dynamic_obstacles.length + j) =
          some (halfspace.A.x, halfspace.A.y, halfspace.b)) ∧
      (∀ module_data' : ModuleData F,
        module_data'.static_obstacles.map (List.take m._n_other_halfspaces) =
          module_data.static_obstacles.map (List.take m._n_other_halfspaces) →
        ∃ m'', LinearizedConstraints.update num dr config solver m state data module_data'
            = some m'' ∧
          ∀ d k i, m''.readConstraint d k i = m'.readConstraint d k i) := by
  obtain ⟨m', hm', _, hall⟩ := LinearizedConstraints.update_spec num dr config solver m state
    data module_data h
  refine ⟨m', hm', ?_, ?_⟩
  · intro k d j halfspaces halfspace hk1 hkN hd hk hj hget
    rw [hall d k _]
    exact LinearizedConstraints.update_halfspace_slot num dr config solver m data module_data
      h k d j halfspaces halfspace hk1 hkN hd hk hj hget
  · intro module_data' hagree
    have hlen : module_data'.static_obstacles.length = module_data.static_obstacles.length := by
      have := congrArg List.length hagree
      simpa using this
    have h' : LinearizedConstraints.UpdateInRange m solver data module_data' :=
      { obstacles := h.obstacles
        steps := h.steps
        discs := h.discs
        stages := by
          rcases h.stages with h0 | h1
          · left
            rw [h0] at hlen
            exact List.length_eq_zero.1 hlen
          · right
            rw [hlen]
            exact h1
        buffers := h.buffers }
    obtain ⟨m'', hm'', _, hall'⟩ := LinearizedConstraints.update_spec num dr config solver m
      state data module_data' h'
    refine ⟨m'', hm'', ?_⟩
    intro d k i
    rw [hall d k i, hall' d k i]
    unfold LinearizedConstraints.updatedConstraint
    split
    · cases LinearizedConstraints.anchor num dr config solver m data data.dynamic_obstacles
        k d with
      | none => rfl
      | some pos =>
        exact LinearizedConstraints.cellConstraint_take num config m data.dynamic_obstacles
          module_data module_data' hagree k pos i _
    · rfl

theorem LinearizedConstraints.sampleHalfspace_inRange_static (F : Type) [Field F]
    (module_data : ModuleData F)
    (hstatic : module_data.static_obstacles = [] ∨ 2 ≤ module_data.static_obstacles.length) :
    LinearizedConstraints.UpdateInRange
      (LinearizedConstraints.new (sampleConfigHalfspace F) (sampleMemory F)) (sampleSolver F)
      (sampleData F) module_data :=
  LinearizedConstraints.new_inRange (sampleConfigHalfspace F) (sampleMemory F)
    (sampleSolver F) (sampleData F) module_data
    (by simp [sampleData, sampleConfigHalfspace])
    (by
      intro o ho
      simp only [sampleData, List.mem_singleton] at ho
      subst ho
      exact ⟨[⟨⟨2, 0⟩, 0, 0, 0⟩], rfl, by simp [sampleConfigHalfspace]⟩)
    (by simp [sampleData, sampleConfigHalfspace]) rfl hstatic

/-- Witness of C21: one obstacle, one half-space slot, and two half-spaces supplied at stage
1: slot 1 holds the first, `y ≤ 5`, and the buffers are the same as with the second one
left out. -/
theorem LinearizedConstraints.update_stores_halfspaces_witness :
    ∃ m', LinearizedConstraints.update ⟨id, id, id⟩ (sampleProjection ℚ)
        (sampleConfigHalfspace ℚ) (sampleSolver ℚ)
        (LinearizedConstraints.new (sampleConfigHalfspace ℚ) (sampleMemory ℚ)) ⟨fun _ => 3⟩
        (sampleData ℚ) (sampleStatic ℚ) = some m' ∧
      m'.readConstraint 0 1 (1 + 0) = some (0, 1, 5) ∧
      ∃ m'', LinearizedConstraints.update ⟨id, id, id⟩ (sampleProjection ℚ)
          (sampleConfigHalfspace ℚ) (sampleSolver ℚ)
          (LinearizedConstraints.new (sampleConfigHalfspace ℚ) (sampleMemory ℚ))
          ⟨fun _ => 3⟩ (sampleData ℚ) (sampleStaticCut ℚ) = some m'' ∧
        ∀ d k i, m''.readConstraint d k i = m'.readConstraint d k i := by
  obtain ⟨m', hm', hslot, hcut⟩ := LinearizedConstraints.update_stores_halfspaces
    ⟨id, id, id⟩ (sampleProjection ℚ) (sampleConfigHalfspace ℚ) (sampleSolver ℚ)
    (LinearizedConstraints.new (sampleConfigHalfspace ℚ) (sampleMemory ℚ)) ⟨fun _ => 3⟩
    (sampleData ℚ) (sampleStatic ℚ)
    (LinearizedConstraints.sampleHalfspace_inRange_static ℚ (sampleStatic ℚ)
      (Or.inr (by simp [sampleStatic])))
  exact ⟨m', hm',
    hslot 1 0 0 [⟨⟨0, 1⟩, 5⟩, ⟨⟨1, 0⟩, 6⟩] ⟨⟨0, 1⟩, 5⟩ (le_refl 1) (by simp [sampleSolver])
      (by simp [LinearizedConstraints.new, sampleConfigHalfspace]) rfl
      (by simp [LinearizedConstraints.new, sampleConfigHalfspace]) rfl,
    hcut (sampleStaticCut ℚ) rfl⟩

theorem LinearizedConstraints.stageWarnings_congr {F : Type} (u m : LinearizedConstraints F)
    (h : u._n_other_halfspaces = m._n_other_halfspaces) (module_data : ModuleData F)
    (k : Nat) : u.stageWarnings module_data k = m.stageWarnings module_data k := by
  unfold LinearizedConstraints.stageWarnings
  rw [h]

theorem LinearizedConstraints.warnHalfspaces_warnings {F : Type}
    (module_data : ModuleData F) (k : Nat) (m m' : LinearizedConstraints F)
    (h : LinearizedConstraints.warnHalfspaces module_data k m = some m') :
    m'.warnings = m.warnings ++ m.stageWarnings module_data k := by
  unfold LinearizedConstraints.warnHalfspaces at h
  unfold LinearizedConstraints.stageWarnings
  split at h
  · rename_i he
    simp only [Option.some.injEq] at h
    subst h
    simp [he]
  · rename_i he
    rw [if_neg he]
    split at h
    · cases h
    · split at h
      · rename_i hl
        simp only [Option.some.injEq] at h
        subst h
        simp [hl]
      · rename_i hl
        simp only [Option.some.injEq] at h
        subst h
        simp [hl]

/-- A successful pass of the body of the stage and disc loops of `update` logs the warning
lines of its stage. -/
theorem LinearizedConstraints.updateDisc_warnings {F : Type} [Field F] (num : Numerics F)
    (dr : DouglasRachford F) (config : Config F) (solver : Solver F) (data : RealTimeData F)
    (module_data : ModuleData F) (copied_obstacles : List (DynamicObstacle F)) (k d : Nat)
    (m m' : LinearizedConstraints F)
    (h : LinearizedConstraints.updateDisc num dr config solver data module_data
      copied_obstacles k d m = some m') :
    m'.warnings = m.warnings ++ m.stageWarnings module_data k := by
  unfold LinearizedConstraints.updateDisc at h
  split at h
  · cases h
  · rename_i pos _
    split at h
    · cases h
    · rename_i m1 h1
      split at h
      · cases h
      · rename_i m2 h2
        have e1 : m1.settings = m.settings ∧ m1.warnings = m.warnings :=
          forLoop_preserved _ (fun _ u => u.settings = m.settings ∧ u.warnings = m.warnings)
            _ 0 m m1
            (fun i t t' _ _ ht hP =>
              have hs := LinearizedConstraints.linearizeObstacle_settings num config
                copied_obstacles k d pos i t t' ht
              ⟨hs.1.trans hP.1, hs.2.trans hP.2⟩) h1 ⟨rfl, rfl⟩
        have e2 := LinearizedConstraints.warnHalfspaces_warnings module_data k m1 m2 h2
        rw [LinearizedConstraints.stageWarnings_congr m1 m
          (LinearizedConstraints.use_guidance_of_settings m1 m e1.1).2.2.1, e1.2] at e2
        unfold LinearizedConstraints.storeHalfspaces at h
        split at h
        · simp only [Option.some.injEq] at h
          subst h
          exact e2
        · split at h
          · cases h
          · rename_i halfspaces _
            have e3 : m'.warnings = m2.warnings :=
              forLoop_preserved _ (fun _ u => u.warnings = m2.warnings) _ 0 m2 m'
                (fun i t t' _ _ ht hP =>
                  (LinearizedConstraints.storeHalfspace_settings halfspaces
                    copied_obstacles.length k d i t t' ht).2.trans hP) h rfl
            exact e3.trans e2

/-- A successful pass of the stage loop of `update` logs the warning lines of its stage once
per disc. -/
theorem LinearizedConstraints.updateStage_warnings {F : Type} [Field F] (num : Numerics F)
    (dr : DouglasRachford F) (config : Config F) (solver : Solver F) (data : RealTimeData F)
    (module_data : ModuleData F) (k : Nat) (u u' : LinearizedConstraints F)
    (h : forLoop (LinearizedConstraints.updateDisc num dr config solver data module_data
      data.dynamic_obstacles k) 0 u._n_discs u = some u') :
    u'.warnings =
      u.warnings ++ (List.replicate u._n_discs (u.stageWarnings module_data k)).flatten := by
  have key := forLoop_preserved _
    (fun idx v => v.settings = u.settings ∧
      v.warnings =
        u.warnings ++ (List.replicate idx (u.stageWarnings module_data k)).flatten)
    _ 0 u u'
    (fun d v v' _ _ hv hP => by
      refine ⟨(LinearizedConstraints.updateDisc_settings num dr config solver data
        module_data data.dynamic_obstacles k d v v' hv).trans hP.1, ?_⟩
      rw [LinearizedConstraints.updateDisc_warnings num dr config solver data module_data
        data.dynamic_obstacles k d v v' hv, hP.2,
        LinearizedConstraints.stageWarnings_congr v u
          (LinearizedConstraints.use_guidance_of_settings v u hP.1).2.2.1,
        List.replicate_succ', List.flatten_append, List.append_assoc]
      simp)
    h ⟨rfl, by simp⟩
  have := key.2
  rw [Nat.zero_add] at this
  exact this

/-- A successful `update` logs exactly the lines of `updateWarnings`. -/
theorem LinearizedConstraints.update_warnings {F : Type} [Field F] (num : Numerics F)
    (dr : DouglasRachford F) (config : Config F) (solver : Solver F)
    (m m' : LinearizedConstraints F) (state : State F) (data : RealTimeData F)
    (module_data : ModuleData F)
    (h : LinearizedConstraints.update num dr config solver m state data module_data
      = some m') :
    m'.warnings = m.warnings ++ m.updateWarnings solver module_data := by
  unfold LinearizedConstraints.update at h
  have key := forLoop_preserved _
    (fun idx u => (u._n_discs = m._n_discs ∧
        u._n_other_halfspaces = m._n_other_halfspaces) ∧
      u.warnings =
        m.warnings ++ (List.range' 1 (idx - 1)).flatMap fun k =>
          (List.replicate m._n_discs (m.stageWarnings module_data k)).flatten)
    _ 1 _ m'
    (fun k u u' hk1 _ hu hP => by
      have hs := LinearizedConstraints.use_guidance_of_settings u' u
        (LinearizedConstraints.updateStage_frame num dr config solver data module_data k
          u u' hu).1
      refine ⟨⟨hs.2.1.trans hP.1.1, hs.2.2.1.trans hP.1.2⟩, ?_⟩
      rw [LinearizedConstraints.updateStage_warnings num dr config solver data module_data k
        u u' hu, hP.2, hP.1.1, LinearizedConstraints.stageWarnings_congr u m hP.1.2]
      obtain ⟨j, rfl⟩ : ∃ j, k = j + 1 := ⟨k - 1, by omega⟩
      have e1 : j + 1 + 1 - 1 = j + 1 := by omega
      have e2 : j + 1 - 1 = j := by omega
      rw [e1, e2, List.range'_1_concat, List.flatMap_append, List.append_assoc]
      simp [Nat.add_comm])
    h ⟨⟨rfl, rfl⟩, by simp⟩
  have := key.2
  have e : 1 + (solver.N - 1) - 1 = solver.N - 1 := by omega
  rw [e] at this
  exact this

theorem LinearizedConstraints.updateWarnings_empty {F : Type} (m : LinearizedConstraints F)
    (solver : Solver F) (module_data : ModuleData F)
    (h : module_data.static_obstacles = []) : m.updateWarnings solver module_data = [] := by
  unfold LinearizedConstraints.updateWarnings
  have : ∀ k, m.stageWarnings module_data k = [] := by
    intro k
    simp [LinearizedConstraints.stageWarnings, h]
  simp [this]

/-- C22 (amended): under the range conditions `update` completes in every case, and the
warnings it logs are, for the stages `1 .. N - 1` in order and once per disc, the lines of
`stageWarnings`: a line `(expected, present)` for stage `k` exactly when `static_obstacles`
has an entry for the stage that holds fewer half-spaces than `_n_other_halfspaces`; when
`static_obstacles` is empty nothing is logged. The half-spaces that are available (up to
`_n_other_halfspaces`) are stored behind the obstacle slots. -/
theorem LinearizedConstraints.update_shortfall_warning {F : Type} [Field F]
    (num : Numerics F) (dr : DouglasRachford F) (config : Config F) (solver : Solver F)
    (m : LinearizedConstraints F) (state : State F) (data : RealTimeData F)
    (module_data : ModuleData F)
    (h : LinearizedConstraints.UpdateInRange m solver data module_data) :
    ∃ m', LinearizedConstraints.update num dr config solver m state data module_data
        = some m' ∧
      m'.warnings =
        m.warnings ++ (List.range' 1 (solver.N - 1)).flatMap (fun k =>
          (List.replicate m._n_discs (m.stageWarnings module_data k)).flatten) ∧
      (∀ k halfspaces, module_data.static_obstacles[k]? = some halfspaces →
        m.stageWarnings module_data k =
          if halfspaces.length < m._n_other_halfspaces then
            [⟨m._n_other_halfspaces, halfspaces.length⟩]
          else []) ∧
      (module_data.static_obstacles = [] →
        (∀ k, m.stageWarnings module_data k = []) ∧ m'.warnings = m.warnings) ∧
      (∀ (k d j : Nat) (halfspaces : List (Halfspace F)) (halfspace : Halfspace F),
        1 ≤ k → k < solver.N → d < m._n_discs →
        module_data.static_obstacles[k]? = some halfspaces →
        j < min halfspaces.length m._n_other_halfspaces →
        halfspaces[j]? = some halfspace →
        m'.readConstraint d k (data.dynamic_obstacles.length + j) =
          some (halfspace.A.x, halfspace.A.y, halfspace.b)) := by
  obtain ⟨m', hm', _, hall⟩ := LinearizedConstraints.update_spec num dr config solver m state
    data module_data h
  have hw := LinearizedConstraints.update_warnings num dr config solver m m' state data
    module_data hm'
  refine ⟨m', hm', hw, ?_, ?_, ?_⟩
  · intro k halfspaces hk
    have hne : module_data.static_obstacles.isEmpty = false := by
      cases hl : module_data.static_obstacles with
      | nil => rw [hl] at hk; simp at hk
      | cons a l => rfl
    simp [LinearizedConstraints.stageWarnings, hne, hk]
  · intro h0
    refine ⟨?_, ?_⟩
    · intro k
      simp [LinearizedConstraints.stageWarnings, h0]
    · rw [hw, LinearizedConstraints.updateWarnings_empty m solver module_data h0,
        List.append_nil]
  · intro k d j halfspaces halfspace hk1 hkN hd hk hj hget
    rw [hall d k _]
    exact LinearizedConstraints.update_halfspace_slot num dr config solver m data module_data
      h k d j halfspaces halfspace hk1 hkN hd hk hj hget

/-- Counterexample to C22 as stated: one half-space slot is configured
(`add_halfspaces = 1`) and ModuleData supplies no static half-spaces at all; `update`
completes and logs no warning. -/
theorem LinearizedConstraints.update_no_warning_counterexample :
    (sampleConfigHalfspace ℚ).add_halfspaces = 1 ∧
    (LinearizedConstraints.new (sampleConfigHalfspace ℚ) (sampleMemory ℚ)).warnings = [] ∧
    ∃ m', LinearizedConstraints.update ⟨id, id, id⟩ (sampleProjection ℚ)
        (sampleConfigHalfspace ℚ) (sampleSolver ℚ)
        (LinearizedConstraints.new (sampleConfigHalfspace ℚ) (sampleMemory ℚ)) ⟨fun _ => 3⟩
        (sampleData ℚ) ⟨[]⟩ = some m' ∧
      m'.warnings = [] := by
  obtain ⟨m', hm', _⟩ := LinearizedConstraints.update_spec ⟨id, id, id⟩ (sampleProjection ℚ)
    (sampleConfigHalfspace ℚ) (sampleSolver ℚ)
    (LinearizedConstraints.new (sampleConfigHalfspace ℚ) (sampleMemory ℚ)) ⟨fun _ => 3⟩
    (sampleData ℚ) ⟨[]⟩ (LinearizedConstraints.sampleHalfspace_inRange ℚ)
  refine ⟨rfl, rfl, m', hm', ?_⟩
  rw [LinearizedConstraints.update_warnings _ _ _ _ _ _ _ _ _ hm',
    LinearizedConstraints.updateWarnings_empty _ _ _ rfl]
  rfl

/-- Witness of the amended C22: one half-space slot is configured and `static_obstacles` has
an entry without half-spaces for each of the two stages; the update completes and logs one
line, "1 expected, 0 present", for stage 1. -/
theorem LinearizedConstraints.update_shortfall_warning_witness :
    ∃ m', LinearizedConstraints.update ⟨id, id, id⟩ (sampleProjection ℚ)
        (sampleConfigHalfspace ℚ) (sampleSolver ℚ)
        (LinearizedConstraints.new (sampleConfigHalfspace ℚ) (sampleMemory ℚ)) ⟨fun _ => 3⟩
        (sampleData ℚ) ⟨[[], []]⟩ = some m' ∧
      m'.warnings = [⟨1, 0⟩] := by
  obtain ⟨m', hm', hw, _⟩ := LinearizedConstraints.update_shortfall_warning ⟨id, id, id⟩
    (sampleProjection ℚ) (sampleConfigHalfspace ℚ) (sampleSolver ℚ)
    (LinearizedConstraints.new (sampleConfigHalfspace ℚ) (sampleMemory ℚ)) ⟨fun _ => 3⟩
    (sampleData ℚ) ⟨[[], []]⟩
    (LinearizedConstraints.sampleHalfspace_inRange_static ℚ ⟨[[], []]⟩ (Or.inr (by simp)))
  refine ⟨m', hm', ?_⟩
  rw [hw]
  rfl

/-- Two loops whose bodies agree on the states of an invariant `I` of the second give the
same result. -/
theorem forLoop_congr {σ : Type} (body body' : Nat → σ → Option σ) (I : σ → Prop)
    (hbody : ∀ i s, I s → body' i s = body i s)
    (hinv : ∀ i s s', I s → body i s = some s' → I s') :
    ∀ (count start : Nat) (s : σ), I s →
      forLoop body' start count s = forLoop body start count s := by
  intro count
  induction count with
  | zero => intro start s _; rfl
  | succ n ih =>
    intro start s hs
    rw [forLoop_succ, forLoop_succ, hbody start s hs]
    cases hb : body start s with
    | none => rfl
    | some t => exact ih (start + 1) t (hinv start s t hs hb)

/-- With guidance the anchor is computed from the ego position and the obstacles only. -/
theorem LinearizedConstraints.anchor_guidance {F : Type} [Field F] (num : Numerics F)
    (dr : DouglasRachford F) (config : Config F) (solver solver' : Solver F)
    (u : LinearizedConstraints F) (data data' : RealTimeData F)
    (copied_obstacles : List (DynamicObstacle F)) (k d : Nat)
    (hg : u._use_guidance = true)
    (hxy : ∀ k name, name ≠ "psi" →
      solver'.getEgoPrediction k name = solver.getEgoPrediction k name) :
    LinearizedConstraints.anchor num dr config solver' u data' copied_obstacles k d =
      LinearizedConstraints.anchor num dr config solver u data copied_obstacles k d := by
  unfold LinearizedConstraints.anchor
  simp only [hg, Bool.not_true, Bool.false_eq_true, if_false]
  rw [hxy k "x" (by decide), hxy k "y" (by decide)]

/-- With guidance, `update` reads neither `robot_area` nor the heading of the ego
prediction. -/
theorem LinearizedConstraints.update_guidance_congr {F : Type} [Field F] (num : Numerics F)
    (dr : DouglasRachford F) (config : Config F) (solver solver' : Solver F)
    (m : LinearizedConstraints F) (state : State F) (data data' : RealTimeData F)
    (module_data : ModuleData F) (hg : m._use_guidance = true)
    (hobs : data'.dynamic_obstacles = data.dynamic_obstacles) (hN : solver'.N = solver.N)
    (hxy : ∀ k name, name ≠ "psi" →
      solver'.getEgoPrediction k name = solver.getEgoPrediction k name) :
    LinearizedConstraints.update num dr config solver' m state data' module_data =
      LinearizedConstraints.update num dr config solver m state data module_data := by
  unfold LinearizedConstraints.update
  simp only
  rw [hobs, hN]
  apply forLoop_congr _ _ (fun u => u._use_guidance = true)
  · intro k u hu
    apply forLoop_congr _ _ (fun v => v._use_guidance = true)
    · intro d v hv
      unfold LinearizedConstraints.updateDisc
      rw [LinearizedConstraints.anchor_guidance num dr config solver solver' v data data'
        data.dynamic_obstacles k d hv hxy]
    · intro d v v' hv hstep
      exact (LinearizedConstraints.use_guidance_of_settings v' v
        (LinearizedConstraints.updateDisc_settings num dr config solver data module_data
          data.dynamic_obstacles k d v v' hstep)).1.trans hv
    · exact hu
  · intro k u u' hu hstep
    exact (LinearizedConstraints.use_guidance_of_settings u' u
      (LinearizedConstraints.updateStage_frame num dr config solver data module_data k u u'
        hstep).1).1.trans hu
  · exact hg

theorem LinearizedConstraints.setConstraint_offset {F : Type} (k : Nat) (a1 a2 b : F)
    (s : SetParametersState F) (k' i' : Nat) :
    valuesAt (LinearizedConstraints.setConstraint k a1 a2 b s).params
        ParameterField.EgoDiscOffset k' i' =
      valuesAt s.params ParameterField.EgoDiscOffset k' i' := by
  have := LinearizedConstraints.valuesAt_setConstraint k (a1, a2, b) s
    ParameterField.EgoDiscOffset k' i'
  simpa [constraintValue] using this

/-- With guidance, `setParameters` writes no disc offset. -/
theorem LinearizedConstraints.setParameters_guidance_offset {F : Type}
    (m : LinearizedConstraints F) (solver solver' : Solver F) (data : RealTimeData F)
    (module_data : ModuleData F) (k : Nat) (hg : m._use_guidance = true)
    (h : LinearizedConstraints.setParameters m solver data module_data k = some solver')
    (k' i' : Nat) :
    valuesAt solver'._params ParameterField.EgoDiscOffset k' i' =
      valuesAt solver._params ParameterField.EgoDiscOffset k' i' := by
  have hdummy : ∀ (kk count start : Nat) (s s' : SetParametersState F),
      forLoop (LinearizedConstraints.setDummy m kk) start count s = some s' →
      valuesAt s'.params ParameterField.EgoDiscOffset k' i' =
        valuesAt s.params ParameterField.EgoDiscOffset k' i' := by
    intro kk count start s s' hs
    exact forLoop_preserved _
      (fun _ u => valuesAt u.params ParameterField.EgoDiscOffset k' i' =
        valuesAt s.params ParameterField.EgoDiscOffset k' i') count start s s'
      (fun i u u' _ _ hu hP => by
        simp only [LinearizedConstraints.setDummy, Option.some.injEq] at hu
        subst hu
        rw [LinearizedConstraints.setConstraint_offset]
        exact hP) hs rfl
  have hbuffered : ∀ (d count start : Nat) (s s' : SetParametersState F),
      forLoop (LinearizedConstraints.setBuffered m k d) start count s = some s' →
      valuesAt s'.params ParameterField.EgoDiscOffset k' i' =
        valuesAt s.params ParameterField.EgoDiscOffset k' i' := by
    intro d count start s s' hs
    exact forLoop_preserved _
      (fun _ u => valuesAt u.params ParameterField.EgoDiscOffset k' i' =
        valuesAt s.params ParameterField.EgoDiscOffset k' i') count start s s'
      (fun i u u' _ _ hu hP => by
        unfold LinearizedConstraints.setBuffered at hu
        split at hu
        · simp only [Option.some.injEq] at hu
          subst hu
          rw [LinearizedConstraints.setConstraint_offset]
          exact hP
        · cases hu) hs rfl
  unfold LinearizedConstraints.setParameters at h
  simp only at h
  split at h
  · split at h
    · cases h
    · rename_i s hs
      simp only [Option.some.injEq] at h
      subst h
      exact hdummy 0 _ _ _ s hs
  · split at h
    · cases h
    · rename_i s hs
      simp only [Option.some.injEq] at h
      subst h
      exact forLoop_preserved _
        (fun _ u => valuesAt u.params ParameterField.EgoDiscOffset k' i' =
          valuesAt solver._params ParameterField.EgoDiscOffset k' i') _ 0 _ s
        (fun d u u' _ _ hu hP => by
          unfold LinearizedConstraints.setParametersDisc at hu
          unfold LinearizedConstraints.setDiscOffset at hu
          simp only [hg, Bool.not_true, Bool.false_eq_true, if_false] at hu
          split at hu
          · cases hu
          · rename_i s2 hs2
            exact (hdummy k _ _ s2 u' hu).trans ((hbuffered d _ _ u s2 hs2).trans hP))
        hs rfl

theorem slot_sets_coincide_iff (n_discs M : Nat) :
    (∀ slot, slot < n_discs * M ↔ slot < M) ↔ (n_discs = 1 ∨ M = 0) := by
  constructor
  · intro h
    by_cases hM : M = 0
    · exact Or.inr hM
    · left
      have hle : n_discs * M ≤ M := by
        by_contra hc
        have := (h M).1 (by omega)
        omega
      have hge : M ≤ n_discs * M := by
        by_contra hc
        have := (h (n_discs * M)).2 (by omega)
        omega
      have heq : n_discs * M = 1 * M := by omega
      exact Nat.eq_of_mul_eq_mul_right (by omega) heq
  · rintro (h | h)
    · subst h
      intro slot
      rw [Nat.one_mul]
    · subst h
      intro slot
      rw [Nat.mul_zero]

/-- C28 (amended): slot layout of `setParameters`. With `n ≤ _max_obstacles` obstacles and
`M = _max_obstacles + _n_other_halfspaces`, at a stage `k > 0` the entry of disc `d` and
in-block index `i < M` is written to sink slot `d * M + i`, every slot below `_n_discs * M`
receives exactly one triple and no slot from `_n_discs * M` on is written; at stage 0 every
slot below `M` receives the dummy triple and no slot from `M` on is written. The two sets of
slots coincide exactly when `_n_discs = 1` or `M = 0`. -/
theorem LinearizedConstraints.setParameters_slot_layout {F : Type}
    (m : LinearizedConstraints F) (solver : Solver F) (data : RealTimeData F)
    (module_data : ModuleData F) (k : Nat) (hk0 : 0 < k)
    (hn : data.dynamic_obstacles.length ≤ m._max_obstacles)
    (hbuf : ∀ d i, d < m._n_discs →
      i < data.dynamic_obstacles.length + m._n_other_halfspaces →
      (m.readConstraint d k i).isSome)
    (harea : m._use_guidance = false → m._n_discs ≤ data.robot_area.length) :
    ∃ solver0 solverk,
      LinearizedConstraints.setParameters m solver data module_data 0 = some solver0 ∧
      LinearizedConstraints.setParameters m solver data module_data k = some solverk ∧
      (∀ d i, d < m._n_discs → i < m._max_obstacles + m._n_other_halfspaces →
        WritesTriple solver._params solverk._params k
          (d * (m._max_obstacles + m._n_other_halfspaces) + i)
          (m.slotConstraint data.dynamic_obstacles.length k d i).1
          (m.slotConstraint data.dynamic_obstacles.length k d i).2.1
          (m.slotConstraint data.dynamic_obstacles.length k d i).2.2) ∧
      (∀ slot, slot < m._n_discs * (m._max_obstacles + m._n_other_halfspaces) →
        ∃ a1 a2 b, WritesTriple solver._params solverk._params k slot a1 a2 b) ∧
      (∀ f slot, f ≠ ParameterField.EgoDiscOffset →
        m._n_discs * (m._max_obstacles + m._n_other_halfspaces) ≤ slot →
        valuesAt solverk._params f k slot = valuesAt solver._params f k slot) ∧
      (∀ slot, slot < m._max_obstacles + m._n_other_halfspaces →
        WritesTriple solver._params solver0._params 0 slot m._dummy_a1 m._dummy_a2
          m._dummy_b) ∧
      (∀ f slot, m._max_obstacles + m._n_other_halfspaces ≤ slot →
        valuesAt solver0._params f 0 slot = valuesAt solver._params f 0 slot) ∧
      ((∀ slot, slot < m._n_discs * (m._max_obstacles + m._n_other_halfspaces) ↔
          slot < m._max_obstacles + m._n_other_halfspaces) ↔
        (m._n_discs = 1 ∨ m._max_obstacles + m._n_other_halfspaces = 0)) := by
  obtain ⟨solver0, hs0, hv0⟩ := LinearizedConstraints.setParameters_zero m solver data
    module_data
  obtain ⟨solverk, hsk, hin, hout⟩ := LinearizedConstraints.setParameters_pos m solver data
    module_data k (by omega) hn hbuf harea
  have hlayout : ∀ d i, d < m._n_discs → i < m._max_obstacles + m._n_other_halfspaces →
      WritesTriple solver._params solverk._params k
        (d * (m._max_obstacles + m._n_other_halfspaces) + i)
        (m.slotConstraint data.dynamic_obstacles.length k d i).1
        (m.slotConstraint data.dynamic_obstacles.length k d i).2.1
        (m.slotConstraint data.dynamic_obstacles.length k d i).2.2 := by
    intro d i hd hi
    exact writesTriple_of_constraintValue _ _ k _ _ (fun f hf => hin f d i hf hd hi)
  refine ⟨solver0, solverk, hs0, hsk, hlayout, ?_, ?_, ?_, ?_, slot_sets_coincide_iff _ _⟩
  · intro slot hslot
    have hM : 0 < m._max_obstacles + m._n_other_halfspaces := by
      rcases Nat.eq_zero_or_pos (m._max_obstacles + m._n_other_halfspaces) with h0 | h0
      · rw [h0, Nat.mul_zero] at hslot
        omega
      · exact h0
    have hd : slot / (m._max_obstacles + m._n_other_halfspaces) < m._n_discs :=
      (Nat.div_lt_iff_lt_mul hM).2 hslot
    have hi : slot % (m._max_obstacles + m._n_other_halfspaces) <
        m._max_obstacles + m._n_other_halfspaces := Nat.mod_lt _ hM
    have := hlayout _ _ hd hi
    rw [Nat.div_add_mod' slot (m._max_obstacles + m._n_other_halfspaces)] at this
    exact ⟨_, _, _, this⟩
  · intro f slot hf hslot
    exact hout f k slot hf (Or.inr hslot)
  · intro slot hslot
    refine writesTriple_of_constraintValue _ _ 0 slot m.dummyConstraint ?_
    intro f _
    rw [hv0 f 0 slot, if_pos ⟨rfl, hslot⟩]
  · intro f slot hslot
    rw [hv0 f 0 slot, if_neg (by omega), List.append_nil]

/-- Counterexample to C28 as stated: a module with two discs and no constraint slot
(`max_obstacles = 0`, `add_halfspaces = 0`). `setParameters(1)` and `setParameters(0)` both
succeed and write no constraint slot at all, so the two sets of written slots coincide (both
are empty) although `_n_discs = 2`. -/
theorem LinearizedConstraints.slot_sets_counterexample :
    (LinearizedConstraints.new (sampleConfigNoSlot ℚ) (sampleMemory ℚ))._n_discs = 2 ∧
    ∃ solver0 solver1,
      LinearizedConstraints.setParameters
        (LinearizedConstraints.new (sampleConfigNoSlot ℚ) (sampleMemory ℚ)) (sampleSolver2 ℚ)
        (sampleDataNoObstacle ℚ) ⟨[]⟩ 0 = some solver0 ∧
      LinearizedConstraints.setParameters
        (LinearizedConstraints.new (sampleConfigNoSlot ℚ) (sampleMemory ℚ)) (sampleSolver2 ℚ)
        (sampleDataNoObstacle ℚ) ⟨[]⟩ 1 = some solver1 ∧
      solver0._params = [] ∧
      solver1._params =
        [⟨ParameterField.EgoDiscOffset, 1, 0, 0⟩, ⟨ParameterField.EgoDiscOffset, 1, 1, 1⟩] ∧
      ∀ f slot, f ≠ ParameterField.EgoDiscOffset →
        valuesAt solver1._params f 1 slot = [] ∧ valuesAt solver0._params f 0 slot = [] := by
  refine ⟨rfl, _, _, rfl, rfl, rfl, rfl, ?_⟩
  intro f slot hf
  constructor
  · cases f <;> first | rfl | exact absurd rfl hf
  · rfl

/-- Witness of the amended C28: two discs, two obstacle slots, one half-space slot and one
obstacle, stage 1. -/
theorem LinearizedConstraints.setParameters_slot_layout_witness :
    ∃ solver0 solverk,
      LinearizedConstraints.setParameters
        (LinearizedConstraints.new (sampleConfig2 ℚ) (sampleMemory ℚ)) (sampleSolver2 ℚ)
        (sampleData2 ℚ) ⟨[]⟩ 0 = some solver0 ∧
      LinearizedConstraints.setParameters
        (LinearizedConstraints.new (sampleConfig2 ℚ) (sampleMemory ℚ)) (sampleSolver2 ℚ)
        (sampleData2 ℚ) ⟨[]⟩ 1 = some solverk ∧
      (∀ slot, slot < 2 * (2 + 1) →
        ∃ a1 a2 b, WritesTriple (sampleSolver2 ℚ)._params solverk._params 1 slot a1 a2 b) ∧
      (∀ slot, slot < 2 + 1 →
        WritesTriple (sampleSolver2 ℚ)._params solver0._params 0 slot 1 0 5) := by
  obtain ⟨solver0, solverk, h0, hk, _, hall, _, hzero, _⟩ :=
    LinearizedConstraints.setParameters_slot_layout
      (LinearizedConstraints.new (sampleConfig2 ℚ) (sampleMemory ℚ)) (sampleSolver2 ℚ)
      (sampleData2 ℚ) ⟨[]⟩ 1 (by decide) (by decide)
      (fun d i hd hi => LinearizedConstraints.sample2_allocated ℚ d 1 i hd (by decide)
        (by
          have : (sampleData2 ℚ).dynamic_obstacles.length = 1 := rfl
          have h2 : (LinearizedConstraints.new (sampleConfig2 ℚ)
            (sampleMemory ℚ))._max_obstacles = 2 := rfl
          omega))
      (fun _ => by decide)
  exact ⟨solver0, solverk, h0, hk, hall, hzero⟩

/-- The result of `projectToSafety` on a non-empty list whose obstacles have a position `q o`
at the stage: the fold of the projection step over three copies of the list. -/
theorem LinearizedConstraints.projectToSafety_eq_foldl {F : Type} [Field F]
    (dr : DouglasRachford F) (config : Config F) (m : LinearizedConstraints F)
    (copied_obstacles : List (DynamicObstacle F)) (first : DynamicObstacle F) (k : Nat)
    (pos : Vector2d F) (q : DynamicObstacle F → Vector2d F)
    (hfirst : copied_obstacles[0]? = some first)
    (hq : ∀ o ∈ copied_obstacles, o.predictedPosition k = some (q o)) :
    LinearizedConstraints.projectToSafety dr config m copied_obstacles k pos =
      some
        ((copied_obstacles ++ copied_obstacles ++ copied_obstacles).foldl
          (fun p o => dr p (q o) (q first)
            ((if m._use_guidance then 1 / 1000 else o.radius) + config.robot_radius) p)
          pos) := by
  have hne : copied_obstacles.isEmpty = false := by
    cases copied_obstacles with
    | nil => simp at hfirst
    | cons a l => rfl
  have hpass : ∀ p, copied_obstacles.foldlM
      (LinearizedConstraints.projectionStep dr config m copied_obstacles k) p =
      some (copied_obstacles.foldl
        (fun p o => dr p (q o) (q first)
          ((if m._use_guidance then 1 / 1000 else o.radius) + config.robot_radius) p) p) := by
    intro p
    apply foldlM_eq_foldl
    intro b o ho
    have hf : first ∈ copied_obstacles := List.getElem?_mem hfirst
    unfold LinearizedConstraints.projectionStep LinearizedConstraints.inflatedRadius
    rw [hq o ho, hfirst]
    simp only
    rw [hq first hf]
  unfold LinearizedConstraints.projectToSafety
  rw [hne]
  simp only [Bool.false_eq_true, if_false, forLoop, hpass, Option.bind, List.foldl_append]

/-- C13 (amended): the inflated exclusion radius of an obstacle is
`R = (_use_guidance ? 1e-3 : obstacle.radius) + robot_radius`, in guidance mode
`1e-3 + robot_radius`, at both sites. `projectToSafety` on a non-empty list (obstacle
positions `q o` at the stage) returns exactly the result of the projection steps of its three
passes, each step called with the current point, `q o`, the position of the first obstacle,
the `R` of its obstacle and the current point again; and under `UpdateInRange` the update
succeeds and the stored triple of every obstacle slot of the stages `1 ≤ k < N` has
`b = a1 o.x + a2 o.y - R`, `o` the predicted position. -/
theorem LinearizedConstraints.update_inflated_radius {F : Type} [Field F] (num : Numerics F)
    (dr : DouglasRachford F) (config : Config F) (solver : Solver F)
    (m : LinearizedConstraints F) (state : State F) (data : RealTimeData F)
    (module_data : ModuleData F)
    (h : LinearizedConstraints.UpdateInRange m solver data module_data) :
    (∀ (copied_obstacles : List (DynamicObstacle F)) (first : DynamicObstacle F) (k : Nat)
        (pos : Vector2d F) (q : DynamicObstacle F → Vector2d F),
      copied_obstacles[0]? = some first →
      (∀ o ∈ copied_obstacles, o.predictedPosition k = some (q o)) →
      LinearizedConstraints.projectToSafety dr config m copied_obstacles k pos =
        some
          ((copied_obstacles ++ copied_obstacles ++ copied_obstacles).foldl
            (fun p o => dr p (q o) (q first)
              ((if m._use_guidance then 1 / 1000 else o.radius) + config.robot_radius) p)
            pos)) ∧
    ∃ m', LinearizedConstraints.update num dr config solver m state data module_data
        = some m' ∧
      ∀ (k d i : Nat) (obstacle : DynamicObstacle F), 1 ≤ k → k < solver.N →
        d < m._n_discs → data.dynamic_obstacles[i]? = some obstacle →
        ∃ o a1 a2 b, obstacle.predictedPosition k = some o ∧
          m'.readConstraint d k i = some (a1, a2, b) ∧
          b = a1 * o.x + a2 * o.y -
            ((if m._use_guidance then 1 / 1000 else obstacle.radius) +
              config.robot_radius) := by
  constructor
  · intro copied_obstacles first k pos q hfirst hq
    exact LinearizedConstraints.projectToSafety_eq_foldl dr config m copied_obstacles first k
      pos q hfirst hq
  · obtain ⟨m', hm', _, hall⟩ := LinearizedConstraints.update_spec num dr config solver m
      state data module_data h
    refine ⟨m', hm', ?_⟩
    intro k d i obstacle hk1 hkN hd hobs
    have hmem : obstacle ∈ data.dynamic_obstacles := List.getElem?_mem hobs
    obtain ⟨mode0, hmode, hlen⟩ := h.steps obstacle hmem
    obtain ⟨o, ho⟩ := DynamicObstacle.predictedPosition_isSome obstacle k mode0 hk1 hmode
      (by omega)
    obtain ⟨p, hp⟩ := LinearizedConstraints.anchor_isSome num dr config solver m data
      data.dynamic_obstacles k d (fun hg => Nat.lt_of_lt_of_le hd (h.discs hg))
      (fun o' ho' => by
        obtain ⟨mode', hmode', hlen'⟩ := h.steps o' ho'
        exact DynamicObstacle.predictedPosition_isSome o' k mode' hk1 hmode' (by omega))
    have hread := (hall d k i).trans (LinearizedConstraints.update_obstacle_slot num dr
      config solver m data module_data k d i obstacle p o hk1 hkN hd hobs hp ho)
    exact ⟨o, _, _, _, ho, hread, rfl⟩

/-- Witness of the amended C13: the sample module in guidance mode, whose radius for the
sample obstacle is `1/1000 + 1/4`; a probe projection that returns the radius it is called
with shows it in `projectToSafety`. -/
theorem LinearizedConstraints.update_inflated_radius_witness :
    LinearizedConstraints.projectToSafety (fun _ _ _ r _ => ⟨r, r⟩) (sampleConfig ℚ)
        (LinearizedConstraints.new (sampleConfig ℚ) (sampleMemory ℚ)).setTopologyConstraints
        [sampleObstacle ℚ] 1 ⟨0, 0⟩ =
      some
        (([sampleObstacle ℚ] ++ [sampleObstacle ℚ] ++ [sampleObstacle ℚ]).foldl
          (fun _ _ => (⟨1 / 1000 + 1 / 4, 1 / 1000 + 1 / 4⟩ : Vector2d ℚ)) ⟨0, 0⟩) ∧
    ∃ m' o a1 a2 b,
      LinearizedConstraints.update ⟨id, id, id⟩ (fun _ _ _ r _ => ⟨r, r⟩) (sampleConfig ℚ)
        (sampleSolver ℚ)
        (LinearizedConstraints.new (sampleConfig ℚ) (sampleMemory ℚ)).setTopologyConstraints
        ⟨fun _ => 3⟩ (sampleData ℚ) ⟨[]⟩ = some m' ∧
      (sampleObstacle ℚ).predictedPosition 1 = some o ∧
      m'.readConstraint 0 1 0 = some (a1, a2, b) ∧
      b = a1 * o.x + a2 * o.y - (1 / 1000 + 1 / 4) := by
  obtain ⟨hproj, m', hm', hall⟩ := LinearizedConstraints.update_inflated_radius ⟨id, id, id⟩
    (fun _ _ _ r _ => ⟨r, r⟩) (sampleConfig ℚ) (sampleSolver ℚ)
    (LinearizedConstraints.new (sampleConfig ℚ) (sampleMemory ℚ)).setTopologyConstraints
    ⟨fun _ => 3⟩ (sampleData ℚ) ⟨[]⟩
    (LinearizedConstraints.setTopologyConstraints_inRange _ _ _ _
      (by simp [LinearizedConstraints.new, sampleConfig])
      (LinearizedConstraints.sample_inRange ℚ))
  obtain ⟨o, a1, a2, b, ho, hr, hb⟩ := hall 1 0 0 (sampleObstacle ℚ) (le_refl 1)
    (by simp [sampleSolver]) (by simp [LinearizedConstraints.setTopologyConstraints])
    (by simp [sampleData])
  refine ⟨?_, m', o, a1, a2, b, hm', ho, hr, hb⟩
  exact hproj [sampleObstacle ℚ] (sampleObstacle ℚ) 1 ⟨0, 0⟩ (fun _ => ⟨2, 0⟩) rfl
    (by
      intro o ho
      simp only [List.mem_singleton] at ho
      subst ho
      rfl)

/-- C25: after `setTopologyConstraints()` the module uses one disc and the robot centre as
anchor. Under the range conditions `update` succeeds; for every stage `1 ≤ k < N` the anchor
`p` is the projection of the ego position `(x, y)` of the stage (no disc offset, no
heading), every obstacle slot of disc 0 holds the half-space linearized about `p` with
radius `1e-3 + robot_radius`, and the supplied static half-spaces follow them; no buffer slot
of another disc is changed; a RealTimeData that differs only in `robot_area` and an ego
prediction that differs only in the heading `psi` give the same module; and
`setParameters(k)`, `0 < k < N`, then writes one triple to each of the slots below
`_max_obstacles + _n_other_halfspaces`, nothing to any other slot or stage, and no disc
offset. -/
theorem LinearizedConstraints.setTopologyConstraints_one_disc {F : Type} [Field F]
    (num : Numerics F) (dr : DouglasRachford F) (config : Config F) (solver : Solver F)
    (m : LinearizedConstraints F) (state : State F) (data : RealTimeData F)
    (module_data : ModuleData F)
    (h : LinearizedConstraints.UpdateInRange m.setTopologyConstraints solver data
      module_data) :
    ∃ m', LinearizedConstraints.update num dr config solver m.setTopologyConstraints state
        data module_data = some m' ∧
      m'._n_discs = 1 ∧
      (∀ k, 1 ≤ k → k < solver.N →
        ∃ p, LinearizedConstraints.projectToSafety dr config m.setTopologyConstraints
            data.dynamic_obstacles k
            ⟨solver.getEgoPrediction k "x", solver.getEgoPrediction k "y"⟩ = some p ∧
          ∀ (i : Nat) (obstacle : DynamicObstacle F) (o : Vector2d F),
            data.dynamic_obstacles[i]? = some obstacle →
            obstacle.predictedPosition k = some o →
            m'.readConstraint 0 k i =
              some ((o.x - p.x) / (o.sub p).norm num, (o.y - p.y) / (o.sub p).norm num,
                (o.x - p.x) / (o.sub p).norm num * o.x +
                  (o.y - p.y) / (o.sub p).norm num * o.y -
                  (1 / 1000 + config.robot_radius))) ∧
      (∀ (k j : Nat) (halfspaces : List (Halfspace F)) (halfspace : Halfspace F),
        1 ≤ k → k < solver.N → module_data.static_obstacles[k]? = some halfspaces →
        j < min halfspaces.length m._n_other_halfspaces →
        halfspaces[j]? = some halfspace →
        m'.readConstraint 0 k (data.dynamic_obstacles.length + j) =
          some (halfspace.A.x, halfspace.A.y, halfspace.b)) ∧
      (∀ d k i, d ≠ 0 → m'.readConstraint d k i = m.readConstraint d k i) ∧
      (∀ (solver' : Solver F) (data' : RealTimeData F),
        data'.dynamic_obstacles = data.dynamic_obstacles → solver'.N = solver.N →
        (∀ k name, name ≠ "psi" →
          solver'.getEgoPrediction k name = solver.getEgoPrediction k name) →
        LinearizedConstraints.update num dr config solver' m.setTopologyConstraints state
          data' module_data = some m') ∧
      ∀ (sink : Solver F) (k : Nat), 0 < k → k < solver.N →
        ∃ sink', LinearizedConstraints.setParameters m' sink data module_data k
            = some sink' ∧
          (∀ slot, slot < m._max_obstacles + m._n_other_halfspaces →
            WritesTriple sink._params sink'._params k slot
              (m'.slotConstraint data.dynamic_obstacles.length k 0 slot).1
              (m'.slotConstraint data.dynamic_obstacles.length k 0 slot).2.1
              (m'.slotConstraint data.dynamic_obstacles.length k 0 slot).2.2) ∧
          (∀ f k' slot, f ≠ ParameterField.EgoDiscOffset →
            (k' ≠ k ∨ m._max_obstacles + m._n_other_halfspaces ≤ slot) →
            valuesAt sink'._params f k' slot = valuesAt sink._params f k' slot) ∧
          (∀ k' slot, valuesAt sink'._params ParameterField.EgoDiscOffset k' slot =
            valuesAt sink._params ParameterField.EgoDiscOffset k' slot) := by
  obtain ⟨m', hm', hset, hall⟩ := LinearizedConstraints.update_spec num dr config solver
    m.setTopologyConstraints state data module_data h
  simp only [LinearizedConstraints.settings, Prod.mk.injEq] at hset
  obtain ⟨_, _, _, e4, e5, e6, _, e8⟩ := hset
  have e4' : m'._use_guidance = true := e4
  have e5' : m'._n_discs = 1 := e5
  have e6' : m'._n_other_halfspaces = m._n_other_halfspaces := e6
  have e8' : m'._max_obstacles = m._max_obstacles := e8
  refine ⟨m', hm', e5', ?_, ?_, ?_, ?_, ?_⟩
  · intro k hk1 hkN
    obtain ⟨p, hp⟩ := LinearizedConstraints.anchor_isSome num dr config solver
      m.setTopologyConstraints data data.dynamic_obstacles k 0
      (fun hg => by cases hg)
      (fun o' ho' => by
        obtain ⟨mode', hmode', hlen'⟩ := h.steps o' ho'
        exact DynamicObstacle.predictedPosition_isSome o' k mode' hk1 hmode' (by omega))
    have hp' : LinearizedConstraints.projectToSafety dr config m.setTopologyConstraints
        data.dynamic_obstacles k
        ⟨solver.getEgoPrediction k "x", solver.getEgoPrediction k "y"⟩ = some p := by
      rw [← hp]
      rfl
    refine ⟨p, hp', ?_⟩
    intro i obstacle o hobs ho
    have hread := (hall 0 k i).trans (LinearizedConstraints.update_obstacle_slot num dr
      config solver m.setTopologyConstraints data module_data k 0 i obstacle p o hk1 hkN
      Nat.zero_lt_one hobs hp ho)
    rw [hread]
    rfl
  · intro k j halfspaces halfspace hk1 hkN hk hj hget
    rw [hall 0 k _]
    exact LinearizedConstraints.update_halfspace_slot num dr config solver
      m.setTopologyConstraints data module_data h k 0 j halfspaces halfspace hk1 hkN
      Nat.zero_lt_one hk hj hget
  · intro d k i hd
    rw [hall d k i]
    unfold LinearizedConstraints.updatedConstraint
    have : ¬ (1 ≤ k ∧ k < solver.N ∧ d < m.setTopologyConstraints._n_discs) := by
      intro hc
      have : d < 1 := hc.2.2
      omega
    rw [if_neg this]
    rfl
  · intro solver' data' hobs hN hxy
    rw [LinearizedConstraints.update_guidance_congr num dr config solver solver'
      m.setTopologyConstraints state data data' module_data rfl hobs hN hxy]
    exact hm'
  · intro sink k hk0 hkN
    have hn : data.dynamic_obstacles.length ≤ m._max_obstacles := h.obstacles
    obtain ⟨sink', hs, hin, hout⟩ := LinearizedConstraints.setParameters_pos m' sink data
      module_data k (by omega) (by rw [e8']; exact hn)
      (fun d i hd hi => by
        rw [hall d k i]
        exact LinearizedConstraints.updatedConstraint_isSome num dr config solver _ data
          module_data h d k i (by rw [e5'] at hd; exact hd) hkN
          (by
            rw [e6'] at hi
            have : i < m._max_obstacles + m._n_other_halfspaces := by omega
            exact this))
      (fun hg => by rw [e4'] at hg; cases hg)
    rw [e5', e6', e8'] at hin
    rw [e5', e6', e8', Nat.one_mul] at hout
    refine ⟨sink', hs, ?_, hout, ?_⟩
    · intro slot hslot
      refine writesTriple_of_constraintValue _ _ k slot
        (m'.slotConstraint data.dynamic_obstacles.length k 0 slot) ?_
      intro f hf
      have := hin f 0 slot hf (by omega) hslot
      rw [Nat.zero_mul, Nat.zero_add] at this
      exact this
    · intro k' slot
      exact LinearizedConstraints.setParameters_guidance_offset m' sink sink' data
        module_data k e4' hs k' slot

/-- Witness of C25: the sample module after `setTopologyConstraints()`, the ego position at
the origin and the obstacle at `(2, 0)`; the second update has no disc in `robot_area` and
another heading; stage 1 of `setParameters`. -/
theorem LinearizedConstraints.setTopologyConstraints_one_disc_witness :
    ∃ m', LinearizedConstraints.update ⟨id, id, id⟩ (sampleProjection ℚ) (sampleConfig ℚ)
        (sampleSolver ℚ)
        (LinearizedConstraints.new (sampleConfig ℚ) (sampleMemory ℚ)).setTopologyConstraints
        ⟨fun _ => 3⟩ (sampleData ℚ) ⟨[]⟩ = some m' ∧
      (∃ p, LinearizedConstraints.projectToSafety (sampleProjection ℚ) (sampleConfig ℚ)
          (LinearizedConstraints.new (sampleConfig ℚ)
            (sampleMemory ℚ)).setTopologyConstraints
          [sampleObstacle ℚ] 1 ⟨0, 0⟩ = some p ∧
        m'.readConstraint 0 1 0 =
          some ((2 - p.x) / (Vector2d.sub ⟨2, 0⟩ p).norm ⟨id, id, id⟩,
            (0 - p.y) / (Vector2d.sub ⟨2, 0⟩ p).norm ⟨id, id, id⟩,
            (2 - p.x) / (Vector2d.sub ⟨2, 0⟩ p).norm ⟨id, id, id⟩ * 2 +
              (0 - p.y) / (Vector2d.sub ⟨2, 0⟩ p).norm ⟨id, id, id⟩ * 0 -
              (1 / 1000 + 1 / 4))) ∧
      LinearizedConstraints.update ⟨id, id, id⟩ (sampleProjection ℚ) (sampleConfig ℚ)
        { N := 2, getEgoPrediction := fun _ name => if name = "psi" then 1 else 0,
          _params := [] }
        (LinearizedConstraints.new (sampleConfig ℚ) (sampleMemory ℚ)).setTopologyConstraints
        ⟨fun _ => 3⟩ { robot_area := [], dynamic_obstacles := [sampleObstacle ℚ] } ⟨[]⟩
        = some m' ∧
      ∃ sink', LinearizedConstraints.setParameters m' (sampleSolver ℚ) (sampleData ℚ) ⟨[]⟩ 1
          = some sink' ∧
        (∀ slot, slot < 1 + 0 →
          ∃ a1 a2 b, WritesTriple (sampleSolver ℚ)._params sink'._params 1 slot a1 a2 b) ∧
        ∀ k' slot, valuesAt sink'._params ParameterField.EgoDiscOffset k' slot = [] := by
  obtain ⟨m', hm', _, hpin, _, _, hsame, hset⟩ :=
    LinearizedConstraints.setTopologyConstraints_one_disc ⟨id, id, id⟩ (sampleProjection ℚ)
      (sampleConfig ℚ) (sampleSolver ℚ)
      (LinearizedConstraints.new (sampleConfig ℚ) (sampleMemory ℚ)) ⟨fun _ => 3⟩
      (sampleData ℚ) ⟨[]⟩
      (LinearizedConstraints.setTopologyConstraints_inRange _ _ _ _
        (by simp [LinearizedConstraints.new, sampleConfig])
        (LinearizedConstraints.sample_inRange ℚ))
  obtain ⟨sink', hs, hin, _, hoff⟩ := hset (sampleSolver ℚ) 1 (by decide)
    (by simp [sampleSolver])
  obtain ⟨p, hp, hslots⟩ := hpin 1 (le_refl 1) (by simp [sampleSolver])
  refine ⟨m', hm', ⟨p, hp, ?_⟩, ?_, sink', hs, fun slot hslot => ⟨_, _, _, hin slot hslot⟩,
    hoff⟩
  · exact hslots 0 (sampleObstacle ℚ) ⟨2, 0⟩ rfl rfl
  · exact hsame
      { N := 2, getEgoPrediction := fun _ name => if name = "psi" then 1 else 0,
        _params := [] }
      { robot_area := [], dynamic_obstacles := [sampleObstacle ℚ] } rfl rfl
      (fun k name hname => by simp [sampleSolver, hname])

/-- Known values of `double` arithmetic reproduced by `Binary64`:
`0.1 + 0.2 = 0.30000000000000004` (not `0.3`), `sqrt(2) = 1.4142135623730951`,
`1 / 3 = 0.3333333333333333`, `1e308 * 10` overflows, `1 / 0` is not finite, the largest
`double` is `2^1024 - 2^971`, and half of the smallest subnormal `2^-1074` rounds to 0. -/
theorem Binary64.known_values :
    Binary64.round (1 / 10) + Binary64.round (2 / 10) =
      Binary64.round (30000000000000004 / 100000000000000000) ∧
    Binary64.round (1 / 10) + Binary64.round (2 / 10) ≠ Binary64.round (3 / 10) ∧
    Binary64.sqrt 2 = Binary64.round (14142135623730951 / 10000000000000000) ∧
    (1 : Binary64) / 3 = Binary64.round (3333333333333333 / 10000000000000000) ∧
    Binary64.round (10 ^ 308) * 10 = ⟨none⟩ ∧
    (1 : Binary64) / 0 = ⟨none⟩ ∧
    Binary64.round (2 ^ 1024 - 2 ^ 971) = ⟨some (2 ^ 1024 - 2 ^ 971)⟩ ∧
    Binary64.round (2 ^ 1024 - 2 ^ 970) = ⟨none⟩ ∧
    Binary64.round (Binary64.pow2 (-1074)) = ⟨some (Binary64.pow2 (-1074))⟩ ∧
    Binary64.round (Binary64.pow2 (-1074) / 2) = ⟨some 0⟩ := by
  decide!

end MPCPlanner
